import Mathlib

/-!
FinalProject.cpp: a shallow embedding and its checked properties.

The program is a single C++ translation unit that draws a textured desk scene
with OpenGL.  This development embeds the parts of it that the specification
speaks about:

* `flipImageVertically`, the in-place row reversal of a decoded image;
* the vertex literals of `UCreateMesh` and the vertex counts it stores;
* the input callbacks (`UProcessInput`, `UMousePositionCallback`,
  `UMouseScrollCallback`);
* `URender`, as the sequence of OpenGL commands it issues;
* `UCreateTexture`, `UInitialize`, `UCreateShaderProgram` and `main`, as the
  calls they make and the lines they print;
* the teardown functions `UDestroyMesh`, `UDestroyTexture` and
  `UDestroyShaderProgram`, as the OpenGL calls they make;
* the render loop as a run over input events (`runEvents`): a frame, a cursor
  event or a scroll event at a time.

Conventions of the embedding.

* `int` and `GLuint` values are natural numbers; the image dimensions come
  from `stbi_load`, which keeps `width * height * channels` inside `int`.
* `float` and `double` values are rationals.  The vertex data and the
  arguments of the GLM calls are kept as the decimal values written in the
  source.  The two mouse callbacks and the frame timing take the arithmetic as
  a parameter (`FloatArith`): `FloatArith.ieee` rounds every conversion to
  binary32 or binary64 as the compiled program does, `FloatArith.exact` rounds
  nothing.
* OpenGL, GLFW, GLM and the `Camera` class of `learnOpengl/camera.h` are
  libraries outside the translation unit.  Their functions are parameters
  (`GLM`, `CameraView`) and the OpenGL calls are recorded as a command list.
  GLM angles are in radians.
-/

namespace FinalProject

/-! # Part I: the embedding -/

/-! ## `flipImageVertically` -/

/-- The three statements of the inner loop body that exchange `image[index1]`
and `image[index2]` through `tmp`.  A read outside the buffer yields `0` and a
write outside the buffer is dropped. -/
def swapBytes (image : List Nat) (index1 index2 : Nat) : List Nat :=
  let tmp := image.getD index1 0
  let image := image.set index1 (image.getD index2 0)
  image.set index2 tmp

/-- The inner loop `for (int i = width * channels; i > 0; --i)`: the first
argument is the current value of `i`; each round swaps one byte pair and
advances both indices. -/
def flipRow : Nat → Nat → Nat → List Nat → List Nat
  | 0, _, _, image => image
  | i + 1, index1, index2, image =>
    flipRow i (index1 + 1) (index2 + 1) (swapBytes image index1 index2)

/-- The outer loop `for (int j = 0; j < height / 2; ++j)`: the first argument
is the number of rounds still to run, `height / 2 - j`. -/
def flipRows (width height channels : Nat) : Nat → Nat → List Nat → List Nat
  | 0, _, image => image
  | n + 1, j, image =>
    let index1 := j * width * channels
    let index2 := (height - 1 - j) * width * channels
    flipRows width height channels n (j + 1)
      (flipRow (width * channels) index1 index2 image)

/-- Source function `flipImageVertically(image, width, height, channels)`; the
result is the buffer after the call. -/
def flipImageVertically (image : List Nat) (width height channels : Nat) : List Nat :=
  flipRows width height channels (height / 2) 0 image

/-- The row that a byte of row `r` comes from after rows `j` and
`height - 1 - j` have been exchanged. -/
def swapRowIndex (height j r : Nat) : Nat :=
  if r = j then height - 1 - j else if r = height - 1 - j then j else r

/-- The row that a byte of row `r` comes from after `n` rounds of the outer
loop that started at row `j`. -/
def flippedRowIndex (height j n r : Nat) : Nat :=
  if (j ≤ r ∧ r < j + n) ∨ (j ≤ height - 1 - r ∧ height - 1 - r < j + n)
  then height - 1 - r else r

/-! ## `float` and `double` -/

/-- Floor of the binary logarithm of `n` by repeated halving, at most `fuel`
times; 0 for `n` below 2. -/
def log2Fuel : Nat → Nat → Nat
  | 0, _ => 0
  | fuel + 1, n => if n < 2 then 0 else log2Fuel fuel (n / 2) + 1

/-- The power of two `2 ^ e` for an integer exponent. -/
def pow2 (e : Int) : ℚ :=
  if 0 ≤ e then ((2 ^ e.toNat : Nat) : ℚ) else 1 / ((2 ^ (-e).toNat : Nat) : ℚ)

/-- The exponent `e` with `2 ^ e ≤ |q| < 2 ^ (e + 1)`, for `q` other than 0:
the difference of the bit lengths of numerator and denominator, or one less. -/
def binaryExponent (q : ℚ) : Int :=
  let e : Int := (log2Fuel q.num.natAbs q.num.natAbs : Int) - (log2Fuel q.den q.den : Int)
  if pow2 e ≤ |q| then e else e - 1

/-- Conversion of a value to the binary floating-point format with a
significand of `p` bits and least exponent `emin`, in the default rounding mode
of IEEE 754: to the nearest value of the format, a tie to the one with an even
significand.  Below `2 ^ emin` the spacing stays that of the least exponent
(subnormal values).  There is no overflow to infinity: the format is taken
without a largest exponent, which agrees with `float` for magnitudes below
`2 ^ 128` and with `double` below `2 ^ 1024`. -/
def roundNearestEven (p : Nat) (emin : Int) (q : ℚ) : ℚ :=
  if q = 0 then 0 else
    let e := max (binaryExponent q) emin
    let ulp := pow2 (e - ((p : Int) - 1))
    let m := |q| / ulp
    let f := ⌊m⌋
    let k := if m - f < 1 / 2 then f else if 1 / 2 < m - f then f + 1
      else if f % 2 = 0 then f else f + 1
    (if q < 0 then -1 else 1) * (k : ℚ) * ulp

/-- How the `float` and `double` values of the program behave.  `toFloat` is
the conversion to `float`: of a `double` stored in a `float` variable, of a
literal with suffix `f`, of the exact result of a `float` operation.
`toDouble` is the rounding of the exact result of a `double` operation. -/
structure FloatArith where
  toFloat : ℚ → ℚ
  toDouble : ℚ → ℚ

/-- The arithmetic of the compiled program: `float` is IEEE 754 binary32
(24-bit significand, least exponent -126), `double` is binary64 (53 bits,
-1022), both rounded to nearest, ties to even. -/
def FloatArith.ieee : FloatArith :=
  { toFloat := roundNearestEven 24 (-126), toDouble := roundNearestEven 53 (-1022) }

/-- Exact arithmetic: no conversion rounds.  The arithmetic of a statement
that is worded for exact values. -/
def FloatArith.exact : FloatArith :=
  { toFloat := fun q => q, toDouble := fun q => q }

/-! ## Basic types and globals -/

/-- OpenGL object names and counts (`GLuint`). -/
abbrev GLuint := Nat

/-- Value of type `glm::vec2`. -/
structure Vec2 where
  x : ℚ
  y : ℚ
deriving DecidableEq

/-- Value of type `glm::vec3`. -/
structure Vec3 where
  x : ℚ
  y : ℚ
  z : ℚ
deriving DecidableEq

def WINDOW_WIDTH : Nat := 800

def WINDOW_HEIGHT : Nat := 600

/-- Source `struct GLMesh`: three arrays of nine `GLuint`. -/
structure GLMesh where
  vao : List GLuint
  vbo : List GLuint
  nVertices : List GLuint
deriving DecidableEq

/-- The global `gMesh` before `main` runs: an object of static storage
duration without initialiser, hence all zero. -/
def GLMesh.zeroInit : GLMesh :=
  { vao := List.replicate 9 0, vbo := List.replicate 9 0, nVertices := List.replicate 9 0 }

/-- The globals of the unnamed namespace that the embedded functions read or
write.  `C` is the type of the `Camera` object.  `windowShouldClose` is the
close flag of `gWindow`. -/
structure AppState (C : Type) where
  gMesh : GLMesh
  deskTextureId : GLuint
  monitorTextureId : GLuint
  pcTextureId : GLuint
  filingCabinetTextureId : GLuint
  speakerTextureId : GLuint
  keyboardTextureId : GLuint
  gUVScale : Vec2
  gProgramId : GLuint
  gLampProgramId : GLuint
  gCamera : C
  gLastX : ℚ
  gLastY : ℚ
  gFirstMouse : Bool
  viewProjection : Bool
  cameraSpeed : ℚ
  gDeltaTime : ℚ
  gLastFrame : ℚ
  gLightColor : Vec3
  gLightPosition : Vec3
  gLightScale : Vec3
  windowShouldClose : Bool

/-- The globals as their initialisers leave them, for a camera object `cam`
(`Camera gCamera(glm::vec3(0.0f, 0.0f, 5.0f))` in the source). -/
def AppState.startup {C : Type} (cam : C) : AppState C :=
  { gMesh := GLMesh.zeroInit
    deskTextureId := 0
    monitorTextureId := 0
    pcTextureId := 0
    filingCabinetTextureId := 0
    speakerTextureId := 0
    keyboardTextureId := 0
    gUVScale := ⟨1.0, 1.0⟩
    gProgramId := 0
    gLampProgramId := 0
    gCamera := cam
    gLastX := (WINDOW_WIDTH : ℚ) / 2.0
    gLastY := (WINDOW_HEIGHT : ℚ) / 2.0
    gFirstMouse := true
    viewProjection := true
    cameraSpeed := 0.5
    gDeltaTime := 0.0
    gLastFrame := 0.0
    gLightColor := ⟨1.0, 1.0, 1.0⟩
    gLightPosition := ⟨0.0, 0.0, 50.0⟩
    gLightScale := ⟨0.5, 0.5, 0.5⟩
    windowShouldClose := false }

/-! ## Library interfaces -/

/-- The GLM functions that `URender` calls, over a matrix type `M`.  `mul` is
`operator*` on `glm::mat4`.  Angles are in radians, the unit of GLM: `rotate`
and `perspective` receive the number the caller passes as an angle in radians,
and `radians` is the conversion from degrees, which the program applies to the
camera's zoom before it calls `perspective`. -/
structure GLM (M : Type) where
  translate : Vec3 → M
  rotate : ℚ → Vec3 → M
  scale : Vec3 → M
  mul : M → M → M
  perspective : ℚ → ℚ → ℚ → ℚ → M
  ortho : ℚ → ℚ → ℚ → ℚ → ℚ → ℚ → M
  radians : ℚ → ℚ

/-- Enumeration `Camera_Movement` of `learnOpengl/camera.h`, as named by the
calls in `UProcessInput`. -/
inductive Camera_Movement where
  | FORWARD
  | BACKWARD
  | LEFT
  | RIGHT
  | UP
  | DOWN
deriving DecidableEq

/-- The members of the `Camera` object that `URender` reads. -/
structure CameraView (C M : Type) where
  GetViewMatrix : C → M
  Zoom : C → ℚ
  Position : C → Vec3

/-- The keys that `UProcessInput` queries with `glfwGetKey`. -/
inductive Key where
  | ESCAPE
  | W
  | S
  | A
  | D
  | Q
  | E
  | P
  | O
deriving DecidableEq

/-! ## Input handling -/

/-- The statement `if (glfwGetKey(window, GLFW_KEY_ESCAPE) == GLFW_PRESS)
glfwSetWindowShouldClose(window, true);`. -/
def closeOnKey {C : Type} (pressed : Key → Bool) (k : Key) (st : AppState C) : AppState C :=
  if pressed k then { st with windowShouldClose := true } else st

/-- A statement `if (glfwGetKey(window, k) == GLFW_PRESS)
gCamera.ProcessKeyboard(direction, deltaTime);`. -/
def moveOnKey {C : Type} (ProcessKeyboard : C → Camera_Movement → ℚ → C)
    (pressed : Key → Bool) (k : Key) (direction : Camera_Movement) (deltaTime : ℚ)
    (st : AppState C) : AppState C :=
  if pressed k then { st with gCamera := ProcessKeyboard st.gCamera direction deltaTime } else st

/-- A statement `if (glfwGetKey(window, k) == GLFW_PRESS) viewProjection = value;`. -/
def projectOnKey {C : Type} (pressed : Key → Bool) (k : Key) (value : Bool)
    (st : AppState C) : AppState C :=
  if pressed k then { st with viewProjection := value } else st

/-- Source function `UProcessInput`: its nine `if` statements in order.
`pressed k` says that `glfwGetKey(window, k) == GLFW_PRESS`; `ProcessKeyboard`
is the camera method; `cameraSpeed` is the function's `static const float`. -/
def UProcessInput {C : Type} (ProcessKeyboard : C → Camera_Movement → ℚ → C)
    (pressed : Key → Bool) (st : AppState C) : AppState C :=
  let cameraSpeed : ℚ := 2.5
  let st := closeOnKey pressed Key.ESCAPE st
  let st := moveOnKey ProcessKeyboard pressed Key.W Camera_Movement.FORWARD st.gDeltaTime st
  let st := moveOnKey ProcessKeyboard pressed Key.S Camera_Movement.BACKWARD st.gDeltaTime st
  let st := moveOnKey ProcessKeyboard pressed Key.A Camera_Movement.LEFT st.gDeltaTime st
  let st := moveOnKey ProcessKeyboard pressed Key.D Camera_Movement.RIGHT st.gDeltaTime st
  let st := moveOnKey ProcessKeyboard pressed Key.Q Camera_Movement.UP cameraSpeed st
  let st := moveOnKey ProcessKeyboard pressed Key.E Camera_Movement.DOWN cameraSpeed st
  let st := projectOnKey pressed Key.P true st
  let st := projectOnKey pressed Key.O false st
  st

/-- Source function `UMousePositionCallback`; `ProcessMouseMovement` is the
camera method, called with its two offsets.  `xpos` and `ypos` are `double`
while `gLastX`, `gLastY`, `xoffset` and `yoffset` are `float`: each store
converts with `ar.toFloat`, and the two subtractions are `double` operations
on the `double` argument and the promoted `float` global. -/
def UMousePositionCallback {C : Type} (ar : FloatArith)
    (ProcessMouseMovement : C → ℚ → ℚ → C) (st : AppState C) (xpos ypos : ℚ) :
    AppState C :=
  let st := if st.gFirstMouse then
    { st with gLastX := ar.toFloat xpos, gLastY := ar.toFloat ypos, gFirstMouse := false }
    else st
  let xoffset := ar.toFloat (ar.toDouble (xpos - st.gLastX))
  let yoffset := ar.toFloat (ar.toDouble (st.gLastY - ypos))
  let st := { st with gLastX := ar.toFloat xpos, gLastY := ar.toFloat ypos }
  { st with gCamera := ProcessMouseMovement st.gCamera xoffset yoffset }

/-- The cursor events `glfwPollEvents` delivers, in order, each handled by
`UMousePositionCallback`. -/
def mouseEvents {C : Type} (ar : FloatArith) (ProcessMouseMovement : C → ℚ → ℚ → C) :
    AppState C → List (ℚ × ℚ) → AppState C
  | st, [] => st
  | st, (xpos, ypos) :: rest =>
    mouseEvents ar ProcessMouseMovement
      (UMousePositionCallback ar ProcessMouseMovement st xpos ypos) rest

/-! ## The camera, from the specification -/

/-- Modelled from the spec: the `Camera` class of `learnOpengl/camera.h` is
included by the program but its source is absent.  The fields are those of the
data model (position, yaw and pitch in degrees, movement speed, mouse
sensitivity, zoom); the basis vectors derived from yaw and pitch are left out. -/
structure Camera where
  Position : Vec3
  Yaw : ℚ
  Pitch : ℚ
  MovementSpeed : ℚ
  MouseSensitivity : ℚ
  Zoom : ℚ
deriving DecidableEq

/-- Modelled from the spec: `Camera::ProcessMouseMovement` is absent from the
sources.  The spec: update yaw by `dx * sensitivity` and pitch by
`dy * sensitivity`, then clamp pitch to plus or minus 89 degrees. -/
def Camera.ProcessMouseMovement (c : Camera) (xoffset yoffset : ℚ) : Camera :=
  let yaw := c.Yaw + xoffset * c.MouseSensitivity
  let pitch := c.Pitch + yoffset * c.MouseSensitivity
  let pitch := if pitch > 89 then 89 else pitch
  let pitch := if pitch < -89 then -89 else pitch
  { c with Yaw := yaw, Pitch := pitch }

/-! ## Vertex literals of `UCreateMesh`

Each list holds the floats of one array literal, one source line per line and
the face comments of the source kept.  The number of floats decides the
vertex count that `UCreateMesh` stores. -/

/-- The literal `filingCabinetVerts` of `UCreateMesh` (source lines 676-730), one source line per line. -/
def filingCabinetVerts : List ℚ := [
  -- Position              Normal Cords         Texture Cords
  -- Front Face
   -0.25,   -0.5,    1.0,    0.0,    0.0,    1.0,    0.0,    0.0,
   -0.25,    0.5,    1.0,    0.0,    0.0,    1.0,    0.0,    1.0,
    0.25,    0.5,    1.0,    0.0,    0.0,    1.0,    1.0,    1.0,
    0.25,    0.5,    1.0,    0.0,    0.0,    1.0,    1.0,    1.0,
   -0.25,   -0.5,    1.0,    0.0,    0.0,    1.0,    0.0,    0.0,
    0.25,   -0.5,    1.0,    0.0,    0.0,    1.0,    1.0,    0.0,
  -- Back Face
   -0.25,   -0.5,   -1.0,    0.0,    0.0,   -1.0,    0.0,    0.0,
   -0.25,    0.5,   -1.0,    0.0,    0.0,   -1.0,    0.0,    0.0,
    0.25,    0.5,   -1.0,    0.0,    0.0,   -1.0,    0.0,    0.0,
    0.25,    0.5,   -1.0,    0.0,    0.0,   -1.0,    0.0,    0.0,
   -0.25,   -0.5,   -1.0,    0.0,    0.0,   -1.0,    0.0,    0.0,
    0.25,   -0.5,   -1.0,    0.0,    0.0,   -1.0,    0.0,    0.0,
  -- Right Face
    0.25,   -0.5,    1.0,    1.0,    0.0,    0.0,    0.0,    0.0,
    0.25,    0.5,    1.0,    1.0,    0.0,    0.0,    0.0,    0.0,
    0.25,    0.5,   -1.0,    1.0,    0.0,    0.0,    0.0,    0.0,
    0.25,    0.5,   -1.0,    1.0,    0.0,    0.0,    0.0,    0.0,
    0.25,   -0.5,    1.0,    1.0,    0.0,    0.0,    0.0,    0.0,
    0.25,   -0.5,   -1.0,    1.0,    0.0,    0.0,    0.0,    0.0,
  -- Left Face
   -0.25,   -0.5,   -1.0,   -1.0,    0.0,    0.0,    0.0,    0.0,
   -0.25,    0.5,   -1.0,   -1.0,    0.0,    0.0,    0.0,    0.0,
   -0.25,   -0.5,    1.0,   -1.0,    0.0,    0.0,    0.0,    0.0,
   -0.25,   -0.5,    1.0,   -1.0,    0.0,    0.0,    0.0,    0.0,
   -0.25,    0.5,   -1.0,   -1.0,    0.0,    0.0,    0.0,    0.0,
   -0.25,    0.5,    1.0,   -1.0,    0.0,    0.0,    0.0,    0.0,
  -- Right Face
    0.25,   -0.5,   -1.0,    1.0,    0.0,    0.0,    0.0,    0.0,
    0.25,    0.5,   -1.0,    1.0,    0.0,    0.0,    0.0,    0.0,
    0.25,   -0.5,    1.0,    1.0,    0.0,    0.0,    0.0,    0.0,
    0.25,   -0.5,    1.0,    1.0,    0.0,    0.0,    0.0,    0.0,
    0.25,    0.5,   -1.0,    1.0,    0.0,    0.0,    0.0,    0.0,
    0.25,    0.5,    1.0,    1.0,    0.0,    0.0,    0.0,    0.0,
  -- Top Face
   -0.25,    0.5,   -1.0,    0.0,    1.0,    0.0,    0.0,    0.0,
   -0.25,    0.5,    1.0,    0.0,    1.0,    0.0,    0.0,    0.0,
    0.25,    0.5,   -1.0,    0.0,    1.0,    0.0,    0.0,    0.0,
    0.25,    0.5,   -1.0,    0.0,    1.0,    0.0,    0.0,    0.0,
   -0.25,    0.5,   -1.0,    0.0,    1.0,    0.0,    0.0,    0.0,
    0.25,    0.5,    1.0,    0.0,    1.0,    0.0,    0.0,    0.0,
  -- Bottom Face
   -0.25,   -0.5,   -1.0,    0.0,   -1.0,    0.0,    0.0,    0.0,
   -0.25,   -0.5,    1.0,    0.0,   -1.0,    0.0,    0.0,    0.0,
    0.25,   -0.5,   -1.0,    0.0,   -1.0,    0.0,    0.0,    0.0,
    0.25,   -0.5,   -1.0,    0.0,   -1.0,    0.0,    0.0,    0.0,
   -0.25,   -0.5,   -1.0,    0.0,   -1.0,    0.0,    0.0,    0.0,
    0.25,   -0.5,    1.0,    0.0,   -1.0,    0.0,    0.0,    0.0
]

/-- The literal `desktopVerts` of `UCreateMesh` (source lines 731-777), one source line per line. -/
def desktopVerts : List ℚ := [
  -- Position            Normal Cords         Texture Cords
  -- Front Face
    -1.0,    0.5,    1.0,    0.0,    0.0,    1.0,    0.0,    0.0,
    -1.0,    0.6,    1.0,    0.0,    0.0,    1.0,    0.0,    1.0,
     1.0,    0.6,    1.0,    0.0,    0.0,    1.0,    1.0,    1.0,
     1.0,    0.6,    1.0,    0.0,    0.0,    1.0,    1.0,    1.0,
    -1.0,    0.5,    1.0,    0.0,    0.0,    1.0,    0.0,    0.0,
     1.0,    0.5,    1.0,    0.0,    0.0,    1.0,    1.0,    0.0,
  -- Back Face
    -1.0,    0.5,   -1.0,    0.0,    0.0,   -1.0,    0.0,    0.0,
    -1.0,    0.6,   -1.0,    0.0,    0.0,   -1.0,    0.0,    1.0,
     1.0,    0.6,   -1.0,    0.0,    0.0,   -1.0,    1.0,    1.0,
     1.0,    0.6,   -1.0,    0.0,    0.0,   -1.0,    1.0,    1.0,
    -1.0,    0.5,   -1.0,    0.0,    0.0,   -1.0,    0.0,    0.0,
     1.0,    0.5,   -1.0,    0.0,    0.0,   -1.0,    1.0,    0.0,
  -- Right Face
     1.0,    0.5,   -1.0,    1.0,    0.0,    0.0,    0.0,    0.0,
     1.0,    0.5,    1.0,    1.0,    0.0,    0.0,    0.0,    1.0,
     1.0,    0.6,    1.0,    1.0,    0.0,    0.0,    1.0,    1.0,
     1.0,    0.6,    1.0,    1.0,    0.0,    0.0,    1.0,    1.0,
     1.0,    0.5,   -1.0,    1.0,    0.0,    0.0,    0.0,    0.0,
     1.0,    0.6,   -1.0,    1.0,    0.0,    0.0,    1.0,    0.0,
  -- Left Face
    -1.0,    0.5,   -1.0,   -1.0,    0.0,    0.0,    0.0,    0.0,
    -1.0,    0.5,    1.0,   -1.0,    0.0,    0.0,    0.0,    1.0,
    -1.0,    0.6,    1.0,   -1.0,    0.0,    0.0,    1.0,    1.0,
    -1.0,    0.6,    1.0,   -1.0,    0.0,    0.0,    1.0,    1.0,
    -1.0,    0.5,   -1.0,   -1.0,    0.0,    0.0,    0.0,    0.0,
    -1.0,    0.6,   -1.0,   -1.0,    0.0,    0.0,    1.0,    0.0,
  -- Top Face
    -1.0,    0.6,   -1.0,    0.0,    1.0,    0.0,    0.0,    0.0,
    -1.0,    0.6,    1.0,    0.0,    1.0,    0.0,    0.0,    1.0,
     1.0,    0.6,    1.0,    0.0,    1.0,    0.0,    1.0,    1.0,
     1.0,    0.6,    1.0,    0.0,    1.0,    0.0,    1.0,    1.0,
    -1.0,    0.6,   -1.0,    0.0,    1.0,    0.0,    0.0,    0.0,
     1.0,    0.6,   -1.0,    0.0,    1.0,    0.0,    1.0,    0.0,
  -- Bottom Face
    -1.0,    0.5,   -1.0,    0.0,   -1.0,    0.0,    0.0,    0.0,
    -1.0,    0.5,    1.0,    0.0,   -1.0,    0.0,    0.0,    1.0,
     1.0,    0.5,    1.0,    0.0,   -1.0,    0.0,    1.0,    1.0,
     1.0,    0.5,    1.0,    0.0,   -1.0,    0.0,    1.0,    1.0,
    -1.0,    0.5,   -1.0,    0.0,   -1.0,    0.0,    0.0,    0.0,
     1.0,    0.5,   -1.0,    0.0,   -1.0,    0.0,    1.0,    0.0
]

/-- The literal `pcVerts` of `UCreateMesh` (source lines 778-822), one source line per line. -/
def pcVerts : List ℚ := [
  -- Position             Normal Cords         Texture Cords
  -- Front Face
    -0.1,    0.6,   0.75,    0.0,    0.0,    1.0,    0.0,    0.0,
    -0.1,    1.0,   0.75,    0.0,    0.0,    1.0,    0.0,    1.0,
     0.1,    1.0,   0.75,    0.0,    0.0,    1.0,    1.0,    1.0,
     0.1,    1.0,   0.75,    0.0,    0.0,    1.0,    1.0,    1.0,
    -0.1,    0.6,   0.75,    0.0,    0.0,    1.0,    0.0,    0.0,
     0.1,    0.6,   0.75,    0.0,    0.0,    1.0,    1.0,    0.0,
  -- Back Face
    -0.1,    0.6,  -0.75,    0.0,    0.0,   -1.0,    0.0,    0.0,
    -0.1,    1.0,  -0.75,    0.0,    0.0,   -1.0,    0.0,    0.0,
     0.1,    1.0,  -0.75,    0.0,    0.0,   -1.0,    0.0,    0.0,
     0.1,    1.0,  -0.75,    0.0,    0.0,   -1.0,    0.0,    0.0,
    -0.1,    0.6,  -0.75,    0.0,    0.0,   -1.0,    0.0,    0.0,
     0.1,    0.6,  -0.75,    0.0,    0.0,   -1.0,    0.0,    0.0,
  -- Right Face
     0.1,    0.6,  -0.75,    1.0,    0.0,    0.0,    0.0,    0.0,
     0.1,    1.0,  -0.75,    1.0,    0.0,    0.0,    0.0,    0.0,
     0.1,    1.0,   0.75,    1.0,    0.0,    0.0,    0.0,    0.0,
     0.1,    1.0,   0.75,    1.0,    0.0,    0.0,    0.0,    0.0,
     0.1,    0.6,  -0.75,    1.0,    0.0,    0.0,    0.0,    0.0,
     0.1,    0.6,   0.75,    1.0,    0.0,    0.0,    0.0,    0.0,
  -- Left Face
    -0.1,    0.6,  -0.75,   -1.0,    0.0,    0.0,    0.0,    0.0,
    -0.1,    1.0,  -0.75,   -1.0,    0.0,    0.0,    0.0,    0.0,
    -0.1,    1.0,   0.75,   -1.0,    0.0,    0.0,    0.0,    0.0,
    -0.1,    1.0,   0.75,   -1.0,    0.0,    0.0,    0.0,    0.0,
    -0.1,    0.6,  -0.75,   -1.0,    0.0,    0.0,    0.0,    0.0,
    -0.1,    0.6,   0.75,   -1.0,    0.0,    0.0,    0.0,    0.0,
  -- Top Face
    -0.1,    1.0,   0.75,    0.0,    1.0,    0.0,    0.0,    0.0,
    -0.1,    1.0,  -0.75,    0.0,    1.0,    0.0,    0.0,    0.0,
     0.1,    1.0,  -0.75,    0.0,    1.0,    0.0,    0.0,    0.0,
     0.1,    1.0,  -0.75,    0.0,    1.0,    0.0,    0.0,    0.0,
    -0.1,    1.0,   0.75,    0.0,    1.0,    0.0,    0.0,    0.0,
     0.1,    1.0,   0.75,    0.0,    1.0,    0.0,    0.0,    0.0,
  -- Bottom Face
    -0.1,    0.6,   0.75,    0.0,   -1.0,    0.0,    0.0,    0.0,
    -0.1,    0.6,  -0.75,    0.0,   -1.0,    0.0,    0.0,    0.0,
     0.1,    0.6,  -0.75,    0.0,   -1.0,    0.0,    0.0,    0.0,
     0.1,    0.6,  -0.75,    0.0,   -1.0,    0.0,    0.0,    0.0,
    -0.1,    0.6,   0.75,    0.0,   -1.0,    0.0,    0.0,    0.0,
     0.1,    0.6,   0.75,    0.0,   -1.0,    0.0,    0.0,    0.0
]

/-- The literal `keyboardVerts` of `UCreateMesh` (source lines 823-867), one source line per line. -/
def keyboardVerts : List ℚ := [
  -- Position             Normal Cords        Texture Cords
  -- Front Face
   -0.15,   0.60,   0.95,    0.0,    0.0,    1.0,    0.0,    0.0,
   -0.15,   0.61,   0.95,    0.0,    0.0,    1.0,    0.0,    0.0,
    0.15,   0.61,   0.95,    0.0,    0.0,    1.0,    0.0,    0.0,
    0.15,   0.61,   0.95,    0.0,    0.0,    1.0,    0.0,    0.0,
   -0.15,   0.60,   0.95,    0.0,    0.0,    1.0,    0.0,    0.0,
    0.15,   0.60,   0.95,    0.0,    0.0,    1.0,    0.0,    0.0,
  -- Back Face
   -0.15,   0.60,   0.75,    0.0,    0.0,   -1.0,    0.0,    0.0,
   -0.15,   0.61,   0.75,    0.0,    0.0,   -1.0,    0.0,    0.0,
    0.15,   0.61,   0.75,    0.0,    0.0,   -1.0,    0.0,    0.0,
    0.15,   0.61,   0.75,    0.0,    0.0,   -1.0,    0.0,    0.0,
   -0.15,   0.60,   0.75,    0.0,    0.0,   -1.0,    0.0,    0.0,
    0.15,   0.60,   0.75,    0.0,    0.0,   -1.0,    0.0,    0.0,
  -- Right Face
    0.15,   0.60,   0.95,    1.0,    0.0,    0.0,    0.0,    0.0,
    0.15,   0.61,   0.95,    1.0,    0.0,    0.0,    0.0,    0.0,
    0.15,   0.61,   0.75,    1.0,    0.0,    0.0,    0.0,    0.0,
    0.15,   0.61,   0.75,    1.0,    0.0,    0.0,    0.0,    0.0,
    0.15,   0.60,   0.95,    1.0,    0.0,    0.0,    0.0,    0.0,
    0.15,   0.60,   0.75,    1.0,    0.0,    0.0,    0.0,    0.0,
  -- Left Face
   -0.15,   0.60,   0.95,   -1.0,    0.0,    0.0,    0.0,    0.0,
   -0.15,   0.61,   0.95,   -1.0,    0.0,    0.0,    0.0,    0.0,
   -0.15,   0.61,   0.75,   -1.0,    0.0,    0.0,    0.0,    0.0,
   -0.15,   0.61,   0.75,   -1.0,    0.0,    0.0,    0.0,    0.0,
   -0.15,   0.60,   0.95,   -1.0,    0.0,    0.0,    0.0,    0.0,
   -0.15,   0.60,   0.75,   -1.0,    0.0,    0.0,    0.0,    0.0,
  -- Top Face
   -0.15,   0.61,   0.95,    0.0,    1.0,    0.0,    0.0,    0.0,
   -0.15,   0.61,   0.75,    0.0,    1.0,    0.0,    0.0,    1.0,
    0.15,   0.61,   0.75,    0.0,    1.0,    0.0,    1.0,    1.0,
    0.15,   0.61,   0.75,    0.0,    1.0,    0.0,    1.0,    1.0,
   -0.15,   0.61,   0.95,    0.0,    1.0,    0.0,    0.0,    0.0,
    0.15,   0.61,   0.95,    0.0,    1.0,    0.0,    1.0,    0.0,
  -- Bottom Face
   -0.15,   0.60,   0.95,    0.0,   -1.0,    0.0,    0.0,    0.0,
   -0.15,   0.60,   0.75,    0.0,   -1.0,    0.0,    0.0,    0.0,
    0.15,   0.60,   0.75,    0.0,   -1.0,    0.0,    0.0,    0.0,
    0.15,   0.60,   0.75,    0.0,   -1.0,    0.0,    0.0,    0.0,
   -0.15,   0.60,   0.95,    0.0,   -1.0,    0.0,    0.0,    0.0,
    0.15,   0.60,   0.95,    0.0,   -1.0,    0.0,    0.0,    0.0
]

/-- The literal `monitorVerts` of `UCreateMesh` (source lines 868-913), one source line per line. -/
def monitorVerts : List ℚ := [
  -- Position             Normal Cords         Texture Cords
  -- Front Face
    -0.4,   0.65,   0.00,    0.0,    0.0,    1.0,    0.0,    0.0,
    -0.4,   1.00,   0.00,    0.0,    0.0,    1.0,    0.0,    1.0,
     0.4,   1.00,   0.00,    0.0,    0.0,    1.0,    1.0,    1.0,
     0.4,   1.00,   0.00,    0.0,    0.0,    1.0,    1.0,    1.0,
    -0.4,   0.65,   0.00,    0.0,    0.0,    1.0,    0.0,    0.0,
     0.4,   0.65,   0.00,    0.0,    0.0,    1.0,    1.0,    0.0,
  -- Back Face
    -0.4,   0.65,  -0.01,    0.0,    0.0,   -1.0,    0.0,    0.0,
    -0.4,   1.00,  -0.01,    0.0,    0.0,   -1.0,    0.0,    0.0,
     0.4,   1.00,  -0.01,    0.0,    0.0,   -1.0,    0.0,    0.0,
     0.4,   1.00,  -0.01,    0.0,    0.0,   -1.0,    0.0,    0.0,
    -0.4,   0.65,  -0.01,    0.0,    0.0,   -1.0,    0.0,    0.0,
     0.4,   0.65,  -0.01,    0.0,    0.0,   -1.0,    0.0,    0.0,
  -- Right Face
     0.4,   0.65,   0.00,    1.0,    0.0,    0.0,    0.0,    0.0,
     0.4,   1.00,   0.00,    1.0,    0.0,    0.0,    0.0,    0.0,
     0.4,   1.00,  -0.01,    1.0,    0.0,    0.0,    0.0,    0.0,
     0.4,   1.00,  -0.01,    1.0,    0.0,    0.0,    0.0,    0.0,
     0.4,   0.65,   0.00,    1.0,    0.0,    0.0,    0.0,    0.0,
     0.4,   0.65,  -0.01,    1.0,    0.0,    0.0,    0.0,    0.0,
  -- Left Face
    -0.4,   0.65,   0.00,   -1.0,    0.0,    0.0,    0.0,    0.0,
    -0.4,   1.00,   0.00,   -1.0,    0.0,    0.0,    0.0,    0.0,
    -0.4,   1.00,  -0.01,   -1.0,    0.0,    0.0,    0.0,    0.0,
    -0.4,   1.00,  -0.01,   -1.0,    0.0,    0.0,    0.0,    0.0,
    -0.4,   0.65,   0.00,   -1.0,    0.0,    0.0,    0.0,    0.0,
    -0.4,   0.65,  -0.01,   -1.0,    0.0,    0.0,    0.0,    0.0,
  -- Top Face
    -0.4,   1.00,   0.00,    0.0,    1.0,    0.0,    0.0,    0.0,
    -0.4,   1.00,  -0.01,    0.0,    1.0,    0.0,    0.0,    0.0,
     0.4,   1.00,  -0.01,    0.0,    1.0,    0.0,    0.0,    0.0,
     0.4,   1.00,  -0.01,    0.0,    1.0,    0.0,    0.0,    0.0,
    -0.4,   1.00,   0.00,    0.0,    1.0,    0.0,    0.0,    0.0,
     0.4,   1.00,   0.00,    0.0,    1.0,    0.0,    0.0,    0.0,
  -- Bottom Face
    -0.4,   0.65,   0.00,    0.0,   -1.0,    0.0,    0.0,    0.0,
    -0.4,   0.65,  -0.01,    0.0,   -1.0,    0.0,    0.0,    0.0,
     0.4,   0.65,  -0.01,    0.0,   -1.0,    0.0,    0.0,    0.0,
     0.4,   0.65,  -0.01,    0.0,   -1.0,    0.0,    0.0,    0.0,
    -0.4,   0.65,   0.00,    0.0,   -1.0,    0.0,    0.0,    0.0,
     0.4,   0.65,   0.00,    0.0,   -1.0,    0.0,    0.0,    0.0
]

/-- The literal `speakerVerts` of `UCreateMesh` (source lines 914-960), one source line per line. -/
def speakerVerts : List ℚ := [
  -- Position              Normal Cords         Texture Cords
  -- Front Face
   -0.05,   0.60,   0.05,    0.0,    0.0,    1.0,    0.0,    0.0,
   -0.05,   0.75,   0.05,    0.0,    0.0,    1.0,    0.0,    1.0,
    0.05,   0.75,   0.05,    0.0,    0.0,    1.0,    1.0,    1.0,
    0.05,   0.75,   0.05,    0.0,    0.0,    1.0,    1.0,    1.0,
   -0.05,   0.60,   0.05,    0.0,    0.0,    1.0,    0.0,    0.0,
    0.05,   0.60,   0.05,    0.0,    0.0,    1.0,    1.0,    0.0,
  -- Back Face
   -0.05,   0.60,  -0.05,    0.0,    0.0,   -1.0,    0.0,    0.0,
   -0.05,   0.75,  -0.05,    0.0,    0.0,   -1.0,    0.0,    0.0,
    0.05,   0.75,  -0.05,    0.0,    0.0,   -1.0,    0.0,    0.0,
    0.05,   0.75,  -0.05,    0.0,    0.0,   -1.0,    0.0,    0.0,
   -0.05,   0.60,  -0.05,    0.0,    0.0,   -1.0,    0.0,    0.0,
    0.05,   0.60,  -0.05,    0.0,    0.0,   -1.0,    0.0,    0.0,
  -- Right Face
    0.05,   0.60,   0.05,    1.0,    0.0,    0.0,    0.0,    0.0,
    0.05,   0.75,   0.05,    1.0,    0.0,    0.0,    0.0,    0.0,
    0.05,   0.75,  -0.05,    1.0,    0.0,    0.0,    0.0,    0.0,
    0.05,   0.75,  -0.05,    1.0,    0.0,    0.0,    0.0,    0.0,
    0.05,   0.60,   0.05,    1.0,    0.0,    0.0,    0.0,    0.0,
    0.05,   0.60,  -0.05,    1.0,    0.0,    0.0,    0.0,    0.0,
  -- Left Face
   -0.05,   0.60,   0.05,   -1.0,    0.0,    0.0,    0.0,    0.0,
   -0.05,   0.75,   0.05,   -1.0,    0.0,    0.0,    0.0,    0.0,
   -0.05,   0.75,  -0.05,   -1.0,    0.0,    0.0,    0.0,    0.0,
   -0.05,   0.75,  -0.05,   -1.0,    0.0,    0.0,    0.0,    0.0,
   -0.05,   0.60,   0.05,   -1.0,    0.0,    0.0,    0.0,    0.0,
   -0.05,   0.60,  -0.05,   -1.0,    0.0,    0.0,    0.0,    0.0,
  -- Top Face
   -0.05,   0.75,   0.05,    0.0,    1.0,    0.0,    0.0,    0.0,
   -0.05,   0.75,  -0.05,    0.0,    1.0,    0.0,    0.0,    0.0,
    0.05,   0.75,  -0.05,    0.0,    1.0,    0.0,    0.0,    0.0,
    0.05,   0.75,  -0.05,    0.0,    1.0,    0.0,    0.0,    0.0,
   -0.05,   0.75,   0.05,    0.0,    1.0,    0.0,    0.0,    0.0,
    0.05,   0.75,   0.05,    0.0,    1.0,    0.0,    0.0,    0.0,
  -- Bottom Face
   -0.05,   0.60,   0.05,    0.0,   -1.0,    0.0,    0.0,    0.0,
   -0.05,   0.60,  -0.05,    0.0,   -1.0,    0.0,    0.0,    0.0,
    0.05,   0.60,  -0.05,    0.0,   -1.0,    0.0,    0.0,    0.0,
    0.05,   0.60,  -0.05,    0.0,   -1.0,    0.0,    0.0,    0.0,
   -0.05,   0.60,   0.05,    0.0,   -1.0,    0.0,    0.0,    0.0,
    0.05,   0.60,   0.05,    0.0,   -1.0,    0.0,    0.0,    0.0
]

/-- The literal `desklegVerts` of `UCreateMesh` (source lines 961-1006), one source line per line. -/
def desklegVerts : List ℚ := [
  -- Position             Normal Cords         Texture Cords
  -- Front Face
   -1.00,   -0.5,    1.0,    0.0,    0.0,    1.0,    0.0,    0.0,
   -1.00,    0.5,    1.0,    0.0,    0.0,    1.0,    0.0,    1.0,
   -0.95,    0.5,    1.0,    0.0,    0.0,    1.0,    1.0,    1.0,
   -0.95,    0.5,    1.0,    0.0,    0.0,    1.0,    1.0,    1.0,
   -1.00,   -0.5,    1.0,    0.0,    0.0,    1.0,    0.0,    0.0,
   -0.95,   -0.5,    1.0,    0.0,    0.0,    1.0,    1.0,    0.0,
  -- Back Face
   -1.00,   -0.5,   -1.0,    0.0,    0.0,   -1.0,    0.0,    0.0,
   -1.00,    0.5,   -1.0,    0.0,    0.0,   -1.0,    0.0,    1.0,
   -0.95,    0.5,   -1.0,    0.0,    0.0,   -1.0,    1.0,    1.0,
   -0.95,    0.5,   -1.0,    0.0,    0.0,   -1.0,    1.0,    1.0,
   -1.00,   -0.5,   -1.0,    0.0,    0.0,   -1.0,    0.0,    0.0,
   -0.95,   -0.5,   -1.0,    0.0,    0.0,   -1.0,    1.0,    0.0,
  -- Right Face
   -0.95,   -0.5,    1.0,    1.0,    0.0,    0.0,    0.0,    0.0,
   -0.95,    0.5,    1.0,    1.0,    0.0,    0.0,    0.0,    1.0,
   -0.95,    0.5,   -1.0,    1.0,    0.0,    0.0,    1.0,    1.0,
   -0.95,    0.5,   -1.0,    1.0,    0.0,    0.0,    1.0,    1.0,
   -0.95,   -0.5,    1.0,    1.0,    0.0,    0.0,    0.0,    0.0  -- source line 982 ends without a comma
  - 0.95,   -0.5,   -1.0,    1.0,    0.0,    0.0,    1.0,    0.0,
  -- Left Face
   -1.00,   -0.5,    1.0,   -1.0,    0.0,    0.0,    0.0,    0.0,
   -1.00,    0.5,    1.0,   -1.0,    0.0,    0.0,    0.0,    1.0,
   -1.00,    0.5,   -1.0,   -1.0,    0.0,    0.0,    1.0,    1.0,
   -1.00,    0.5,   -1.0,   -1.0,    0.0,    0.0,    1.0,    1.0,
   -1.00,   -0.5,    1.0,   -1.0,    0.0,    0.0,    0.0,    0.0,
   -1.00,   -0.5,   -1.0,   -1.0,    0.0,    0.0,    1.0,    0.0,
  -- Top Face
   -1.00,    0.5,    1.0,    0.0,    1.0,    0.0,    0.0,    0.0,
   -1.00,    0.5,   -1.0,    0.0,    1.0,    0.0,    0.0,    1.0,
   -0.95,    0.5,   -1.0,    0.0,    1.0,    0.0,    1.0,    1.0,
   -0.95,    0.5,   -1.0,    0.0,    1.0,    0.0,    1.0,    1.0,
   -1.00,    0.5,    1.0,    0.0,    1.0,    0.0,    0.0,    0.0,
   -0.95,    0.5,    1.0,    0.0,    1.0,    0.0,    1.0,    0.0,
  -- Bottom Face
   -1.00,   -0.5,    1.0,    0.0,   -1.0,    0.0,    0.0,    0.0,
   -1.00,   -0.5,   -1.0,    0.0,   -1.0,    0.0,    0.0,    1.0,
   -0.95,   -0.5,   -1.0,    0.0,   -1.0,    0.0,    1.0,    1.0,
   -0.95,   -0.5,   -1.0,    0.0,   -1.0,    0.0,    1.0,    1.0,
   -1.00,   -0.5,    1.0,    0.0,   -1.0,    0.0,    0.0,    0.0,
   -0.95,   -0.5,    1.0,    0.0,   -1.0,    0.0,    1.0,    0.0
]

/-- The literal `monitorstandVerts` of `UCreateMesh` (source lines 1007-1052), one source line per line. -/
def monitorstandVerts : List ℚ := [
  -- Position              Normal Cords         Texture Cords
  -- Front Face
   -0.01,   0.60,  -0.01,    0.0,    0.0,    1.0,    0.0,    0.0,
   -0.01,   0.75,  -0.01,    0.0,    0.0,    1.0,    0.0,    0.0,
    0.01,   0.75,  -0.01,    0.0,    0.0,    1.0,    0.0,    0.0,
    0.01,   0.75,  -0.01,    0.0,    0.0,    1.0,    0.0,    0.0,
   -0.01,   0.60,  -0.01,    0.0,    0.0,    1.0,    0.0,    0.0,
    0.01,   0.60,  -0.01,    0.0,    0.0,    1.0,    0.0,    0.0,
  -- Back Face
   -0.01,   0.60,  -0.02,    0.0,    0.0,   -1.0,    0.0,    0.0,
   -0.01,   0.75,  -0.02,    0.0,    0.0,   -1.0,    0.0,    0.0,
    0.01,   0.75,  -0.02,    0.0,    0.0,   -1.0,    0.0,    0.0,
    0.01,   0.75,  -0.02,    0.0,    0.0,   -1.0,    0.0,    0.0,
   -0.01,   0.60,  -0.02,    0.0,    0.0,   -1.0,    0.0,    0.0,
    0.01,   0.60,  -0.02,    0.0,    0.0,   -1.0,    0.0,    0.0,
  -- Right Face
    0.01,   0.60,  -0.01,    1.0,    0.0,    0.0,    0.0,    0.0,
    0.01,   0.75,  -0.01,    1.0,    0.0,    0.0,    0.0,    0.0,
    0.01,   0.75,  -0.02,    1.0,    0.0,    0.0,    0.0,    0.0,
    0.01,   0.75,  -0.02,    1.0,    0.0,    0.0,    0.0,    0.0,
    0.01,   0.60,  -0.01,    1.0,    0.0,    0.0,    0.0,    0.0,
    0.01,   0.60,  -0.02,    1.0,    0.0,    0.0,    0.0,    0.0,
  -- Left Face
   -0.01,   0.60,  -0.01,   -1.0,    0.0,    0.0,    0.0,    0.0,
   -0.01,   0.75,  -0.01,   -1.0,    0.0,    0.0,    0.0,    0.0,
   -0.01,   0.75,  -0.02,   -1.0,    0.0,    0.0,    0.0,    0.0,
   -0.01,   0.75,  -0.02,   -1.0,    0.0,    0.0,    0.0,    0.0,
   -0.01,   0.60,  -0.01,   -1.0,    0.0,    0.0,    0.0,    0.0,
   -0.01,   0.60,  -0.02,   -1.0,    0.0,    0.0,    0.0,    0.0,
  -- Top Face
   -0.01,   0.75,  -0.01,    0.0,    1.0,    0.0,    0.0,    0.0,
   -0.01,   0.75,  -0.02,    0.0,    1.0,    0.0,    0.0,    0.0,
    0.01,   0.75,  -0.02,    0.0,    1.0,    0.0,    0.0,    0.0,
    0.01,   0.75,  -0.02,    0.0,    1.0,    0.0,    0.0,    0.0,
   -0.01,   0.75,  -0.01,    0.0,    1.0,    0.0,    0.0,    0.0,
    0.01,   0.75,  -0.01,    0.0,    1.0,    0.0,    0.0,    0.0,
  -- Bottom Face
   -0.01,   0.60,  -0.01,    0.0,   -1.0,    0.0,    0.0,    0.0,
   -0.01,   0.60,  -0.02,    0.0,   -1.0,    0.0,    0.0,    0.0,
    0.01,   0.60,  -0.02,    0.0,   -1.0,    0.0,    0.0,    0.0,
    0.01,   0.60,  -0.02,    0.0,   -1.0,    0.0,    0.0,    0.0,
   -0.01,   0.60,  -0.01,    0.0,   -1.0,    0.0,    0.0,    0.0,
    0.01,   0.60,  -0.01,    0.0,   -1.0,    0.0,    0.0,    0.0
]

/-! ## `UCreateMesh` -/

def floatsPerVertex : Nat := 3

def floatsPerNormal : Nat := 3

def floatsPerUV : Nat := 2

/-- Value of `sizeof(float)`, which is also `sizeof(verts[0])`. -/
def sizeofFloat : Nat := 4

/-- Value of `sizeof(verts)` for an array literal `verts`. -/
def sizeofArray (verts : List ℚ) : Nat := sizeofFloat * verts.length

/-- The right-hand side of each `mesh.nVertices[k] = ...` assignment:
`sizeof(verts) / (sizeof(verts[0]) * (floatsPerVertex + floatsPerNormal + floatsPerUV))`. -/
def vertexCount (verts : List ℚ) : Nat :=
  sizeofArray verts / (sizeofFloat * (floatsPerVertex + floatsPerNormal + floatsPerUV))

/-- One `glBufferData` call of `UCreateMesh`: the vertex array and buffer
bound at the call, the byte size passed, and the data. -/
structure BufferUpload where
  vao : GLuint
  vbo : GLuint
  size : Nat
  data : List ℚ

/-- The mesh under construction and the uploads made so far. -/
structure MeshBuild where
  mesh : GLMesh
  uploads : List BufferUpload

/-- One `#pragma region ... Mesh` block of `UCreateMesh` for slot `k`:
`glGenVertexArrays(1, &mesh.vao[k])`, `glGenBuffers(1, &mesh.vbo[k])`, the two
binds and `glBufferData(GL_ARRAY_BUFFER, sizeof(verts), verts, ...)`.
`genVertexArray k` and `genBuffer k` are the names the driver hands out. -/
def meshRegion (k : Nat) (verts : List ℚ) (genVertexArray genBuffer : Nat → GLuint)
    (b : MeshBuild) : MeshBuild :=
  let vao := genVertexArray k
  let vbo := genBuffer k
  { mesh := { b.mesh with vao := b.mesh.vao.set k vao, vbo := b.mesh.vbo.set k vbo }
    uploads := b.uploads ++ [{ vao := vao, vbo := vbo, size := sizeofArray verts, data := verts }] }

/-- Source function `UCreateMesh`: the eight `nVertices` assignments, then the
eight mesh regions, slots 0 to 7. -/
def UCreateMesh (mesh : GLMesh) (genVertexArray genBuffer : Nat → GLuint) : MeshBuild :=
  let nVertices := mesh.nVertices
  let nVertices := nVertices.set 0 (vertexCount filingCabinetVerts)
  let nVertices := nVertices.set 1 (vertexCount desktopVerts)
  let nVertices := nVertices.set 2 (vertexCount pcVerts)
  let nVertices := nVertices.set 3 (vertexCount keyboardVerts)
  let nVertices := nVertices.set 4 (vertexCount monitorVerts)
  let nVertices := nVertices.set 5 (vertexCount speakerVerts)
  let nVertices := nVertices.set 6 (vertexCount desklegVerts)
  let nVertices := nVertices.set 7 (vertexCount monitorstandVerts)
  let b : MeshBuild := { mesh := { mesh with nVertices := nVertices }, uploads := [] }
  let b := meshRegion 0 filingCabinetVerts genVertexArray genBuffer b
  let b := meshRegion 1 desktopVerts genVertexArray genBuffer b
  let b := meshRegion 2 pcVerts genVertexArray genBuffer b
  let b := meshRegion 3 keyboardVerts genVertexArray genBuffer b
  let b := meshRegion 4 monitorVerts genVertexArray genBuffer b
  let b := meshRegion 5 speakerVerts genVertexArray genBuffer b
  let b := meshRegion 6 desklegVerts genVertexArray genBuffer b
  let b := meshRegion 7 monitorstandVerts genVertexArray genBuffer b
  b

/-- The vertex arrays that `UCreateMesh` generates, slots 0 to 7. -/
def createdVertexArrays (genVertexArray : Nat → GLuint) : List GLuint :=
  (List.range 8).map genVertexArray

/-! ## `URender` -/

/-- Primitive modes of a draw call. -/
inductive DrawMode where
  | POINTS
  | LINES
  | TRIANGLES
deriving DecidableEq

/-- Result of `glGetUniformLocation(program, name)`: the uniform `name` of
`program`.  Every name `URender` uploads through (`model`, `view`,
`projection`, `lightColor`, `lightPos`, `viewPosition`, `uvScale`) is declared
in the shader source of the program it is looked up in. -/
structure UniformLocation where
  program : GLuint
  name : String
deriving DecidableEq

def glGetUniformLocation (program : GLuint) (name : String) : UniformLocation :=
  { program := program, name := name }

/-- The OpenGL and GLFW calls that change what is drawn.  `drawArrays` is
`glDrawArrays` (non-indexed), `drawElements` is `glDrawElements` (indexed). -/
inductive GLCmd (M : Type) where
  | enableDepthTest
  | clearColor (r g b a : ℚ)
  | clear
  | useProgram (program : GLuint)
  | uniformMatrix4fv (location : UniformLocation) (value : M)
  | uniform3f (location : UniformLocation) (x y z : ℚ)
  | uniform2fv (location : UniformLocation) (value : Vec2)
  | bindVertexArray (vao : GLuint)
  | activeTexture (unit : Nat)
  | bindTexture (texture : GLuint)
  | drawArrays (mode : DrawMode) (first : Nat) (count : Nat)
  | drawElements (mode : DrawMode) (count : Nat)
  | swapBuffers

/-- The projection matrix that `URender` computes. -/
def projectionMatrix {C M : Type} (glm : GLM M) (cam : CameraView C M) (st : AppState C) : M :=
  if st.viewProjection then
    glm.perspective (glm.radians (cam.Zoom st.gCamera))
      ((WINDOW_WIDTH : ℚ) / (WINDOW_HEIGHT : ℚ)) 0.1 100.0
  else
    let scale : ℚ := 120
    glm.ortho (800.0 / scale) (-(900.0 / scale)) (-(600.0 / scale)) (600.0 / scale) (-2.5) 6.5

/-- The `#pragma region Filing Cabinet` block together with the statements
before it: clear, select the lit program, upload all uniforms, draw slot 0. -/
def filingCabinetRegion {C M : Type} (glm : GLM M) (cam : CameraView C M) (st : AppState C) :
    List (GLCmd M) :=
  let view := cam.GetViewMatrix st.gCamera
  let projection := projectionMatrix glm cam st
  let scale := glm.scale ⟨1.0, 1.0, 0.5⟩
  let rotation := glm.rotate 45.0 ⟨0.0, 1.0, 0.0⟩
  let translation := glm.translate ⟨0.75, 0.0, -0.25⟩
  let model := glm.mul (glm.mul translation rotation) scale
  let modelLoc := glGetUniformLocation st.gProgramId "model"
  let viewLoc := glGetUniformLocation st.gProgramId "view"
  let projLoc := glGetUniformLocation st.gProgramId "projection"
  let lightColorLoc := glGetUniformLocation st.gProgramId "lightColor"
  let lightPositionLoc := glGetUniformLocation st.gProgramId "lightPos"
  let viewPositionLoc := glGetUniformLocation st.gProgramId "viewPosition"
  let cameraPosition := cam.Position st.gCamera
  let UVScaleLoc := glGetUniformLocation st.gProgramId "uvScale"
  [ GLCmd.enableDepthTest,
    GLCmd.clearColor 0.0 0.0 0.0 1.0,
    GLCmd.clear,
    GLCmd.useProgram st.gProgramId,
    GLCmd.uniformMatrix4fv modelLoc model,
    GLCmd.uniformMatrix4fv viewLoc view,
    GLCmd.uniformMatrix4fv projLoc projection,
    GLCmd.uniform3f lightColorLoc st.gLightColor.x st.gLightColor.y st.gLightColor.z,
    GLCmd.uniform3f lightPositionLoc st.gLightPosition.x st.gLightPosition.y st.gLightPosition.z,
    GLCmd.uniform3f viewPositionLoc cameraPosition.x cameraPosition.y cameraPosition.z,
    GLCmd.uniform2fv UVScaleLoc st.gUVScale,
    GLCmd.bindVertexArray (st.gMesh.vao.getD 0 0),
    GLCmd.activeTexture 0,
    GLCmd.bindTexture st.filingCabinetTextureId,
    GLCmd.drawArrays DrawMode.TRIANGLES 0 (st.gMesh.nVertices.getD 0 0) ]

/-- The shape shared by the regions DeskTop to MonitorStand: bind `texture`,
build `model` from the scale vector `s`, the rotation `angle` about `axis` and
the translation vector `t`, upload it, bind slot `slot` and draw it. -/
def objectRegion {C M : Type} (glm : GLM M) (st : AppState C) (texture : GLuint)
    (s : Vec3) (angle : ℚ) (axis : Vec3) (t : Vec3) (slot : Nat) : List (GLCmd M) :=
  let scale := glm.scale s
  let rotation := glm.rotate angle axis
  let translation := glm.translate t
  let model := glm.mul (glm.mul translation rotation) scale
  let modelLoc := glGetUniformLocation st.gProgramId "model"
  [ GLCmd.activeTexture 0,
    GLCmd.bindTexture texture,
    GLCmd.uniformMatrix4fv modelLoc model,
    GLCmd.bindVertexArray (st.gMesh.vao.getD slot 0),
    GLCmd.drawArrays DrawMode.TRIANGLES 0 (st.gMesh.nVertices.getD slot 0) ]

/-- The `#pragma region Light` block and the statements after it. -/
def lightRegion {C M : Type} (glm : GLM M) (cam : CameraView C M) (st : AppState C) :
    List (GLCmd M) :=
  let view := cam.GetViewMatrix st.gCamera
  let projection := projectionMatrix glm cam st
  let model := glm.mul (glm.translate st.gLightPosition) (glm.scale st.gLightScale)
  let modelLoc := glGetUniformLocation st.gLampProgramId "model"
  [ GLCmd.useProgram st.gLampProgramId,
    GLCmd.uniformMatrix4fv modelLoc model,
    GLCmd.uniformMatrix4fv modelLoc view,
    GLCmd.uniformMatrix4fv modelLoc projection,
    GLCmd.bindVertexArray (st.gMesh.vao.getD 8 0),
    GLCmd.drawArrays DrawMode.TRIANGLES 0 (st.gMesh.nVertices.getD 8 0),
    GLCmd.bindVertexArray 0,
    GLCmd.swapBuffers ]

/-- Source function `URender`: the commands of one frame, region by region. -/
def URender {C M : Type} (glm : GLM M) (cam : CameraView C M) (st : AppState C) :
    List (GLCmd M) :=
  filingCabinetRegion glm cam st
  ++ objectRegion glm st st.deskTextureId ⟨1.0, 1.0, 1.0⟩ 45.0 ⟨0.0, 1.0, 0.0⟩ ⟨0.0, 0.0, 0.0⟩ 1
  ++ objectRegion glm st st.pcTextureId ⟨1.0, 1.0, 0.25⟩ 45.0 ⟨0.0, 1.0, 0.0⟩ ⟨0.8, 0.0, 0.0⟩ 2
  ++ objectRegion glm st st.keyboardTextureId ⟨1.25, 1.0, 1.0⟩ 45.0 ⟨0.0, 1.0, 0.0⟩ ⟨0.0, 0.0, 0.0⟩ 3
  ++ objectRegion glm st st.monitorTextureId ⟨1.0, 1.0, 1.0⟩ 45.0 ⟨0.0, 1.0, 0.0⟩ ⟨0.0, 0.0, 0.0⟩ 4
  ++ objectRegion glm st st.speakerTextureId ⟨1.0, 1.0, 1.0⟩ 45.0 ⟨0.0, 1.0, 0.0⟩ ⟨-0.75, 0.0, 0.40⟩ 5
  ++ objectRegion glm st st.deskTextureId ⟨1.0, 1.0, 1.0⟩ 45.0 ⟨0.0, 1.0, 0.0⟩ ⟨0.0, 0.0, 0.0⟩ 6
  ++ objectRegion glm st st.monitorTextureId ⟨1.0, 1.0, 1.0⟩ 45.0 ⟨0.0, 1.0, 0.0⟩ ⟨0.0, 0.0, 0.0⟩ 7
  ++ lightRegion glm cam st

/-! ### Reading a command list -/

/-- The part of the OpenGL context that decides what a draw call draws: the
program in use, the bound vertex array and texture, and the matrix uniforms of
every program. -/
structure GLState (M : Type) where
  program : GLuint
  vao : GLuint
  texture : GLuint
  matrixUniform : GLuint → String → Option M

/-- Effect of one command on the context.  `glUniformMatrix4fv` writes the
uniform of the program in use. -/
def GLState.exec {M : Type} (g : GLState M) : GLCmd M → GLState M
  | GLCmd.useProgram program => { g with program := program }
  | GLCmd.bindVertexArray vao => { g with vao := vao }
  | GLCmd.bindTexture texture => { g with texture := texture }
  | GLCmd.uniformMatrix4fv location value =>
    { g with matrixUniform := fun p n =>
        if p = g.program ∧ n = location.name then some value else g.matrixUniform p n }
  | _ => g

/-- One issued draw call with the context it ran in. -/
structure DrawCall (M : Type) where
  indexed : Bool
  mode : DrawMode
  first : Nat
  count : Nat
  state : GLState M

/-- The draw calls of a command list, in issue order, from context `g`. -/
def drawCalls {M : Type} (g : GLState M) : List (GLCmd M) → List (DrawCall M)
  | [] => []
  | GLCmd.drawArrays mode first count :: rest =>
    { indexed := false, mode := mode, first := first, count := count, state := g }
      :: drawCalls g rest
  | GLCmd.drawElements mode count :: rest =>
    { indexed := true, mode := mode, first := 0, count := count, state := g }
      :: drawCalls g rest
  | c :: rest => drawCalls (g.exec c) rest

/-- What identifies a draw call apart from its uniforms. -/
structure DrawSummary where
  indexed : Bool
  mode : DrawMode
  first : Nat
  count : Nat
  program : GLuint
  vao : GLuint
deriving DecidableEq

def DrawCall.summary {M : Type} (d : DrawCall M) : DrawSummary :=
  { indexed := d.indexed, mode := d.mode, first := d.first, count := d.count,
    program := d.state.program, vao := d.state.vao }

/-- The matrix uniform `name` of the program a draw call runs under. -/
def DrawCall.matrix {M : Type} (d : DrawCall M) (name : String) : Option M :=
  d.state.matrixUniform d.state.program name

/-- The (translation, scale) literals of the eight lit objects, in draw order:
cabinet, desktop, PC, keyboard, monitor, speaker, leg, monitor stand. -/
def objectTransforms : List (Vec3 × Vec3) :=
  [ (⟨0.75, 0, -0.25⟩, ⟨1, 1, 0.5⟩),
    (⟨0, 0, 0⟩, ⟨1, 1, 1⟩),
    (⟨0.8, 0, 0⟩, ⟨1, 1, 0.25⟩),
    (⟨0, 0, 0⟩, ⟨1.25, 1, 1⟩),
    (⟨0, 0, 0⟩, ⟨1, 1, 1⟩),
    (⟨-0.75, 0, 0.40⟩, ⟨1, 1, 1⟩),
    (⟨0, 0, 0⟩, ⟨1, 1, 1⟩),
    (⟨0, 0, 0⟩, ⟨1, 1, 1⟩) ]

/-- The model matrix in the words of the specification,
translate(t) x rotate(45 degrees, Y) x scale(s): the 45 degrees reach `rotate`
through `radians`, the conversion the program itself applies to the zoom angle
before `perspective`. -/
def specModelMatrix {M : Type} (glm : GLM M) (t s : Vec3) : M :=
  glm.mul (glm.mul (glm.translate t) (glm.rotate (glm.radians 45) ⟨0, 1, 0⟩)) (glm.scale s)

/-! ## Concrete instances for evaluation -/

/-- Matrices kept as the GLM call expressions that produce them. -/
inductive MatExpr where
  | lookAt (position : Vec3)
  | translate (v : Vec3)
  | rotate (angle : ℚ) (axis : Vec3)
  | scale (v : Vec3)
  | mul (a b : MatExpr)
  | perspective (fovy aspect near far : ℚ)
  | ortho (left right bottom top near far : ℚ)
deriving DecidableEq

/-- Instance of `GLM` over call expressions; `radians` uses 355/113 for pi. -/
def symbolicGLM : GLM MatExpr :=
  { translate := MatExpr.translate
    rotate := MatExpr.rotate
    scale := MatExpr.scale
    mul := MatExpr.mul
    perspective := MatExpr.perspective
    ortho := MatExpr.ortho
    radians := fun degrees => degrees * (355 / 113) / 180 }

/-- One call of a camera method, as a record. -/
inductive CameraCall where
  | ProcessKeyboard (direction : Camera_Movement) (deltaTime : ℚ)
  | ProcessMouseMovement (xoffset yoffset : ℚ)
deriving DecidableEq

/-- Camera that only records the calls made on it. -/
def logProcessKeyboard (log : List CameraCall) (direction : Camera_Movement) (deltaTime : ℚ) :
    List CameraCall :=
  log ++ [CameraCall.ProcessKeyboard direction deltaTime]

/-- View of the recording camera: fixed position and a zoom of 45. -/
def logCameraView : CameraView (List CameraCall) MatExpr :=
  { GetViewMatrix := fun _ => MatExpr.lookAt ⟨0, 0, 5⟩
    Zoom := fun _ => 45
    Position := fun _ => ⟨0, 0, 5⟩ }

/-- A camera value for evaluation: at (0, 0, 5), yaw -90, pitch 0, speed 2.5,
sensitivity 0.1, zoom 45. -/
def sampleCamera : Camera :=
  { Position := ⟨0, 0, 5⟩, Yaw := -90, Pitch := 0, MovementSpeed := 2.5,
    MouseSensitivity := 0.1, Zoom := 45 }

/-- Keys P only, O only, and none. -/
def pressedOnly (k : Key) : Key → Bool := fun key => decide (key = k)

def pressedNone : Key → Bool := fun _ => false

/-! ## Scroll wheel -/

/-- Source function `UMouseScrollCallback`: two `if` statements on the global
`cameraSpeed`; `xoffset` is not read.  `cameraSpeed` is a `float`, `0.1f` and
`0.01f` are `float` literals, and `+=` and `-=` are `float` operations. -/
def UMouseScrollCallback {C : Type} (ar : FloatArith) (st : AppState C)
    (xoffset yoffset : ℚ) : AppState C :=
  let _unused := xoffset
  let st := if yoffset > 0 ∧ st.cameraSpeed < ar.toFloat 0.1 then
    { st with cameraSpeed := ar.toFloat (st.cameraSpeed + ar.toFloat 0.01) } else st
  let st := if yoffset < 0 ∧ st.cameraSpeed > ar.toFloat 0.01 then
    { st with cameraSpeed := ar.toFloat (st.cameraSpeed - ar.toFloat 0.01) } else st
  st

/-- The scroll events `glfwPollEvents` delivers, in order, each an
(xoffset, yoffset) pair handled by `UMouseScrollCallback`. -/
def scrollEvents {C : Type} (ar : FloatArith) : AppState C → List (ℚ × ℚ) → AppState C
  | st, [] => st
  | st, (xoffset, yoffset) :: rest =>
    scrollEvents ar (UMouseScrollCallback ar st xoffset yoffset) rest

/-- The speeds on the way down: the speed of a state and the speeds after each
of `n` downward scroll events. -/
def speedsDown {C : Type} (ar : FloatArith) : Nat → AppState C → List ℚ
  | 0, st => [st.cameraSpeed]
  | n + 1, st => st.cameraSpeed :: speedsDown ar n (UMouseScrollCallback ar st 0 (-1))

/-- The speeds of the compiled program at startup and after each of 50
downward scroll events: 51 values from 0.5 down to `13 / 2 ^ 26`. -/
def reachableSpeeds : List ℚ :=
  speedsDown FloatArith.ieee 50 (AppState.startup ())

/-- The (key, direction, time argument) triples of the six movement keys in
the order the claim on `UProcessInput` lists them, for a frame time `deltaTime`. -/
def movementBindings (deltaTime : ℚ) : List (Key × Camera_Movement × ℚ) :=
  [ (Key.W, Camera_Movement.FORWARD, deltaTime),
    (Key.S, Camera_Movement.BACKWARD, deltaTime),
    (Key.A, Camera_Movement.LEFT, deltaTime),
    (Key.D, Camera_Movement.RIGHT, deltaTime),
    (Key.Q, Camera_Movement.UP, 2.5),
    (Key.E, Camera_Movement.DOWN, 2.5) ]

/-! ## Messages -/

/-- The lines the program writes to `std::cout` (`glewError` to `std::cerr`). -/
inductive Message where
  | failedToCreateWindow
  | glewError (text : String)
  | openGLVersion (text : String)
  | vertexCompilationFailed (infoLog : String)
  | fragmentCompilationFailed (infoLog : String)
  | linkingFailed (infoLog : String)
  | notImplementedChannels (channels : Nat)
  | failedToLoadTexture (filename : String)
deriving DecidableEq

/-- The text of a message, as the `<<` chain of the source builds it. -/
def Message.text : Message → String
  | Message.failedToCreateWindow => "Failed to create GLFW window"
  | Message.glewError text => text
  | Message.openGLVersion text => "INFO: OpenGL Version: " ++ text
  | Message.vertexCompilationFailed infoLog =>
    "ERROR::SHADER::VERTEX::COMPILATION_FAILED\n" ++ infoLog
  | Message.fragmentCompilationFailed infoLog =>
    "ERROR::SHADER::FRAGMENT::COMPILATION_FAILED\n" ++ infoLog
  | Message.linkingFailed infoLog => "ERROR::SHADER::PROGRAM::LINKING_FAILED\n" ++ infoLog
  | Message.notImplementedChannels channels =>
    "Not implemented to handle image with " ++ toString channels ++ " channels"
  | Message.failedToLoadTexture filename => "Failed to load texture " ++ filename

/-! ## `UCreateTexture` -/

/-- What `stbi_load` hands back for a file it could decode: the pixel buffer
and the three `int` out-parameters. -/
structure DecodedImage where
  data : List Nat
  width : Nat
  height : Nat
  channels : Nat
deriving DecidableEq

inductive TexParam where
  | WRAP_S
  | WRAP_T
  | MIN_FILTER
  | MAG_FILTER
deriving DecidableEq

inductive TexParamValue where
  | MIRRORED_REPEAT
  | LINEAR
deriving DecidableEq

inductive TexFormat where
  | RGB8
  | RGB
  | RGBA8
  | RGBA
deriving DecidableEq

/-- The OpenGL and stb calls of `UCreateTexture`.  `texImage2D` carries the
internal format, the size, the pixel format and the pixel data. -/
inductive TextureCmd where
  | genTextures (name : GLuint)
  | bindTexture (name : GLuint)
  | texParameteri (pname : TexParam) (value : TexParamValue)
  | texImage2D (internalFormat : TexFormat) (width height : Nat) (format : TexFormat)
      (pixels : List Nat)
  | generateMipmap
  | imageFree
deriving DecidableEq

/-- Outcome of one `UCreateTexture` call: the returned `bool`, the value left
in `textureId`, the calls made and the lines printed. -/
structure TextureResult where
  ok : Bool
  textureId : GLuint
  commands : List TextureCmd
  printed : List Message

/-- Source function `UCreateTexture(filename, textureId)`.  `stbi_load` gives
the decoder's answer for a file (`none` for a null pointer); `generated` is the
name `glGenTextures` hands out. -/
def UCreateTexture (stbi_load : String → Option DecodedImage) (generated : GLuint)
    (filename : String) (textureId : GLuint) : TextureResult :=
  match stbi_load filename with
  | some image =>
    let pixels := flipImageVertically image.data image.width image.height image.channels
    let textureId := generated
    let setup :=
      [ TextureCmd.genTextures textureId,
        TextureCmd.bindTexture textureId,
        TextureCmd.texParameteri TexParam.WRAP_S TexParamValue.MIRRORED_REPEAT,
        TextureCmd.texParameteri TexParam.WRAP_T TexParamValue.MIRRORED_REPEAT,
        TextureCmd.texParameteri TexParam.MIN_FILTER TexParamValue.LINEAR,
        TextureCmd.texParameteri TexParam.MAG_FILTER TexParamValue.LINEAR ]
    let finish := [TextureCmd.generateMipmap, TextureCmd.imageFree, TextureCmd.bindTexture 0]
    if image.channels = 3 then
      { ok := true, textureId := textureId, printed := []
        commands := setup ++ [TextureCmd.texImage2D TexFormat.RGB8 image.width image.height
          TexFormat.RGB pixels] ++ finish }
    else if image.channels = 4 then
      { ok := true, textureId := textureId, printed := []
        commands := setup ++ [TextureCmd.texImage2D TexFormat.RGBA8 image.width image.height
          TexFormat.RGBA pixels] ++ finish }
    else
      { ok := false, textureId := textureId, commands := setup
        printed := [Message.notImplementedChannels image.channels] }
  | none => { ok := false, textureId := textureId, commands := [], printed := [] }

/-- The `glTexImage2D` calls of a command list. -/
def textureUploads (commands : List TextureCmd) : List TextureCmd :=
  commands.filter fun c =>
    match c with
    | TextureCmd.texImage2D _ _ _ _ _ => true
    | _ => false

/-- The number of `glGenerateMipmap` calls of a command list. -/
def mipmapCalls (commands : List TextureCmd) : Nat :=
  commands.count TextureCmd.generateMipmap

/-! ## `main` -/

def EXIT_SUCCESS : Nat := 0

def EXIT_FAILURE : Nat := 1

/-- The six texture globals, in the order `main` loads them. -/
inductive TextureSlot where
  | desk
  | monitor
  | pc
  | filingCabinet
  | speaker
  | keyboard
deriving DecidableEq

/-- The file each texture global is loaded from (`deskTexFilename` and so on). -/
def TextureSlot.filename : TextureSlot → String
  | TextureSlot.desk => "../../resources/textures/DeskTexture.jpg"
  | TextureSlot.monitor => "../../resources/textures/MonitorTexture.png"
  | TextureSlot.pc => "../../resources/textures/PCTexture.jpg"
  | TextureSlot.filingCabinet => "../../resources/textures/filecabinetfront.jpeg"
  | TextureSlot.speaker => "../../resources/textures/SpeakerTexture.jpg"
  | TextureSlot.keyboard => "../../resources/textures/KeyboardTexture.png"

/-- The load order of `main`: desk, monitor, PC, filing cabinet, speaker, keyboard. -/
def textureOrder : List TextureSlot :=
  [ TextureSlot.desk, TextureSlot.monitor, TextureSlot.pc, TextureSlot.filingCabinet,
    TextureSlot.speaker, TextureSlot.keyboard ]

/-- The statuses `glGetShaderiv` and `glGetProgramiv` report for one program,
and the info log text. -/
structure ShaderOutcome where
  vertexCompiled : Bool
  fragmentCompiled : Bool
  linked : Bool
  infoLog : String

/-- What the libraries and the file system answer during one run: window and
GLEW initialisation, the two shader builds, the decoder, the texture names
handed out, and the number of loop rounds before the window reports closing. -/
structure Environment where
  windowCreated : Bool
  glewOk : Bool
  glewErrorString : String
  glVersion : String
  litShader : ShaderOutcome
  lampShader : ShaderOutcome
  stbi_load : String → Option DecodedImage
  genTexture : TextureSlot → GLuint
  frames : Nat

/-- A returned `bool` with the lines printed on the way. -/
structure StepResult where
  ok : Bool
  printed : List Message

/-- Source function `UInitialize`: fails when the window is null or when
`glewInit` does not return `GLEW_OK`. -/
def UInitialize (env : Environment) : StepResult :=
  if env.windowCreated = false then
    { ok := false, printed := [Message.failedToCreateWindow] }
  else if env.glewOk = false then
    { ok := false, printed := [Message.glewError env.glewErrorString] }
  else
    { ok := true, printed := [Message.openGLVersion env.glVersion] }

/-- Source function `UCreateShaderProgram`: compile the vertex shader, compile
the fragment shader, link; the first unsuccessful status prints and returns
false. -/
def UCreateShaderProgram (o : ShaderOutcome) : StepResult :=
  if o.vertexCompiled = false then
    { ok := false, printed := [Message.vertexCompilationFailed o.infoLog] }
  else if o.fragmentCompiled = false then
    { ok := false, printed := [Message.fragmentCompilationFailed o.infoLog] }
  else if o.linked = false then
    { ok := false, printed := [Message.linkingFailed o.infoLog] }
  else
    { ok := true, printed := [] }

/-- What `main` does, call by call. -/
inductive MainEvent where
  | UInitialize
  | UCreateMesh
  | UCreateShaderProgram (lamp : Bool)
  | UCreateTexture (slot : TextureSlot)
  | print (m : Message)
  | samplerSetup
  | UProcessInput
  | URender
  | glfwPollEvents
  | UDestroyMesh
  | UDestroyTexture (slot : TextureSlot)
  | UDestroyShaderProgram (lamp : Bool)
deriving DecidableEq

/-- Exit status of the process and the calls made, in order. -/
structure MainResult where
  exitCode : Nat
  events : List MainEvent
deriving DecidableEq

/-- The call `UCreateTexture(slot's file, slot's global)` as `main` makes it. -/
def loadTexture (env : Environment) (slot : TextureSlot) : TextureResult :=
  UCreateTexture env.stbi_load (env.genTexture slot) slot.filename 0

/-- The texture global that `main` passes by reference to the
`UCreateTexture` call of a slot. -/
def TextureSlot.global {C : Type} (st : AppState C) : TextureSlot → GLuint
  | TextureSlot.desk => st.deskTextureId
  | TextureSlot.monitor => st.monitorTextureId
  | TextureSlot.pc => st.pcTextureId
  | TextureSlot.filingCabinet => st.filingCabinetTextureId
  | TextureSlot.speaker => st.speakerTextureId
  | TextureSlot.keyboard => st.keyboardTextureId

/-- The texture globals as `main` leaves them when it enters the render loop,
`none` when it returns before: the `if` statements of `main` on the globals.
Each `UCreateTexture` call receives its global by reference and leaves the
value of its `textureId` in it.  The mesh and program globals are not followed
here. -/
def mainTextures {C : Type} (env : Environment) (st : AppState C) : Option (AppState C) :=
  if (UInitialize env).ok = false then none else
  if (UCreateShaderProgram env.litShader).ok = false then none else
  if (UCreateShaderProgram env.lampShader).ok = false then none else
  let r := UCreateTexture env.stbi_load (env.genTexture TextureSlot.desk)
    TextureSlot.desk.filename st.deskTextureId
  let st := { st with deskTextureId := r.textureId }
  if r.ok = false then none else
  let r := UCreateTexture env.stbi_load (env.genTexture TextureSlot.monitor)
    TextureSlot.monitor.filename st.monitorTextureId
  let st := { st with monitorTextureId := r.textureId }
  if r.ok = false then none else
  let r := UCreateTexture env.stbi_load (env.genTexture TextureSlot.pc)
    TextureSlot.pc.filename st.pcTextureId
  let st := { st with pcTextureId := r.textureId }
  if r.ok = false then none else
  let r := UCreateTexture env.stbi_load (env.genTexture TextureSlot.filingCabinet)
    TextureSlot.filingCabinet.filename st.filingCabinetTextureId
  let st := { st with filingCabinetTextureId := r.textureId }
  if r.ok = false then none else
  let r := UCreateTexture env.stbi_load (env.genTexture TextureSlot.speaker)
    TextureSlot.speaker.filename st.speakerTextureId
  let st := { st with speakerTextureId := r.textureId }
  if r.ok = false then none else
  let r := UCreateTexture env.stbi_load (env.genTexture TextureSlot.keyboard)
    TextureSlot.keyboard.filename st.keyboardTextureId
  let st := { st with keyboardTextureId := r.textureId }
  if r.ok = false then none else
  some st

/-- The texture global each lit region of `URender` binds, in draw order:
filing cabinet, desktop, PC, keyboard, monitor, speaker, desk leg, monitor
stand. -/
def drawSlots : List TextureSlot :=
  [ TextureSlot.filingCabinet, TextureSlot.desk, TextureSlot.pc, TextureSlot.keyboard,
    TextureSlot.monitor, TextureSlot.speaker, TextureSlot.desk, TextureSlot.monitor ]

/-- The names a command list asks `glGenTextures` for. -/
def generatedNames (commands : List TextureCmd) : List GLuint :=
  commands.filterMap fun c =>
    match c with
    | TextureCmd.genTextures name => some name
    | _ => none

/-- The events of one `if (!UCreateTexture(file, id)) ...` statement up to its
test: the call and what the call prints. -/
def textureCall (env : Environment) (slot : TextureSlot) : List MainEvent :=
  MainEvent.UCreateTexture slot :: (loadTexture env slot).printed.map MainEvent.print

/-- The block `cout << "Failed to load texture " << file << endl;`. -/
def textureFailure (slot : TextureSlot) : List MainEvent :=
  [MainEvent.print (Message.failedToLoadTexture slot.filename)]

/-- The render loop, for the number of rounds the window stays open. -/
def renderLoop : Nat → List MainEvent
  | 0 => []
  | n + 1 =>
    [MainEvent.UProcessInput, MainEvent.URender, MainEvent.glfwPollEvents] ++ renderLoop n

/-- The statements of `main` after the render loop. -/
def teardown : List MainEvent :=
  [ MainEvent.UDestroyMesh,
    MainEvent.UDestroyTexture TextureSlot.desk,
    MainEvent.UDestroyTexture TextureSlot.monitor,
    MainEvent.UDestroyTexture TextureSlot.pc,
    MainEvent.UDestroyTexture TextureSlot.filingCabinet,
    MainEvent.UDestroyTexture TextureSlot.speaker,
    MainEvent.UDestroyTexture TextureSlot.keyboard,
    MainEvent.UDestroyShaderProgram false,
    MainEvent.UDestroyShaderProgram true ]

/-- Source function `main`. -/
def main (env : Environment) : MainResult :=
  let ev := MainEvent.UInitialize :: (UInitialize env).printed.map MainEvent.print
  if (UInitialize env).ok = false then { exitCode := EXIT_FAILURE, events := ev } else
  let ev := ev ++ [MainEvent.UCreateMesh]
  let ev := ev ++ MainEvent.UCreateShaderProgram false ::
    (UCreateShaderProgram env.litShader).printed.map MainEvent.print
  if (UCreateShaderProgram env.litShader).ok = false then
    { exitCode := EXIT_FAILURE, events := ev } else
  let ev := ev ++ MainEvent.UCreateShaderProgram true ::
    (UCreateShaderProgram env.lampShader).printed.map MainEvent.print
  if (UCreateShaderProgram env.lampShader).ok = false then
    { exitCode := EXIT_FAILURE, events := ev } else
  let ev := ev ++ textureCall env TextureSlot.desk
  if (loadTexture env TextureSlot.desk).ok = false then
    { exitCode := EXIT_FAILURE, events := ev ++ textureFailure TextureSlot.desk } else
  let ev := ev ++ textureCall env TextureSlot.monitor
  if (loadTexture env TextureSlot.monitor).ok = false then
    { exitCode := EXIT_FAILURE, events := ev ++ textureFailure TextureSlot.monitor } else
  let ev := ev ++ textureCall env TextureSlot.pc
  if (loadTexture env TextureSlot.pc).ok = false then
    { exitCode := EXIT_FAILURE, events := ev ++ textureFailure TextureSlot.pc } else
  let ev := ev ++ textureCall env TextureSlot.filingCabinet
  if (loadTexture env TextureSlot.filingCabinet).ok = false then
    { exitCode := EXIT_FAILURE, events := ev ++ textureFailure TextureSlot.filingCabinet } else
  let ev := ev ++ textureCall env TextureSlot.speaker
  if (loadTexture env TextureSlot.speaker).ok = false then
    { exitCode := EXIT_FAILURE, events := ev ++ textureFailure TextureSlot.speaker } else
  let ev := ev ++ textureCall env TextureSlot.keyboard
  if (loadTexture env TextureSlot.keyboard).ok = false then
    { exitCode := EXIT_FAILURE, events := ev ++ textureFailure TextureSlot.keyboard } else
  let ev := ev ++ [MainEvent.samplerSetup]
  let ev := ev ++ renderLoop env.frames
  let ev := ev ++ teardown
  { exitCode := EXIT_SUCCESS, events := ev }

/-- The events of `main` up to and including the call of `UCreateShaderProgram`
for the lamp program, when everything before the textures succeeds. -/
def startupPrefix (env : Environment) : List MainEvent :=
  [ MainEvent.UInitialize, MainEvent.print (Message.openGLVersion env.glVersion),
    MainEvent.UCreateMesh, MainEvent.UCreateShaderProgram false,
    MainEvent.UCreateShaderProgram true ]

/-- The startup steps of `main` that the claims name, in program order. -/
inductive StartupStep where
  | windowInit
  | createMesh
  | litProgram
  | lampProgram
  | texture (slot : TextureSlot)
deriving DecidableEq

def startupOrder : List StartupStep :=
  [ StartupStep.windowInit, StartupStep.createMesh, StartupStep.litProgram,
    StartupStep.lampProgram, StartupStep.texture TextureSlot.desk,
    StartupStep.texture TextureSlot.monitor, StartupStep.texture TextureSlot.pc,
    StartupStep.texture TextureSlot.filingCabinet, StartupStep.texture TextureSlot.speaker,
    StartupStep.texture TextureSlot.keyboard ]

/-- Whether a startup step reports success in an environment; `UCreateMesh`
returns nothing and cannot report failure. -/
def StartupStep.succeeds (env : Environment) : StartupStep → Bool
  | StartupStep.windowInit => (UInitialize env).ok
  | StartupStep.createMesh => true
  | StartupStep.litProgram => (UCreateShaderProgram env.litShader).ok
  | StartupStep.lampProgram => (UCreateShaderProgram env.lampShader).ok
  | StartupStep.texture slot => (loadTexture env slot).ok

/-- The call event of a startup step. -/
def StartupStep.event : StartupStep → MainEvent
  | StartupStep.windowInit => MainEvent.UInitialize
  | StartupStep.createMesh => MainEvent.UCreateMesh
  | StartupStep.litProgram => MainEvent.UCreateShaderProgram false
  | StartupStep.lampProgram => MainEvent.UCreateShaderProgram true
  | StartupStep.texture slot => MainEvent.UCreateTexture slot

/-- The startup step an event is the call of, if any. -/
def MainEvent.startupStep : MainEvent → Option StartupStep
  | MainEvent.UInitialize => some StartupStep.windowInit
  | MainEvent.UCreateMesh => some StartupStep.createMesh
  | MainEvent.UCreateShaderProgram false => some StartupStep.litProgram
  | MainEvent.UCreateShaderProgram true => some StartupStep.lampProgram
  | MainEvent.UCreateTexture slot => some (StartupStep.texture slot)
  | _ => none

/-- Events of the render loop. -/
def MainEvent.inLoop : MainEvent → Bool
  | MainEvent.UProcessInput => true
  | MainEvent.URender => true
  | MainEvent.glfwPollEvents => true
  | _ => false

/-- The file named by a `Failed to load texture` line. -/
def MainEvent.failedFile : MainEvent → Option String
  | MainEvent.print (Message.failedToLoadTexture filename) => some filename
  | _ => none

/-- The slot of a `UCreateTexture` call. -/
def MainEvent.loadedSlot : MainEvent → Option TextureSlot
  | MainEvent.UCreateTexture slot => some slot
  | _ => none

/-- An application state after a successful startup in which the driver named
the textures 1 to 6 in load order and the programs 1 and 2. -/
def loadedState {C : Type} (cam : C) : AppState C :=
  { AppState.startup cam with
    deskTextureId := 1, monitorTextureId := 2, pcTextureId := 3, filingCabinetTextureId := 4,
    speakerTextureId := 5, keyboardTextureId := 6, gProgramId := 1, gLampProgramId := 2 }

/-- An OpenGL context with nothing bound and no uniform written. -/
def emptyContext : GLState MatExpr :=
  { program := 0, vao := 0, texture := 0, matrixUniform := fun _ _ => none }

/-- A decoder that knows every file as a 1 x 2 image with `channels` channels,
except the files in `missing`. -/
def sampleDecoder (channels : Nat) (missing : List String) : String → Option DecodedImage :=
  fun filename =>
    if filename ∈ missing then none
    else some { data := List.range (2 * channels), width := 1, height := 2, channels := channels }

/-- An environment in which everything succeeds except the decoding of the
files in `missing`. -/
def sampleEnvironment (missing : List String) : Environment :=
  { windowCreated := true, glewOk := true, glewErrorString := "", glVersion := "4.4",
    litShader := { vertexCompiled := true, fragmentCompiled := true, linked := true, infoLog := "" },
    lampShader := { vertexCompiled := true, fragmentCompiled := true, linked := true, infoLog := "" },
    stbi_load := sampleDecoder 3 missing,
    genTexture := fun slot =>
      match slot with
      | TextureSlot.desk => 1
      | TextureSlot.monitor => 2
      | TextureSlot.pc => 3
      | TextureSlot.filingCabinet => 4
      | TextureSlot.speaker => 5
      | TextureSlot.keyboard => 6,
    frames := 1 }

/-! ## Teardown -/

/-- The OpenGL calls of the three `UDestroy...` functions.  `deleteVertexArrays`
and `deleteBuffers` carry the element count `n` and the array they read their
`n` names from. -/
inductive TeardownCmd where
  | genTextures (name : GLuint)
  | deleteTextures (name : GLuint)
  | deleteVertexArrays (n : Nat) (arrays : List GLuint)
  | deleteBuffers (n : Nat) (buffers : List GLuint)
  | deleteProgram (program : GLuint)
deriving DecidableEq

/-- Source function `UDestroyTexture(textureId)`: its one statement is
`glGenTextures(1, &textureId)`, which stores a name handed out by the driver,
`generated`, in the by-value parameter. -/
def UDestroyTexture (generated : GLuint) (textureId : GLuint) : List TeardownCmd :=
  let _textureId := textureId
  [TeardownCmd.genTextures generated]

/-- Source function `UDestroyShaderProgram(programId)`. -/
def UDestroyShaderProgram (programId : GLuint) : List TeardownCmd :=
  [TeardownCmd.deleteProgram programId]

/-- Source function `UDestroyMesh(mesh)`: `glDeleteVertexArrays(10, mesh.vao)`
and `glDeleteBuffers(10, mesh.vbo)`. -/
def UDestroyMesh (mesh : GLMesh) : List TeardownCmd :=
  [TeardownCmd.deleteVertexArrays 10 mesh.vao, TeardownCmd.deleteBuffers 10 mesh.vbo]

/-- The array positions a call reads names from: `0` to `n - 1` for the two
array deletes. -/
def TeardownCmd.indicesRead : TeardownCmd → List Nat
  | TeardownCmd.deleteVertexArrays n _ => List.range n
  | TeardownCmd.deleteBuffers n _ => List.range n
  | _ => []

/-- The texture names in use after a call, from the names in use before it:
`glGenTextures` adds the name it hands out, `glDeleteTextures` releases its
argument. -/
def texturesInUse (names : List GLuint) : TeardownCmd → List GLuint
  | TeardownCmd.genTextures name => names ++ [name]
  | TeardownCmd.deleteTextures name => names.filter (fun n => n ≠ name)
  | _ => names

/-- The six `UDestroyTexture` calls of `main`, in program order; `generated k`
is the name the driver hands out in the k-th call. -/
def destroyTextures {C : Type} (st : AppState C) (generated : Nat → GLuint) :
    List TeardownCmd :=
  UDestroyTexture (generated 0) st.deskTextureId
  ++ UDestroyTexture (generated 1) st.monitorTextureId
  ++ UDestroyTexture (generated 2) st.pcTextureId
  ++ UDestroyTexture (generated 3) st.filingCabinetTextureId
  ++ UDestroyTexture (generated 4) st.speakerTextureId
  ++ UDestroyTexture (generated 5) st.keyboardTextureId

/-! ## Runs of the render loop -/

/-- What reaches the program during the loop: a loop round with the value
`glfwGetTime` returns and the keys held, a cursor event, a scroll event. -/
inductive InputEvent where
  | frame (time : ℚ) (pressed : Key → Bool)
  | cursor (xpos ypos : ℚ)
  | scroll (xoffset yoffset : ℚ)

def InputEvent.isScroll : InputEvent → Bool
  | InputEvent.scroll _ _ => true
  | _ => false

/-- What one loop round shows: the camera after `UProcessInput` and the
commands of `URender`. -/
structure FrameOutput (C M : Type) where
  camera : C
  commands : List (GLCmd M)

/-- One event: a loop round runs the timing statements (`currentFrame`,
`gDeltaTime` and `gLastFrame` are `float`), `UProcessInput` and `URender`; the
two callbacks run when `glfwPollEvents` delivers their event. -/
def stepEvent {C M : Type} (ar : FloatArith) (glm : GLM M) (cam : CameraView C M)
    (ProcessKeyboard : C → Camera_Movement → ℚ → C) (ProcessMouseMovement : C → ℚ → ℚ → C)
    (st : AppState C) : InputEvent → AppState C × List (FrameOutput C M)
  | InputEvent.frame time pressed =>
    let currentFrame := ar.toFloat time
    let st := { st with gDeltaTime := ar.toFloat (currentFrame - st.gLastFrame),
                        gLastFrame := currentFrame }
    let st := UProcessInput ProcessKeyboard pressed st
    (st, [{ camera := st.gCamera, commands := URender glm cam st }])
  | InputEvent.cursor xpos ypos =>
    (UMousePositionCallback ar ProcessMouseMovement st xpos ypos, [])
  | InputEvent.scroll xoffset yoffset => (UMouseScrollCallback ar st xoffset yoffset, [])

/-- A run: the events in order, with the outputs of the loop rounds collected. -/
def runEvents {C M : Type} (ar : FloatArith) (glm : GLM M) (cam : CameraView C M)
    (ProcessKeyboard : C → Camera_Movement → ℚ → C) (ProcessMouseMovement : C → ℚ → ℚ → C) :
    AppState C → List InputEvent → AppState C × List (FrameOutput C M)
  | st, [] => (st, [])
  | st, e :: rest =>
    let r := stepEvent ar glm cam ProcessKeyboard ProcessMouseMovement st e
    let r2 := runEvents ar glm cam ProcessKeyboard ProcessMouseMovement r.1 rest
    (r2.1, r.2 ++ r2.2)

/-! ## Instrumented `flipImageVertically` -/

/-- The index pairs the inner loop exchanges, in order: the loop of `flipRow`
with the pair recorded in place of the exchange. -/
def flipRowSwaps : Nat → Nat → Nat → List (Nat × Nat)
  | 0, _, _ => []
  | i + 1, index1, index2 => (index1, index2) :: flipRowSwaps i (index1 + 1) (index2 + 1)

/-- The index pairs the outer loop exchanges: the loop of `flipRows`. -/
def flipRowsSwaps (width height channels : Nat) : Nat → Nat → List (Nat × Nat)
  | 0, _ => []
  | n + 1, j =>
    let index1 := j * width * channels
    let index2 := (height - 1 - j) * width * channels
    flipRowSwaps (width * channels) index1 index2
      ++ flipRowsSwaps width height channels n (j + 1)

/-- Every `(index1, index2)` at which `flipImageVertically` reads and writes
`image`, in order. -/
def flipSwaps (width height channels : Nat) : List (Nat × Nat) :=
  flipRowsSwaps width height channels (height / 2) 0

/-! ## Recording camera, mouse side -/

/-- The recording camera's `ProcessMouseMovement`. -/
def logProcessMouseMovement (log : List CameraCall) (xoffset yoffset : ℚ) : List CameraCall :=
  log ++ [CameraCall.ProcessMouseMovement xoffset yoffset]

/-- The x offsets of the recorded `ProcessMouseMovement` calls. -/
def xOffsets (log : List CameraCall) : List ℚ :=
  log.filterMap fun c =>
    match c with
    | CameraCall.ProcessMouseMovement xoffset _ => some xoffset
    | _ => none

/-- The y offsets of the recorded `ProcessMouseMovement` calls. -/
def yOffsets (log : List CameraCall) : List ℚ :=
  log.filterMap fun c =>
    match c with
    | CameraCall.ProcessMouseMovement _ yoffset => some yoffset
    | _ => none

/-- Both keys P and O held, nothing else. -/
def pressedBoth : Key → Bool := fun key => decide (key = Key.P ∨ key = Key.O)

/-- The state with the global `cameraSpeed` set to `s` and every other global
as it is. -/
def AppState.withSpeed {C : Type} (st : AppState C) (s : ℚ) : AppState C :=
  { st with cameraSpeed := s }

/-! # Part II: properties -/

/-! ## Lemmas on `flipImageVertically` -/

theorem swapBytes_length (image : List Nat) (a b : Nat) :
    (swapBytes image a b).length = image.length := by
  simp [swapBytes]

theorem swapBytes_getElem? (image : List Nat) (a b p : Nat)
    (ha : a < image.length) (hb : b < image.length) :
    (swapBytes image a b)[p]? =
      if p = b then image[a]? else if p = a then image[b]? else image[p]? := by
  simp only [swapBytes, List.getD_eq_getElem?_getD, List.getElem?_set, List.length_set]
  have ea : image[a]? = some image[a] := List.getElem?_eq_getElem ha
  have eb : image[b]? = some image[b] := List.getElem?_eq_getElem hb
  by_cases h1 : p = b
  · subst h1
    simp [ea, hb]
  · by_cases h2 : p = a
    · subst h2
      simp [eb, ha, h1, Ne.symm h1]
    · simp [h1, h2, Ne.symm h1, Ne.symm h2]

theorem flipRow_length (n a b : Nat) (image : List Nat) :
    (flipRow n a b image).length = image.length := by
  induction n generalizing a b image with
  | zero => rfl
  | succ n ih => simp [flipRow, ih, swapBytes_length]

/-- One run of the inner loop exchanges the two disjoint blocks of `n` bytes
that start at `a` and at `b`, and leaves every other byte alone. -/
theorem flipRow_getElem? (n a b : Nat) (image : List Nat) (p : Nat)
    (hab : a + n ≤ b) (hb : b + n ≤ image.length) :
    (flipRow n a b image)[p]? =
      if a ≤ p ∧ p < a + n then image[p - a + b]?
      else if b ≤ p ∧ p < b + n then image[p - b + a]?
      else image[p]? := by
  induction n generalizing a b image with
  | zero => rw [flipRow, if_neg (by omega), if_neg (by omega)]
  | succ n ih =>
    have hlen := swapBytes_length image a b
    rw [flipRow, ih (a + 1) (b + 1) (swapBytes image a b) (by omega) (by omega)]
    have hsw : ∀ q, (swapBytes image a b)[q]? =
        if q = b then image[a]? else if q = a then image[b]? else image[q]? :=
      fun q => swapBytes_getElem? image a b q (by omega) (by omega)
    by_cases h1 : a + 1 ≤ p ∧ p < a + 1 + n
    · have e : p - (a + 1) + (b + 1) = p - a + b := by omega
      rw [if_pos h1, if_pos (by omega), hsw, e, if_neg (by omega), if_neg (by omega)]
    · rw [if_neg h1]
      by_cases h2 : b + 1 ≤ p ∧ p < b + 1 + n
      · have e : p - (b + 1) + (a + 1) = p - b + a := by omega
        rw [if_pos h2, if_neg (by omega), if_pos (by omega), hsw, e, if_neg (by omega),
          if_neg (by omega)]
      · rw [if_neg h2, hsw]
        by_cases h3 : p = b
        · subst h3
          rw [if_pos rfl, if_neg (by omega), if_pos (by omega)]
          congr 1
          omega
        · rw [if_neg h3]
          by_cases h4 : p = a
          · subst h4
            rw [if_pos rfl, if_pos (by omega)]
            congr 1
            omega
          · rw [if_neg h4, if_neg (by omega), if_neg (by omega)]

theorem row_block_le (x y W : Nat) (h : x < y) : x * W + W ≤ y * W := by
  have h1 : (x + 1) * W ≤ y * W := Nat.mul_le_mul_right W h
  rw [Nat.add_mul, Nat.one_mul] at h1
  exact h1

/-- One round of the outer loop, read by row and offset. -/
theorem flipRow_rows (image : List Nat) (W H j r i : Nat)
    (hj : 2 * j + 2 ≤ H) (hr : r < H) (hi : i < W) (hlen : image.length = W * H) :
    (flipRow W (j * W) ((H - 1 - j) * W) image)[r * W + i]? =
      image[swapRowIndex H j r * W + i]? := by
  have hab : j * W + W ≤ (H - 1 - j) * W := row_block_le _ _ W (by omega)
  have hbl : (H - 1 - j) * W + W ≤ image.length := by
    have h1 := row_block_le (H - 1 - j) H W (by omega)
    rw [hlen, Nat.mul_comm W H]
    exact h1
  rw [flipRow_getElem? W _ _ image _ hab hbl]
  unfold swapRowIndex
  by_cases h1 : r = j
  · subst h1
    rw [if_pos (by omega), if_pos rfl]
    congr 1
    omega
  · rw [if_neg h1]
    by_cases h2 : r = H - 1 - j
    · subst h2
      rw [if_neg (by omega), if_pos (by omega), if_pos rfl]
      congr 1
      omega
    · rw [if_neg h2]
      rcases Nat.lt_or_gt_of_ne h1 with h3 | h3
      · have := row_block_le r j W h3
        rw [if_neg (by omega), if_neg (by omega)]
      · have h4 := row_block_le j r W h3
        rcases Nat.lt_or_gt_of_ne h2 with h5 | h5
        · have := row_block_le r _ W h5
          rw [if_neg (by omega), if_neg (by omega)]
        · have := row_block_le _ r W h5
          rw [if_neg (by omega), if_neg (by omega)]

theorem flipRows_length (width height channels n j : Nat) (image : List Nat) :
    (flipRows width height channels n j image).length = image.length := by
  induction n generalizing j image with
  | zero => rfl
  | succ n ih => simp [flipRows, ih, flipRow_length]

theorem flipRows_rows (width height channels n j : Nat) (image : List Nat)
    (hn : j + n ≤ height / 2) (hlen : image.length = width * channels * height)
    (r i : Nat) (hr : r < height) (hi : i < width * channels) :
    (flipRows width height channels n j image)[r * (width * channels) + i]? =
      image[flippedRowIndex height j n r * (width * channels) + i]? := by
  induction n generalizing j image with
  | zero =>
    have e : flippedRowIndex height j 0 r = r := by
      unfold flippedRowIndex
      rw [if_neg (by omega)]
    rw [flipRows, e]
  | succ n ih =>
    have hlen2 : (flipRow (width * channels) (j * (width * channels))
        ((height - 1 - j) * (width * channels)) image).length
        = width * channels * height := by
      rw [flipRow_length, hlen]
    have hr2 : flippedRowIndex height (j + 1) n r < height := by
      unfold flippedRowIndex
      split_ifs <;> omega
    have e : swapRowIndex height j (flippedRowIndex height (j + 1) n r)
        = flippedRowIndex height j (n + 1) r := by
      unfold swapRowIndex flippedRowIndex
      split_ifs <;> omega
    rw [flipRows]
    simp only [Nat.mul_assoc]
    rw [ih (j + 1) _ (by omega) hlen2,
      flipRow_rows image (width * channels) height j _ i (by omega) hr2 hi hlen, e]

/-! ## Values that the conversions keep -/

theorem roundNearestEven_zero (p : Nat) (emin : Int) : roundNearestEven p emin 0 = 0 := by
  simp [roundNearestEven]

theorem log2Fuel_spec (fuel n : Nat) (h1 : 1 ≤ n) (hf : n ≤ fuel) :
    2 ^ log2Fuel fuel n ≤ n ∧ n < 2 ^ (log2Fuel fuel n + 1) := by
  induction fuel generalizing n with
  | zero => omega
  | succ fuel ih =>
    unfold log2Fuel
    by_cases h2 : n < 2
    · rw [if_pos h2]
      constructor
      · simpa using h1
      · simpa using h2
    · rw [if_neg h2]
      have h3 := ih (n / 2) (by omega) (by omega)
      constructor
      · rw [pow_succ]
        omega
      · rw [pow_succ]
        omega

theorem pow2_neg_nat (j : Nat) : pow2 (-(j : Int)) = 1 / ((2 ^ j : Nat) : ℚ) := by
  unfold pow2
  by_cases h : j = 0
  · subst h
    simp
  · have h2 : ¬ (0 : Int) ≤ -(j : Int) := by omega
    rw [if_neg h2]
    simp

theorem pow2_nat (j : Nat) : pow2 (j : Int) = ((2 ^ j : Nat) : ℚ) := by
  unfold pow2
  simp

/-- A whole number of magnitude below `2 ^ p` is a value of the format with a
significand of `p` bits. -/
theorem roundNearestEven_int (p : Nat) (emin : Int) (n : Int) (hemin : emin ≤ 0)
    (hn : n.natAbs < 2 ^ p) : roundNearestEven p emin (n : ℚ) = (n : ℚ) := by
  by_cases h0 : n = 0
  · subst h0
    simp [roundNearestEven]
  have ha : 1 ≤ n.natAbs := by omega
  obtain ⟨hlo, hhi⟩ := log2Fuel_spec n.natAbs n.natAbs ha (le_refl _)
  generalize hL : log2Fuel n.natAbs n.natAbs = L at hlo hhi
  have hLp : L < p := by
    by_contra hc
    have : 2 ^ p ≤ 2 ^ L := Nat.pow_le_pow_right (by norm_num) (by omega)
    omega
  have habs : |(n : ℚ)| = (n.natAbs : ℚ) := by
    rw [Nat.cast_natAbs]
    simp
  have hbe : binaryExponent (n : ℚ) = (L : Int) := by
    unfold binaryExponent
    have hden : log2Fuel 1 1 = 0 := by rfl
    simp only [Rat.num_intCast, Rat.den_intCast, hL, hden, Nat.cast_zero, sub_zero]
    rw [pow2_nat, habs, if_pos (by exact_mod_cast hlo)]
  have hq : ¬ ((n : ℚ) = 0) := by exact_mod_cast h0
  unfold roundNearestEven
  rw [if_neg hq, hbe]
  have hmax : max (L : Int) emin = (L : Int) := by
    apply max_eq_left
    omega
  have hexp : (L : Int) - ((p : Int) - 1) = -((p - 1 - L : Nat) : Int) := by omega
  simp only [hmax, hexp, pow2_neg_nat, habs]
  have hm : (n.natAbs : ℚ) / (1 / ((2 ^ (p - 1 - L) : Nat) : ℚ)) =
      ((n.natAbs * 2 ^ (p - 1 - L) : Nat) : ℚ) := by
    push_cast
    field_simp
  rw [hm]
  have hfl : ⌊((n.natAbs * 2 ^ (p - 1 - L) : Nat) : ℚ)⌋ = ((n.natAbs * 2 ^ (p - 1 - L) : Nat) : Int) :=
    Int.floor_natCast _
  rw [hfl]
  have hfrac : ((n.natAbs * 2 ^ (p - 1 - L) : Nat) : ℚ) -
      (((n.natAbs * 2 ^ (p - 1 - L) : Nat) : Int) : ℚ) < 1 / 2 := by
    rw [Int.cast_natCast, sub_self]
    norm_num
  rw [if_pos hfrac]
  have hpos : (0 : ℚ) < ((2 ^ (p - 1 - L) : Nat) : ℚ) := by positivity
  by_cases hneg : (n : ℚ) < 0
  · rw [if_pos hneg]
    have hn2 : n < 0 := by exact_mod_cast hneg
    have : (n.natAbs : ℚ) = -(n : ℚ) := by
      rw [← habs]
      exact abs_of_neg hneg
    rw [Int.cast_natCast, Nat.cast_mul, this]
    field_simp
  · rw [if_neg hneg]
    have hn2 : 0 ≤ (n : ℚ) := not_lt.mp hneg
    have : (n.natAbs : ℚ) = (n : ℚ) := by
      rw [← habs]
      exact abs_of_nonneg hn2
    rw [Int.cast_natCast, Nat.cast_mul, this]
    field_simp

/-- Whole numbers of magnitude below `2 ^ 24` are `float` values. -/
theorem toFloat_int (n : Int) (hn : n.natAbs < 2 ^ 24) :
    FloatArith.ieee.toFloat (n : ℚ) = (n : ℚ) :=
  roundNearestEven_int 24 (-126) n (by norm_num) hn

/-- Whole numbers of magnitude below `2 ^ 53` are `double` values. -/
theorem toDouble_int (n : Int) (hn : n.natAbs < 2 ^ 53) :
    FloatArith.ieee.toDouble (n : ℚ) = (n : ℚ) :=
  roundNearestEven_int 53 (-1022) n (by norm_num) hn

/-! ## `flipImageVertically` reverses the rows -/

/-- A small image, three rows of two bytes, flipped by evaluation. -/
theorem flipImageVertically_example :
    flipImageVertically [1, 2, 3, 4, 5, 6] 1 3 2 = [5, 6, 3, 4, 1, 2] := by
  decide

/-- C1: for a buffer of `width * height * channels` bytes, the call keeps the
length, and the byte at row `j`, offset `i` of the result is the byte at row
`height - 1 - j`, offset `i` of the original, for every row and offset. -/
theorem flipImageVertically_reverses_rows (image : List Nat) (width height channels : Nat)
    (hlen : image.length = width * height * channels) :
    (flipImageVertically image width height channels).length = image.length ∧
    ∀ j i, j < height → i < width * channels →
      j * width * channels + i < image.length ∧
      (flipImageVertically image width height channels)[j * width * channels + i]? =
        image[(height - 1 - j) * width * channels + i]? := by
  have hlen2 : image.length = width * channels * height := by
    rw [hlen, Nat.mul_assoc, Nat.mul_comm height channels, Nat.mul_assoc]
  refine ⟨flipRows_length _ _ _ _ _ _, ?_⟩
  intro j i hj hi
  constructor
  · have h1 := row_block_le j height (width * channels) hj
    rw [hlen2, Nat.mul_assoc, Nat.mul_comm (width * channels) height]
    omega
  · have e : flippedRowIndex height 0 (height / 2) j = height - 1 - j := by
      unfold flippedRowIndex
      split_ifs <;> omega
    have h := flipRows_rows width height channels (height / 2) 0 image (by omega) hlen2 j i hj hi
    rw [e] at h
    simp only [Nat.mul_assoc]
    exact h

/-- Witness for C1: the three-row image satisfies the length hypothesis. -/
theorem flipImageVertically_reverses_rows_witness :
    ([1, 2, 3, 4, 5, 6] : List Nat).length = 1 * 3 * 2 ∧
    ((flipImageVertically [1, 2, 3, 4, 5, 6] 1 3 2).length = [1, 2, 3, 4, 5, 6].length ∧
    ∀ j i, j < 3 → i < 1 * 2 →
      j * 1 * 2 + i < [1, 2, 3, 4, 5, 6].length ∧
      (flipImageVertically [1, 2, 3, 4, 5, 6] 1 3 2)[j * 1 * 2 + i]? =
        [1, 2, 3, 4, 5, 6][(3 - 1 - j) * 1 * 2 + i]?) :=
  ⟨by decide, flipImageVertically_reverses_rows [1, 2, 3, 4, 5, 6] 1 3 2 (by decide)⟩

/-! ## The draw calls of one frame -/

/-- The nine draw calls of a frame, written out. -/
theorem URender_summaries {C M : Type} (glm : GLM M) (cam : CameraView C M)
    (st : AppState C) (g : GLState M) :
    (drawCalls g (URender glm cam st)).map DrawCall.summary =
      [ ⟨false, DrawMode.TRIANGLES, 0, st.gMesh.nVertices.getD 0 0, st.gProgramId,
          st.gMesh.vao.getD 0 0⟩,
        ⟨false, DrawMode.TRIANGLES, 0, st.gMesh.nVertices.getD 1 0, st.gProgramId,
          st.gMesh.vao.getD 1 0⟩,
        ⟨false, DrawMode.TRIANGLES, 0, st.gMesh.nVertices.getD 2 0, st.gProgramId,
          st.gMesh.vao.getD 2 0⟩,
        ⟨false, DrawMode.TRIANGLES, 0, st.gMesh.nVertices.getD 3 0, st.gProgramId,
          st.gMesh.vao.getD 3 0⟩,
        ⟨false, DrawMode.TRIANGLES, 0, st.gMesh.nVertices.getD 4 0, st.gProgramId,
          st.gMesh.vao.getD 4 0⟩,
        ⟨false, DrawMode.TRIANGLES, 0, st.gMesh.nVertices.getD 5 0, st.gProgramId,
          st.gMesh.vao.getD 5 0⟩,
        ⟨false, DrawMode.TRIANGLES, 0, st.gMesh.nVertices.getD 6 0, st.gProgramId,
          st.gMesh.vao.getD 6 0⟩,
        ⟨false, DrawMode.TRIANGLES, 0, st.gMesh.nVertices.getD 7 0, st.gProgramId,
          st.gMesh.vao.getD 7 0⟩,
        ⟨false, DrawMode.TRIANGLES, 0, st.gMesh.nVertices.getD 8 0, st.gLampProgramId,
          st.gMesh.vao.getD 8 0⟩ ] := by
  rfl

/-- C2: one `URender` issues nine draw calls, all `glDrawArrays` with mode
`GL_TRIANGLES` and first vertex 0; the k-th binds mesh slot k and passes that
slot's vertex count, slots 0 to 7 under `gProgramId` and slot 8 under
`gLampProgramId`, from every application state and every prior context. -/
theorem URender_draw_sequence {C M : Type} (glm : GLM M) (cam : CameraView C M)
    (st : AppState C) (g : GLState M) :
    (drawCalls g (URender glm cam st)).map DrawCall.summary =
      (List.range 9).map fun k =>
        { indexed := false, mode := DrawMode.TRIANGLES, first := 0,
          count := st.gMesh.nVertices.getD k 0,
          program := if k < 8 then st.gProgramId else st.gLampProgramId,
          vao := st.gMesh.vao.getD k 0 } := by
  rw [URender_summaries]
  rfl

/-! ## Vertex counts -/

set_option maxRecDepth 100000 in
theorem filingCabinetVerts_length : filingCabinetVerts.length = 336 := by rfl

set_option maxRecDepth 100000 in
theorem desktopVerts_length : desktopVerts.length = 288 := by rfl

set_option maxRecDepth 100000 in
theorem pcVerts_length : pcVerts.length = 288 := by rfl

set_option maxRecDepth 100000 in
theorem keyboardVerts_length : keyboardVerts.length = 288 := by rfl

set_option maxRecDepth 100000 in
theorem monitorVerts_length : monitorVerts.length = 288 := by rfl

set_option maxRecDepth 100000 in
theorem speakerVerts_length : speakerVerts.length = 288 := by rfl

set_option maxRecDepth 100000 in
theorem desklegVerts_length : desklegVerts.length = 287 := by rfl

set_option maxRecDepth 100000 in
theorem monitorstandVerts_length : monitorstandVerts.length = 288 := by rfl

theorem vertexCount_eq (verts : List ℚ) (n : Nat) (h : verts.length = n) :
    vertexCount verts = n / 8 := by
  unfold vertexCount sizeofArray sizeofFloat floatsPerVertex floatsPerNormal floatsPerUV
  rw [h]
  omega

/-- C3: the counts `UCreateMesh` stores in slots 0 to 7 of the zero-initialised
`gMesh`: 42 for the filing cabinet (336 floats), 35 for the desk leg (287
floats, the last seven dropped by the division), 36 for the other six. -/
theorem UCreateMesh_vertex_counts (genVertexArray genBuffer : Nat → GLuint) :
    (UCreateMesh GLMesh.zeroInit genVertexArray genBuffer).mesh.nVertices.take 8 =
      [42, 36, 36, 36, 36, 36, 35, 36] := by
  simp [UCreateMesh, meshRegion, GLMesh.zeroInit,
    vertexCount_eq _ _ filingCabinetVerts_length, vertexCount_eq _ _ desktopVerts_length,
    vertexCount_eq _ _ pcVerts_length, vertexCount_eq _ _ keyboardVerts_length,
    vertexCount_eq _ _ monitorVerts_length, vertexCount_eq _ _ speakerVerts_length,
    vertexCount_eq _ _ desklegVerts_length, vertexCount_eq _ _ monitorstandVerts_length,
    List.replicate]

/-- C4: `UCreateMesh` leaves slot 8 of the zero-initialised `gMesh` untouched
(vertex count 0, vertex array 0, eight uploads in all), so the ninth draw of
`URender` binds vertex array 0 and draws 0 vertices under the lamp program. -/
theorem URender_lamp_draw_is_empty {C M : Type} (glm : GLM M) (cam : CameraView C M)
    (st : AppState C) (g : GLState M) (genVertexArray genBuffer : Nat → GLuint) :
    (UCreateMesh GLMesh.zeroInit genVertexArray genBuffer).mesh.nVertices.getD 8 0 = 0 ∧
    (UCreateMesh GLMesh.zeroInit genVertexArray genBuffer).mesh.vao.getD 8 0 = 0 ∧
    (UCreateMesh GLMesh.zeroInit genVertexArray genBuffer).uploads.length = 8 ∧
    ((drawCalls g (URender glm cam
        { st with gMesh := (UCreateMesh GLMesh.zeroInit genVertexArray genBuffer).mesh })).map
        DrawCall.summary)[8]? =
      some { indexed := false, mode := DrawMode.TRIANGLES, first := 0, count := 0,
             program := st.gLampProgramId, vao := 0 } := by
  refine ⟨?_, ?_, ?_, ?_⟩
  · simp [UCreateMesh, meshRegion, GLMesh.zeroInit, List.replicate]
  · simp [UCreateMesh, meshRegion, GLMesh.zeroInit, List.replicate]
  · simp [UCreateMesh, meshRegion]
  · rw [URender_summaries]
    simp [UCreateMesh, meshRegion, GLMesh.zeroInit, List.replicate]

/-! ## Model and projection matrices -/

/-- The model matrix in force at each of the first eight draw calls. -/
theorem URender_models {C M : Type} (glm : GLM M) (cam : CameraView C M)
    (st : AppState C) (g : GLState M) :
    ((drawCalls g (URender glm cam st)).take 8).map (fun d => d.matrix "model") =
      [ some (glm.mul (glm.mul (glm.translate ⟨0.75, 0.0, -0.25⟩) (glm.rotate 45.0 ⟨0.0, 1.0, 0.0⟩))
          (glm.scale ⟨1.0, 1.0, 0.5⟩)),
        some (glm.mul (glm.mul (glm.translate ⟨0.0, 0.0, 0.0⟩) (glm.rotate 45.0 ⟨0.0, 1.0, 0.0⟩))
          (glm.scale ⟨1.0, 1.0, 1.0⟩)),
        some (glm.mul (glm.mul (glm.translate ⟨0.8, 0.0, 0.0⟩) (glm.rotate 45.0 ⟨0.0, 1.0, 0.0⟩))
          (glm.scale ⟨1.0, 1.0, 0.25⟩)),
        some (glm.mul (glm.mul (glm.translate ⟨0.0, 0.0, 0.0⟩) (glm.rotate 45.0 ⟨0.0, 1.0, 0.0⟩))
          (glm.scale ⟨1.25, 1.0, 1.0⟩)),
        some (glm.mul (glm.mul (glm.translate ⟨0.0, 0.0, 0.0⟩) (glm.rotate 45.0 ⟨0.0, 1.0, 0.0⟩))
          (glm.scale ⟨1.0, 1.0, 1.0⟩)),
        some (glm.mul (glm.mul (glm.translate ⟨-0.75, 0.0, 0.40⟩) (glm.rotate 45.0 ⟨0.0, 1.0, 0.0⟩))
          (glm.scale ⟨1.0, 1.0, 1.0⟩)),
        some (glm.mul (glm.mul (glm.translate ⟨0.0, 0.0, 0.0⟩) (glm.rotate 45.0 ⟨0.0, 1.0, 0.0⟩))
          (glm.scale ⟨1.0, 1.0, 1.0⟩)),
        some (glm.mul (glm.mul (glm.translate ⟨0.0, 0.0, 0.0⟩) (glm.rotate 45.0 ⟨0.0, 1.0, 0.0⟩))
          (glm.scale ⟨1.0, 1.0, 1.0⟩)) ] := by
  simp [URender, filingCabinetRegion, objectRegion, lightRegion, drawCalls, GLState.exec,
    DrawCall.matrix, glGetUniformLocation]

/-- The angle 45, taken in radians, is no rotation by 45 degrees: 45 is not
pi / 4 plus a whole number of full turns. -/
theorem radians_45_not_degrees (k : ℤ) : (45 : ℝ) ≠ Real.pi / 4 + k * (2 * Real.pi) := by
  intro h
  have h1 := Real.pi_gt_d2
  have h2 := Real.pi_lt_d2
  rcases le_or_lt k 7 with hk | hk
  · have hk2 : (k : ℝ) ≤ 7 := by exact_mod_cast hk
    nlinarith [Real.pi_pos]
  · have hk2 : (8 : ℝ) ≤ k := by exact_mod_cast hk
    nlinarith [Real.pi_pos]

/-- C5: at each of the first eight draw calls the uniform `model` of the lit
program holds translate(t) times rotate(45, Y axis) times scale(s), multiplied
in that order, for the eight (t, s) pairs of `objectTransforms`, the filing
cabinet's being translate(0.75, 0, -0.25) times rotate(45, Y) times
scale(1, 1, 0.5).  The number handed to `glm::rotate` is 45 itself, an angle of
45 radians, where a rotation by 45 degrees is `rotate(radians(45), Y)`: 45 is
not pi / 4 up to full turns, and on the GLM of call expressions each of the
eight matrices differs from the matrix of the specification. -/
theorem URender_model_matrices {C M : Type} (glm : GLM M) (cam : CameraView C M)
    (st : AppState C) (g : GLState M) :
    ((drawCalls g (URender glm cam st)).take 8).map (fun d => d.matrix "model") =
      objectTransforms.map (fun ts =>
        some (glm.mul (glm.mul (glm.translate ts.1) (glm.rotate 45 ⟨0, 1, 0⟩)) (glm.scale ts.2)))
    ∧ ((drawCalls g (URender glm cam st))[0]?).bind (fun d => d.matrix "model") =
      some (glm.mul (glm.mul (glm.translate ⟨0.75, 0, -0.25⟩) (glm.rotate 45 ⟨0, 1, 0⟩))
        (glm.scale ⟨1, 1, 0.5⟩))
    ∧ (∀ k : ℤ, (45 : ℝ) ≠ Real.pi / 4 + k * (2 * Real.pi))
    ∧ (∀ ts ∈ objectTransforms,
        symbolicGLM.mul (symbolicGLM.mul (symbolicGLM.translate ts.1)
          (symbolicGLM.rotate 45 ⟨0, 1, 0⟩)) (symbolicGLM.scale ts.2) ≠
        specModelMatrix symbolicGLM ts.1 ts.2) := by
  refine ⟨?_, ?_, radians_45_not_degrees, ?_⟩
  · rw [URender_models]
    norm_num [objectTransforms]
  · simp [URender, filingCabinetRegion, objectRegion, lightRegion, drawCalls, GLState.exec,
      DrawCall.matrix, glGetUniformLocation]
    norm_num
  · intro ts _ h
    simp only [specModelMatrix, symbolicGLM, MatExpr.mul.injEq, MatExpr.rotate.injEq] at h
    norm_num at h

/-- The filing cabinet's matrix on the GLM of call expressions, and the matrix
of the specification for it: the angles are 45 and 355 / 452 (pi / 4 with
355 / 113 for pi). -/
theorem URender_model_example :
    ((drawCalls emptyContext (URender symbolicGLM logCameraView
        (loadedState [] : AppState (List CameraCall))))[0]?).bind (fun d => d.matrix "model") =
      some (MatExpr.mul (MatExpr.mul (MatExpr.translate ⟨0.75, 0, -0.25⟩)
        (MatExpr.rotate 45 ⟨0, 1, 0⟩)) (MatExpr.scale ⟨1, 1, 0.5⟩)) ∧
    specModelMatrix symbolicGLM ⟨0.75, 0, -0.25⟩ ⟨1, 1, 0.5⟩ =
      MatExpr.mul (MatExpr.mul (MatExpr.translate ⟨0.75, 0, -0.25⟩)
        (MatExpr.rotate (355 / 452) ⟨0, 1, 0⟩)) (MatExpr.scale ⟨1, 1, 0.5⟩) := by
  constructor
  · simp [URender, filingCabinetRegion, objectRegion, lightRegion, drawCalls, GLState.exec,
      DrawCall.matrix, glGetUniformLocation, symbolicGLM, emptyContext]
    norm_num
  · simp only [specModelMatrix, symbolicGLM]
    norm_num

/-- The projection matrix in force at each of the first eight draw calls. -/
theorem URender_projections {C M : Type} (glm : GLM M) (cam : CameraView C M)
    (st : AppState C) (g : GLState M) :
    ((drawCalls g (URender glm cam st)).take 8).map (fun d => d.matrix "projection") =
      List.replicate 8 (some (projectionMatrix glm cam st)) := by
  simp [URender, filingCabinetRegion, objectRegion, lightRegion, drawCalls, GLState.exec,
    DrawCall.matrix, glGetUniformLocation, List.replicate]

theorem closeOnKey_viewProjection {C : Type} (pressed : Key → Bool) (k : Key)
    (st : AppState C) : (closeOnKey pressed k st).viewProjection = st.viewProjection := by
  unfold closeOnKey
  split_ifs <;> rfl

theorem moveOnKey_viewProjection {C : Type} (ProcessKeyboard : C → Camera_Movement → ℚ → C)
    (pressed : Key → Bool) (k : Key) (direction : Camera_Movement) (deltaTime : ℚ)
    (st : AppState C) :
    (moveOnKey ProcessKeyboard pressed k direction deltaTime st).viewProjection
      = st.viewProjection := by
  unfold moveOnKey
  split_ifs <;> rfl

theorem projectOnKey_viewProjection {C : Type} (pressed : Key → Bool) (k : Key) (value : Bool)
    (st : AppState C) :
    (projectOnKey pressed k value st).viewProjection
      = if pressed k then value else st.viewProjection := by
  unfold projectOnKey
  split_ifs <;> rfl

/-- Value of `viewProjection` after `UProcessInput`, by the keys P and O. -/
theorem UProcessInput_viewProjection {C : Type} (ProcessKeyboard : C → Camera_Movement → ℚ → C)
    (pressed : Key → Bool) (st : AppState C) :
    (UProcessInput ProcessKeyboard pressed st).viewProjection =
      if pressed Key.O then false else if pressed Key.P then true else st.viewProjection := by
  simp only [UProcessInput, projectOnKey_viewProjection, moveOnKey_viewProjection,
    closeOnKey_viewProjection]

/-- C6: after `UProcessInput` with P held and O not held, `viewProjection` is
true and the projection of the next `URender` is the perspective formula; with
O held and P not held it is false and the projection is the orthographic
formula; with neither held `viewProjection` is what it was before the call. -/
theorem UProcessInput_projection_mode {C M : Type} (glm : GLM M) (cam : CameraView C M)
    (ProcessKeyboard : C → Camera_Movement → ℚ → C) (pressed : Key → Bool) (st : AppState C) :
    (pressed Key.P = true → pressed Key.O = false →
      (UProcessInput ProcessKeyboard pressed st).viewProjection = true ∧
      projectionMatrix glm cam (UProcessInput ProcessKeyboard pressed st) =
        glm.perspective
          (glm.radians (cam.Zoom (UProcessInput ProcessKeyboard pressed st).gCamera))
          (800 / 600) 0.1 100) ∧
    (pressed Key.O = true → pressed Key.P = false →
      (UProcessInput ProcessKeyboard pressed st).viewProjection = false ∧
      projectionMatrix glm cam (UProcessInput ProcessKeyboard pressed st) =
        glm.ortho (800 / 120) (-(900 / 120)) (-(600 / 120)) (600 / 120) (-2.5) 6.5) ∧
    (pressed Key.P = false → pressed Key.O = false →
      (UProcessInput ProcessKeyboard pressed st).viewProjection = st.viewProjection) := by
  refine ⟨?_, ?_, ?_⟩
  · intro hP hO
    have h := UProcessInput_viewProjection ProcessKeyboard pressed st
    rw [hP, hO] at h
    simp only [Bool.false_eq_true, if_false, if_true] at h
    refine ⟨h, ?_⟩
    unfold projectionMatrix
    rw [h, if_pos rfl]
    norm_num [WINDOW_WIDTH, WINDOW_HEIGHT]
  · intro hO hP
    have h := UProcessInput_viewProjection ProcessKeyboard pressed st
    rw [hO] at h
    simp only [if_true] at h
    refine ⟨h, ?_⟩
    unfold projectionMatrix
    rw [h, if_neg (by decide)]
    norm_num
  · intro hP hO
    have h := UProcessInput_viewProjection ProcessKeyboard pressed st
    rw [hP, hO] at h
    simpa using h

/-- Witness for C6: P alone from orthographic mode, O alone from perspective
mode, and no key from orthographic mode, on the recording camera. -/
theorem UProcessInput_projection_mode_witness :
    ((UProcessInput logProcessKeyboard (pressedOnly Key.P)
        { AppState.startup [] with viewProjection := false }).viewProjection = true ∧
      projectionMatrix symbolicGLM logCameraView
        (UProcessInput logProcessKeyboard (pressedOnly Key.P)
          { AppState.startup [] with viewProjection := false }) =
        symbolicGLM.perspective (symbolicGLM.radians (logCameraView.Zoom
          (UProcessInput logProcessKeyboard (pressedOnly Key.P)
            { AppState.startup [] with viewProjection := false }).gCamera))
          (800 / 600) 0.1 100) ∧
    ((UProcessInput logProcessKeyboard (pressedOnly Key.O)
        (AppState.startup [])).viewProjection = false ∧
      projectionMatrix symbolicGLM logCameraView
        (UProcessInput logProcessKeyboard (pressedOnly Key.O) (AppState.startup [])) =
        symbolicGLM.ortho (800 / 120) (-(900 / 120)) (-(600 / 120)) (600 / 120) (-2.5) 6.5) ∧
    (UProcessInput logProcessKeyboard pressedNone
        { AppState.startup [] with viewProjection := false }).viewProjection = false :=
  ⟨(UProcessInput_projection_mode symbolicGLM logCameraView logProcessKeyboard
      (pressedOnly Key.P) { AppState.startup [] with viewProjection := false }).1 rfl rfl,
   (UProcessInput_projection_mode symbolicGLM logCameraView logProcessKeyboard
      (pressedOnly Key.O) (AppState.startup [])).2.1 rfl rfl,
   (UProcessInput_projection_mode symbolicGLM logCameraView logProcessKeyboard
      pressedNone { AppState.startup [] with viewProjection := false }).2.2 rfl rfl⟩

/-- C7: the projection `URender` uploads to the lit program, in force at each of
its eight draws, is perspective(radians(Zoom), 800/600, 0.1, 100) when
`viewProjection` is true and otherwise ortho(800/120, -(900/120), -(600/120),
600/120, -2.5, 6.5), six constants in which no state occurs. -/
theorem URender_projection_formula {C M : Type} (glm : GLM M) (cam : CameraView C M)
    (st : AppState C) (g : GLState M) :
    ((drawCalls g (URender glm cam st)).take 8).map (fun d => d.matrix "projection") =
      List.replicate 8 (some
        (if st.viewProjection = true then
          glm.perspective (glm.radians (cam.Zoom st.gCamera)) (800 / 600) 0.1 100
        else
          glm.ortho (800 / 120) (-(900 / 120)) (-(600 / 120)) (600 / 120) (-2.5) 6.5)) := by
  rw [URender_projections]
  unfold projectionMatrix
  norm_num [WINDOW_WIDTH, WINDOW_HEIGHT]

/-! ## Mouse movement -/

/-- The first event in every arithmetic: the stored position is the position
converted to `float`, and the offsets are the differences between the position
and the stored one. -/
theorem UMousePositionCallback_first {C : Type} (ar : FloatArith)
    (ProcessMouseMovement : C → ℚ → ℚ → C) (st : AppState C) (xpos ypos : ℚ)
    (hfirst : st.gFirstMouse = true) :
    (UMousePositionCallback ar ProcessMouseMovement st xpos ypos).gCamera =
      ProcessMouseMovement st.gCamera (ar.toFloat (ar.toDouble (xpos - ar.toFloat xpos)))
        (ar.toFloat (ar.toDouble (ar.toFloat ypos - ypos))) ∧
    (UMousePositionCallback ar ProcessMouseMovement st xpos ypos).gLastX = ar.toFloat xpos ∧
    (UMousePositionCallback ar ProcessMouseMovement st xpos ypos).gLastY = ar.toFloat ypos ∧
    (UMousePositionCallback ar ProcessMouseMovement st xpos ypos).gFirstMouse = false := by
  simp [UMousePositionCallback, hfirst]

/-- The last position and the flag after any event. -/
theorem UMousePositionCallback_last {C : Type} (ar : FloatArith)
    (ProcessMouseMovement : C → ℚ → ℚ → C) (st : AppState C) (xpos ypos : ℚ) :
    (UMousePositionCallback ar ProcessMouseMovement st xpos ypos).gLastX = ar.toFloat xpos ∧
    (UMousePositionCallback ar ProcessMouseMovement st xpos ypos).gLastY = ar.toFloat ypos ∧
    (UMousePositionCallback ar ProcessMouseMovement st xpos ypos).gFirstMouse = false := by
  unfold UMousePositionCallback
  by_cases h : st.gFirstMouse = true <;> simp [h]

/-- An event when `gFirstMouse` is clear, in every arithmetic. -/
theorem UMousePositionCallback_next {C : Type} (ar : FloatArith)
    (ProcessMouseMovement : C → ℚ → ℚ → C) (st : AppState C) (xpos ypos : ℚ)
    (hfirst : st.gFirstMouse = false) :
    (UMousePositionCallback ar ProcessMouseMovement st xpos ypos).gCamera =
      ProcessMouseMovement st.gCamera (ar.toFloat (ar.toDouble (xpos - st.gLastX)))
        (ar.toFloat (ar.toDouble (st.gLastY - ypos))) := by
  simp [UMousePositionCallback, hfirst]

/-- The `double` nearest 0.1 and the `double` nearest 0.2, both `double`
values, and their conversions to `float`. -/
theorem tenth_and_fifth :
    FloatArith.ieee.toDouble 0.1 = 3602879701896397 / 36028797018963968 ∧
    FloatArith.ieee.toDouble 0.2 = 3602879701896397 / 18014398509481984 ∧
    FloatArith.ieee.toDouble (3602879701896397 / 36028797018963968) =
      3602879701896397 / 36028797018963968 ∧
    FloatArith.ieee.toDouble (3602879701896397 / 18014398509481984) =
      3602879701896397 / 18014398509481984 ∧
    FloatArith.ieee.toFloat (3602879701896397 / 36028797018963968) = 13421773 / 134217728 ∧
    FloatArith.ieee.toFloat (3602879701896397 / 18014398509481984) = 13421773 / 67108864 := by
  decide!

/-- C8, counterexample: from the startup state, a first event at the `double`
positions nearest (0.1, 0.2) does not reach the camera as offsets (0, 0), and
the stored position is not the position of the event: `gLastX` and `gLastY` are
`float`, and neither coordinate is a `float` value. -/
theorem UMousePositionCallback_first_event_counterexample :
    ¬ ((UMousePositionCallback FloatArith.ieee logProcessMouseMovement (AppState.startup [])
          (3602879701896397 / 36028797018963968)
          (3602879701896397 / 18014398509481984)).gCamera = logProcessMouseMovement [] 0 0) ∧
    ¬ ((UMousePositionCallback FloatArith.ieee logProcessMouseMovement (AppState.startup [])
          (3602879701896397 / 36028797018963968)
          (3602879701896397 / 18014398509481984)).gLastX =
        3602879701896397 / 36028797018963968) ∧
    ¬ ((UMousePositionCallback FloatArith.ieee logProcessMouseMovement (AppState.startup [])
          (3602879701896397 / 36028797018963968)
          (3602879701896397 / 18014398509481984)).gLastY =
        3602879701896397 / 18014398509481984) := by
  decide!

/-- The first event at the `double` positions nearest (0.1, 0.2), evaluated:
the camera receives the offsets -13421773 / 2 ^ 53 and 13421773 / 2 ^ 52, about
-1.49e-9 and 2.98e-9, and the stored position is that of the `float` values
nearest 0.1 and 0.2. -/
theorem UMousePositionCallback_first_example :
    (UMousePositionCallback FloatArith.ieee logProcessMouseMovement (AppState.startup [])
        (3602879701896397 / 36028797018963968) (3602879701896397 / 18014398509481984)).gCamera =
      [CameraCall.ProcessMouseMovement (-13421773 / 9007199254740992)
        (13421773 / 4503599627370496)] ∧
    (UMousePositionCallback FloatArith.ieee logProcessMouseMovement (AppState.startup [])
        (3602879701896397 / 36028797018963968) (3602879701896397 / 18014398509481984)).gLastX =
      13421773 / 134217728 ∧
    (UMousePositionCallback FloatArith.ieee logProcessMouseMovement (AppState.startup [])
        (3602879701896397 / 36028797018963968) (3602879701896397 / 18014398509481984)).gLastY =
      13421773 / 67108864 := by
  decide!

/-- C8, amended: when `gFirstMouse` is set, as it is at startup, the callback
stores the position converted to `float`, clears `gFirstMouse` and hands the
camera the offsets `xpos - (float)xpos` and `(float)ypos - ypos`, each a
`double` difference converted to `float`, in every arithmetic; in the
arithmetic of the program the offsets are (0, 0) and the stored position is
(xpos, ypos) whenever both coordinates are `float` values, which all whole
numbers of magnitude below 2 ^ 24 are. -/
theorem UMousePositionCallback_first_event {C : Type} (ar : FloatArith)
    (ProcessMouseMovement : C → ℚ → ℚ → C) (st : AppState C) (xpos ypos : ℚ)
    (hfirst : st.gFirstMouse = true) :
    ((UMousePositionCallback ar ProcessMouseMovement st xpos ypos).gCamera =
        ProcessMouseMovement st.gCamera (ar.toFloat (ar.toDouble (xpos - ar.toFloat xpos)))
          (ar.toFloat (ar.toDouble (ar.toFloat ypos - ypos))) ∧
      (UMousePositionCallback ar ProcessMouseMovement st xpos ypos).gLastX = ar.toFloat xpos ∧
      (UMousePositionCallback ar ProcessMouseMovement st xpos ypos).gLastY = ar.toFloat ypos ∧
      (UMousePositionCallback ar ProcessMouseMovement st xpos ypos).gFirstMouse = false) ∧
    (FloatArith.ieee.toFloat xpos = xpos → FloatArith.ieee.toFloat ypos = ypos →
      (UMousePositionCallback FloatArith.ieee ProcessMouseMovement st xpos ypos).gCamera =
        ProcessMouseMovement st.gCamera 0 0 ∧
      (UMousePositionCallback FloatArith.ieee ProcessMouseMovement st xpos ypos).gLastX = xpos ∧
      (UMousePositionCallback FloatArith.ieee ProcessMouseMovement st xpos ypos).gLastY = ypos) ∧
    (∀ a b : Int, a.natAbs < 2 ^ 24 → b.natAbs < 2 ^ 24 →
      (UMousePositionCallback FloatArith.ieee ProcessMouseMovement st a b).gCamera =
        ProcessMouseMovement st.gCamera 0 0 ∧
      (UMousePositionCallback FloatArith.ieee ProcessMouseMovement st a b).gLastX = (a : ℚ) ∧
      (UMousePositionCallback FloatArith.ieee ProcessMouseMovement st a b).gLastY = (b : ℚ)) := by
  have hrep : ∀ x y : ℚ, FloatArith.ieee.toFloat x = x → FloatArith.ieee.toFloat y = y →
      (UMousePositionCallback FloatArith.ieee ProcessMouseMovement st x y).gCamera =
        ProcessMouseMovement st.gCamera 0 0 ∧
      (UMousePositionCallback FloatArith.ieee ProcessMouseMovement st x y).gLastX = x ∧
      (UMousePositionCallback FloatArith.ieee ProcessMouseMovement st x y).gLastY = y := by
    intro x y hx hy
    obtain ⟨hc, hlx, hly, _⟩ :=
      UMousePositionCallback_first FloatArith.ieee ProcessMouseMovement st x y hfirst
    rw [hc, hlx, hly, hx, hy, sub_self, sub_self]
    have hz : FloatArith.ieee.toFloat (FloatArith.ieee.toDouble 0) = 0 := by
      simp [FloatArith.ieee, roundNearestEven_zero]
    rw [hz]
    exact ⟨rfl, rfl, rfl⟩
  exact ⟨UMousePositionCallback_first ar ProcessMouseMovement st xpos ypos hfirst,
    hrep xpos ypos, fun a b ha hb => hrep a b (toFloat_int a ha) (toFloat_int b hb)⟩

/-- Witness for C8: the startup state has `gFirstMouse` set; a first event at
(123, 456), both `float` values, reaches the camera as offsets (0, 0). -/
theorem UMousePositionCallback_first_event_witness :
    (AppState.startup sampleCamera).gFirstMouse = true ∧
    FloatArith.ieee.toFloat 123 = 123 ∧ FloatArith.ieee.toFloat 456 = 456 ∧
    ((UMousePositionCallback FloatArith.ieee Camera.ProcessMouseMovement
        (AppState.startup sampleCamera) 123 456).gCamera =
      Camera.ProcessMouseMovement (AppState.startup sampleCamera).gCamera 0 0 ∧
    (UMousePositionCallback FloatArith.ieee Camera.ProcessMouseMovement
        (AppState.startup sampleCamera) 123 456).gLastX = 123 ∧
    (UMousePositionCallback FloatArith.ieee Camera.ProcessMouseMovement
        (AppState.startup sampleCamera) 123 456).gLastY = 456) :=
  ⟨rfl, by decide!, by decide!,
    (UMousePositionCallback_first_event FloatArith.ieee Camera.ProcessMouseMovement
      (AppState.startup sampleCamera) 123 456 rfl).2.1 (by decide!) (by decide!)⟩

/-- C9, counterexample: an event at the `double` positions nearest
(200.3, 100.1) after one at the positions nearest (100.1, 200.2) hands the
camera 13133415 / 131072 (about 100.2000046) as x offset and 13120307 / 131072
(about 100.0999985) as y offset, neither of which is the difference of the two
positions, and the stored x position is not the x position of the event (it
is 13126861 / 65536, about 200.3000031). -/
theorem UMousePositionCallback_later_event_counterexample :
    (UMousePositionCallback FloatArith.ieee logProcessMouseMovement
        (UMousePositionCallback FloatArith.ieee logProcessMouseMovement (AppState.startup [])
          (3521955646092083 / 35184372088832) (3521955646092083 / 17592186044416))
        (3523714864696525 / 17592186044416) (3521955646092083 / 35184372088832)).gCamera =
      [ CameraCall.ProcessMouseMovement (13421773 / 8796093022208) (-13421773 / 4398046511104),
        CameraCall.ProcessMouseMovement (13133415 / 131072) (13120307 / 131072) ] ∧
    ¬ ((13133415 / 131072 : ℚ) =
        3523714864696525 / 17592186044416 - 3521955646092083 / 35184372088832) ∧
    ¬ ((13120307 / 131072 : ℚ) =
        3521955646092083 / 17592186044416 - 3521955646092083 / 35184372088832) ∧
    ¬ ((UMousePositionCallback FloatArith.ieee logProcessMouseMovement
        (UMousePositionCallback FloatArith.ieee logProcessMouseMovement (AppState.startup [])
          (3521955646092083 / 35184372088832) (3521955646092083 / 17592186044416))
        (3523714864696525 / 17592186044416) (3521955646092083 / 35184372088832)).gLastX =
      3523714864696525 / 17592186044416) := by
  decide!

/-- The `double` positions of the example of two events: those nearest 100.1,
200.2 and 200.3, each a `double` value. -/
theorem later_event_positions :
    FloatArith.ieee.toDouble 100.1 = 3521955646092083 / 35184372088832 ∧
    FloatArith.ieee.toDouble 200.2 = 3521955646092083 / 17592186044416 ∧
    FloatArith.ieee.toDouble 200.3 = 3523714864696525 / 17592186044416 ∧
    FloatArith.ieee.toDouble (3521955646092083 / 35184372088832) =
      3521955646092083 / 35184372088832 ∧
    FloatArith.ieee.toDouble (3521955646092083 / 17592186044416) =
      3521955646092083 / 17592186044416 ∧
    FloatArith.ieee.toDouble (3523714864696525 / 17592186044416) =
      3523714864696525 / 17592186044416 := by
  decide!

/-- C9, amended: an event at (xpos, ypos) that follows an event at
(xprev, yprev) hands the camera the offsets `xpos - (float)xprev` and
`(float)yprev - ypos`, each a `double` difference converted to `float`, and
leaves (xpos, ypos) converted to `float` as the stored last position, in every
arithmetic and from every state the earlier event was handled in; in the
arithmetic of the program, for whole-number positions of magnitude below
2 ^ 23, the offsets are exactly (xpos - xprev, yprev - ypos) and the stored
position is exactly (xpos, ypos). -/
theorem UMousePositionCallback_later_event {C : Type} (ar : FloatArith)
    (ProcessMouseMovement : C → ℚ → ℚ → C) (st : AppState C) (xprev yprev xpos ypos : ℚ) :
    ((UMousePositionCallback ar ProcessMouseMovement
          (UMousePositionCallback ar ProcessMouseMovement st xprev yprev) xpos ypos).gCamera =
        ProcessMouseMovement
          (UMousePositionCallback ar ProcessMouseMovement st xprev yprev).gCamera
          (ar.toFloat (ar.toDouble (xpos - ar.toFloat xprev)))
          (ar.toFloat (ar.toDouble (ar.toFloat yprev - ypos))) ∧
      (UMousePositionCallback ar ProcessMouseMovement
          (UMousePositionCallback ar ProcessMouseMovement st xprev yprev) xpos ypos).gLastX =
        ar.toFloat xpos ∧
      (UMousePositionCallback ar ProcessMouseMovement
          (UMousePositionCallback ar ProcessMouseMovement st xprev yprev) xpos ypos).gLastY =
        ar.toFloat ypos) ∧
    (∀ a b c d : Int, a.natAbs < 2 ^ 23 → b.natAbs < 2 ^ 23 → c.natAbs < 2 ^ 23 →
      d.natAbs < 2 ^ 23 →
      (UMousePositionCallback FloatArith.ieee ProcessMouseMovement
          (UMousePositionCallback FloatArith.ieee ProcessMouseMovement st a b) c d).gCamera =
        ProcessMouseMovement
          (UMousePositionCallback FloatArith.ieee ProcessMouseMovement st a b).gCamera
          ((c : ℚ) - (a : ℚ)) ((b : ℚ) - (d : ℚ)) ∧
      (UMousePositionCallback FloatArith.ieee ProcessMouseMovement
          (UMousePositionCallback FloatArith.ieee ProcessMouseMovement st a b) c d).gLastX =
        (c : ℚ) ∧
      (UMousePositionCallback FloatArith.ieee ProcessMouseMovement
          (UMousePositionCallback FloatArith.ieee ProcessMouseMovement st a b) c d).gLastY =
        (d : ℚ)) := by
  have hgen : ∀ (ar : FloatArith) (xprev yprev xpos ypos : ℚ),
      (UMousePositionCallback ar ProcessMouseMovement
          (UMousePositionCallback ar ProcessMouseMovement st xprev yprev) xpos ypos).gCamera =
        ProcessMouseMovement
          (UMousePositionCallback ar ProcessMouseMovement st xprev yprev).gCamera
          (ar.toFloat (ar.toDouble (xpos - ar.toFloat xprev)))
          (ar.toFloat (ar.toDouble (ar.toFloat yprev - ypos))) := by
    intro ar xprev yprev xpos ypos
    obtain ⟨hx, hy, hf⟩ := UMousePositionCallback_last ar ProcessMouseMovement st xprev yprev
    rw [UMousePositionCallback_next ar ProcessMouseMovement _ xpos ypos hf, hx, hy]
  refine ⟨⟨hgen ar xprev yprev xpos ypos, (UMousePositionCallback_last _ _ _ _ _).1,
    (UMousePositionCallback_last _ _ _ _ _).2.1⟩, ?_⟩
  intro a b c d ha hb hc hd
  have h23 : (2 : Nat) ^ 24 = 2 ^ 23 + 2 ^ 23 := by norm_num
  have h53 : (2 : Nat) ^ 24 < 2 ^ 53 := by norm_num
  have hca : (c - a).natAbs < 2 ^ 24 := by omega
  have hbd : (b - d).natAbs < 2 ^ 24 := by omega
  have e1 : ((c : ℚ) - (a : ℚ)) = ((c - a : Int) : ℚ) := by push_cast; ring
  have e2 : ((b : ℚ) - (d : ℚ)) = ((b - d : Int) : ℚ) := by push_cast; ring
  refine ⟨?_, ?_, ?_⟩
  · rw [hgen, toFloat_int a (by omega), toFloat_int b (by omega), e1, e2,
      toDouble_int _ (by omega), toDouble_int _ (by omega), toFloat_int _ hca,
      toFloat_int _ hbd]
  · rw [(UMousePositionCallback_last _ _ _ _ _).1, toFloat_int c (by omega)]
  · rw [(UMousePositionCallback_last _ _ _ _ _).2.1, toFloat_int d (by omega)]

/-- Witness for C9: the whole-number positions (100, 200) and then (130, 180)
from the startup state on the recording camera; the second event is recorded
with the offsets (30, 20) and leaves (130, 180) stored. -/
theorem UMousePositionCallback_later_event_witness :
    (100 : Int).natAbs < 2 ^ 23 ∧ (200 : Int).natAbs < 2 ^ 23 ∧ (130 : Int).natAbs < 2 ^ 23 ∧
    (180 : Int).natAbs < 2 ^ 23 ∧
    ((UMousePositionCallback FloatArith.ieee logProcessMouseMovement
        (UMousePositionCallback FloatArith.ieee logProcessMouseMovement (AppState.startup [])
          ((100 : Int) : ℚ) ((200 : Int) : ℚ)) ((130 : Int) : ℚ) ((180 : Int) : ℚ)).gCamera =
      logProcessMouseMovement
        (UMousePositionCallback FloatArith.ieee logProcessMouseMovement (AppState.startup [])
          ((100 : Int) : ℚ) ((200 : Int) : ℚ)).gCamera
        (((130 : Int) : ℚ) - ((100 : Int) : ℚ)) (((200 : Int) : ℚ) - ((180 : Int) : ℚ)) ∧
    (UMousePositionCallback FloatArith.ieee logProcessMouseMovement
        (UMousePositionCallback FloatArith.ieee logProcessMouseMovement (AppState.startup [])
          ((100 : Int) : ℚ) ((200 : Int) : ℚ)) ((130 : Int) : ℚ) ((180 : Int) : ℚ)).gLastX =
      ((130 : Int) : ℚ) ∧
    (UMousePositionCallback FloatArith.ieee logProcessMouseMovement
        (UMousePositionCallback FloatArith.ieee logProcessMouseMovement (AppState.startup [])
          ((100 : Int) : ℚ) ((200 : Int) : ℚ)) ((130 : Int) : ℚ) ((180 : Int) : ℚ)).gLastY =
      ((180 : Int) : ℚ)) :=
  ⟨by decide, by decide, by decide, by decide,
    (UMousePositionCallback_later_event FloatArith.ieee logProcessMouseMovement
      (AppState.startup []) 0 0 0 0).2 100 200 130 180 (by decide) (by decide) (by decide)
      (by decide)⟩

/-- Two whole-pixel events evaluated: (100, 200) then (130, 180) reach the
recording camera as offsets (0, 0) and (30, 20). -/
theorem UMousePositionCallback_later_example :
    (UMousePositionCallback FloatArith.ieee logProcessMouseMovement
        (UMousePositionCallback FloatArith.ieee logProcessMouseMovement (AppState.startup [])
          100 200) 130 180).gCamera =
      [CameraCall.ProcessMouseMovement 0 0, CameraCall.ProcessMouseMovement 30 20] := by
  decide!

/-! ## Pitch bound -/

theorem Camera.ProcessMouseMovement_pitch (c : Camera) (xoffset yoffset : ℚ) :
    -89 ≤ (c.ProcessMouseMovement xoffset yoffset).Pitch ∧
    (c.ProcessMouseMovement xoffset yoffset).Pitch ≤ 89 := by
  unfold Camera.ProcessMouseMovement
  simp only []
  split_ifs <;> constructor <;> linarith

theorem mouseEvents_append {C : Type} (ar : FloatArith) (ProcessMouseMovement : C → ℚ → ℚ → C)
    (st : AppState C) (events : List (ℚ × ℚ)) (xpos ypos : ℚ) :
    mouseEvents ar ProcessMouseMovement st (events ++ [(xpos, ypos)]) =
      UMousePositionCallback ar ProcessMouseMovement
        (mouseEvents ar ProcessMouseMovement st events) xpos ypos := by
  induction events generalizing st with
  | nil => rfl
  | cons e rest ih =>
    obtain ⟨x, y⟩ := e
    simp only [List.cons_append, mouseEvents]
    exact ih _

/-- C10: with the camera of the specification, after the last event of every
non-empty sequence of cursor events, from every state, whatever the positions
and in every arithmetic of the callback, the pitch lies between -89 and 89. -/
theorem mouseEvents_pitch_bounded (ar : FloatArith) (st : AppState Camera)
    (events : List (ℚ × ℚ)) (xpos ypos : ℚ) :
    -89 ≤ (mouseEvents ar Camera.ProcessMouseMovement st
      (events ++ [(xpos, ypos)])).gCamera.Pitch ∧
    (mouseEvents ar Camera.ProcessMouseMovement st
      (events ++ [(xpos, ypos)])).gCamera.Pitch ≤ 89 := by
  rw [mouseEvents_append]
  unfold UMousePositionCallback
  exact Camera.ProcessMouseMovement_pitch _ _ _

/-- A sweep far beyond the clamp evaluated: the pitch stops at 89. -/
theorem mouseEvents_pitch_example :
    (mouseEvents FloatArith.exact Camera.ProcessMouseMovement (AppState.startup sampleCamera)
      [(0, 0), (0, -100000)]).gCamera.Pitch = 89 := by
  norm_num [mouseEvents, UMousePositionCallback, Camera.ProcessMouseMovement, AppState.startup,
    sampleCamera, FloatArith.exact]

/-- With the camera of the specification, offsets (0, 0) leave yaw and pitch as
they are whenever the pitch is inside the clamp range. -/
theorem Camera.ProcessMouseMovement_zero (c : Camera) (hlo : -89 ≤ c.Pitch) (hhi : c.Pitch ≤ 89) :
    c.ProcessMouseMovement 0 0 = c := by
  unfold Camera.ProcessMouseMovement
  have h1 : ¬ c.Pitch > 89 := by linarith
  have h2 : ¬ c.Pitch < -89 := by linarith
  simp only [zero_mul, add_zero]
  rw [if_neg h1, if_neg h2]

/-! ## Scroll wheel -/

/-- The speed after one scroll event, in every arithmetic. -/
theorem UMouseScrollCallback_cameraSpeed {C : Type} (ar : FloatArith) (st : AppState C)
    (xoffset yoffset : ℚ) :
    (UMouseScrollCallback ar st xoffset yoffset).cameraSpeed =
      if yoffset > 0 ∧ st.cameraSpeed < ar.toFloat 0.1 then
        ar.toFloat (st.cameraSpeed + ar.toFloat 0.01)
      else if yoffset < 0 ∧ st.cameraSpeed > ar.toFloat 0.01 then
        ar.toFloat (st.cameraSpeed - ar.toFloat 0.01)
      else st.cameraSpeed := by
  unfold UMouseScrollCallback
  by_cases h1 : yoffset > 0 ∧ st.cameraSpeed < ar.toFloat 0.1
  · have h2 : ¬ yoffset < 0 := by linarith [h1.1]
    simp [h1, h2]
  · by_cases h2 : yoffset < 0 ∧ st.cameraSpeed > ar.toFloat 0.01
    · simp [h1, h2]
    · simp [h1, h2]

/-- The speed after one scroll event in exact arithmetic. -/
theorem UMouseScrollCallback_cameraSpeed_exact {C : Type} (st : AppState C)
    (xoffset yoffset : ℚ) :
    (UMouseScrollCallback FloatArith.exact st xoffset yoffset).cameraSpeed =
      if yoffset > 0 ∧ st.cameraSpeed < 0.1 then st.cameraSpeed + 0.01
      else if yoffset < 0 ∧ st.cameraSpeed > 0.01 then st.cameraSpeed - 0.01
      else st.cameraSpeed :=
  UMouseScrollCallback_cameraSpeed FloatArith.exact st xoffset yoffset

/-- Speeds on the grid of hundredths from 0.01 to 0.5 stay on it, in exact
arithmetic. -/
theorem UMouseScrollCallback_grid {C : Type} (st : AppState C) (xoffset yoffset : ℚ)
    (h : ∃ n : ℕ, 1 ≤ n ∧ n ≤ 50 ∧ st.cameraSpeed = (n : ℚ) / 100) :
    ∃ n : ℕ, 1 ≤ n ∧ n ≤ 50 ∧
      (UMouseScrollCallback FloatArith.exact st xoffset yoffset).cameraSpeed = (n : ℚ) / 100 := by
  obtain ⟨n, h1, h50, hs⟩ := h
  rw [UMouseScrollCallback_cameraSpeed_exact]
  by_cases hup : yoffset > 0 ∧ st.cameraSpeed < 0.1
  · rw [if_pos hup]
    have hlt : (n : ℚ) < 10 := by
      have := hup.2
      rw [hs] at this
      linarith
    have hn : n < 10 := by exact_mod_cast hlt
    refine ⟨n + 1, by omega, by omega, ?_⟩
    rw [hs]
    push_cast
    ring
  · rw [if_neg hup]
    by_cases hdown : yoffset < 0 ∧ st.cameraSpeed > 0.01
    · rw [if_pos hdown]
      have hgt : (1 : ℚ) < n := by
        have := hdown.2
        rw [hs] at this
        linarith
      have hn : 1 < n := by exact_mod_cast hgt
      refine ⟨n - 1, by omega, by omega, ?_⟩
      rw [hs]
      have hc : ((n - 1 : ℕ) : ℚ) = (n : ℚ) - 1 := by
        rw [Nat.cast_sub (by omega)]
        simp
      rw [hc]
      ring
    · rw [if_neg hdown]
      exact ⟨n, h1, h50, hs⟩

theorem scrollEvents_grid {C : Type} (st : AppState C) (events : List (ℚ × ℚ))
    (h : ∃ n : ℕ, 1 ≤ n ∧ n ≤ 50 ∧ st.cameraSpeed = (n : ℚ) / 100) :
    ∃ n : ℕ, 1 ≤ n ∧ n ≤ 50 ∧
      (scrollEvents FloatArith.exact st events).cameraSpeed = (n : ℚ) / 100 := by
  induction events generalizing st with
  | nil => exact h
  | cons e rest ih =>
    obtain ⟨x, y⟩ := e
    exact ih _ (UMouseScrollCallback_grid st x y h)

theorem startup_cameraSpeed {C : Type} (cam : C) :
    (AppState.startup cam).cameraSpeed = ((50 : ℕ) : ℚ) / 100 := by
  norm_num [AppState.startup]

/-- From the startup state the speed is between 0.01 and 0.5 after any events,
in exact arithmetic. -/
theorem scrollEvents_startup_range {C : Type} (cam : C) (events : List (ℚ × ℚ)) :
    0.01 ≤ (scrollEvents FloatArith.exact (AppState.startup cam) events).cameraSpeed ∧
    (scrollEvents FloatArith.exact (AppState.startup cam) events).cameraSpeed ≤ 0.5 := by
  obtain ⟨n, h1, h50, hs⟩ := scrollEvents_grid (AppState.startup cam) events
    ⟨50, by norm_num, le_refl _, startup_cameraSpeed cam⟩
  rw [hs]
  have a : (1 : ℚ) ≤ n := by exact_mod_cast h1
  have b : (n : ℚ) ≤ 50 := by exact_mod_cast h50
  constructor <;> norm_num <;> linarith

/-! ## The speeds of the compiled program -/

/-- The `float` literals of the handler: `0.1f` and `0.01f`. -/
theorem scroll_literals :
    FloatArith.ieee.toFloat 0.1 = 13421773 / 134217728 ∧
    FloatArith.ieee.toFloat 0.01 = 5368709 / 536870912 ∧
    FloatArith.ieee.toFloat 0.5 = 0.5 := by
  decide!

set_option maxRecDepth 100000 in
/-- The 51 speeds on the way down, checked one by one: an upward step and a
downward step from each lead to one of the 51 again, each lies between
`13 / 2 ^ 26` and 0.5, an upward step below `0.1f` raises the speed and a
downward step above `0.01f` lowers it. -/
theorem reachableSpeeds_closed :
    ∀ s ∈ reachableSpeeds,
      (if s < FloatArith.ieee.toFloat 0.1 then
          FloatArith.ieee.toFloat (s + FloatArith.ieee.toFloat 0.01) else s) ∈ reachableSpeeds ∧
      (if s > FloatArith.ieee.toFloat 0.01 then
          FloatArith.ieee.toFloat (s - FloatArith.ieee.toFloat 0.01) else s) ∈ reachableSpeeds ∧
      13 / 67108864 ≤ s ∧ s ≤ 1 / 2 ∧
      (s < FloatArith.ieee.toFloat 0.1 →
        s < FloatArith.ieee.toFloat (s + FloatArith.ieee.toFloat 0.01)) ∧
      (s > FloatArith.ieee.toFloat 0.01 →
        FloatArith.ieee.toFloat (s - FloatArith.ieee.toFloat 0.01) < s) := by
  decide!

set_option maxRecDepth 100000 in
theorem reachableSpeeds_length : reachableSpeeds.length = 51 := by
  decide!

theorem UMouseScrollCallback_mem_reachableSpeeds {C : Type} (st : AppState C)
    (xoffset yoffset : ℚ) (h : st.cameraSpeed ∈ reachableSpeeds) :
    (UMouseScrollCallback FloatArith.ieee st xoffset yoffset).cameraSpeed ∈ reachableSpeeds := by
  obtain ⟨hup, hdown, _⟩ := reachableSpeeds_closed st.cameraSpeed h
  rw [UMouseScrollCallback_cameraSpeed]
  by_cases h1 : yoffset > 0
  · have h2 : ¬ yoffset < 0 := by linarith
    simpa [h1, h2] using hup
  · by_cases h2 : yoffset < 0
    · simpa [h1, h2] using hdown
    · simpa [h1, h2] using h

theorem scrollEvents_mem_reachableSpeeds {C : Type} (st : AppState C) (events : List (ℚ × ℚ))
    (h : st.cameraSpeed ∈ reachableSpeeds) :
    (scrollEvents FloatArith.ieee st events).cameraSpeed ∈ reachableSpeeds := by
  induction events generalizing st with
  | nil => exact h
  | cons e rest ih =>
    obtain ⟨x, y⟩ := e
    exact ih _ (UMouseScrollCallback_mem_reachableSpeeds st x y h)

theorem startup_mem_reachableSpeeds {C : Type} (cam : C) :
    (AppState.startup cam).cameraSpeed ∈ reachableSpeeds := by
  have h : (AppState.startup cam).cameraSpeed = (AppState.startup ()).cameraSpeed := rfl
  rw [h]
  unfold reachableSpeeds speedsDown
  exact List.mem_cons_self _ _

set_option maxRecDepth 100000 in
/-- C11, counterexample: in the arithmetic of the program the speed at startup
is 0.5 and one upward scroll event leaves it at 0.5, outside the band from 0.01
to 0.1 both before the first event and after it; and 50 downward events leave
it at `13 / 2 ^ 26`, about 1.94e-7, below the band. -/
theorem scroll_band_counterexample :
    ¬ (((scrollEvents FloatArith.ieee (AppState.startup sampleCamera) []).cameraSpeed ≤ 0.1) ∨
       ((scrollEvents FloatArith.ieee (AppState.startup sampleCamera)
          [(0, 1)]).cameraSpeed ≤ 0.1)) ∧
    (scrollEvents FloatArith.ieee (AppState.startup sampleCamera)
        (List.replicate 50 ((0 : ℚ), (-1 : ℚ)))).cameraSpeed = 13 / 67108864 ∧
    ¬ (0.01 ≤ (scrollEvents FloatArith.ieee (AppState.startup sampleCamera)
        (List.replicate 50 ((0 : ℚ), (-1 : ℚ)))).cameraSpeed) := by
  decide!

set_option maxRecDepth 100000 in
/-- The 49th and the 50th downward event: after 49 the speed is
`5368813 / 2 ^ 29`, about 0.0100001935, still above `0.01f`, so the 50th
subtracts once more. -/
theorem scrollEvents_last_decrements :
    (scrollEvents FloatArith.ieee (AppState.startup sampleCamera)
        (List.replicate 49 ((0 : ℚ), (-1 : ℚ)))).cameraSpeed = 5368813 / 536870912 ∧
    FloatArith.ieee.toFloat 0.01 < 5368813 / 536870912 ∧
    (scrollEvents FloatArith.ieee (AppState.startup sampleCamera)
        (List.replicate 51 ((0 : ℚ), (-1 : ℚ)))).cameraSpeed = 13 / 67108864 := by
  decide!

/-- At 0.5 an upward event changes nothing, in the arithmetic of the program:
0.5 is not below `0.1f`. -/
theorem scrollEvents_upward_only {C : Type} (st : AppState C) (events : List (ℚ × ℚ))
    (hs : st.cameraSpeed = 0.5) (hup : ∀ e ∈ events, 0 < e.2) :
    (scrollEvents FloatArith.ieee st events).cameraSpeed = 0.5 := by
  induction events generalizing st with
  | nil => exact hs
  | cons e rest ih =>
    obtain ⟨x, y⟩ := e
    have hy : 0 < y := hup (x, y) (List.mem_cons_self _ _)
    apply ih
    · rw [UMouseScrollCallback_cameraSpeed, hs, scroll_literals.1]
      have h1 : ¬ (y > 0 ∧ (0.5 : ℚ) < 13421773 / 134217728) := by
        intro h
        norm_num at h
      have h2 : ¬ (y < 0 ∧ (0.5 : ℚ) > FloatArith.ieee.toFloat 0.01) := by
        intro h
        linarith [h.1]
      rw [if_neg h1, if_neg h2]
    · intro e he
      exact hup e (List.mem_cons_of_mem _ he)

/-- C11, amended: for every sequence of scroll events applied from the startup
state, of one direction sign or mixed, the speed is above 0 and at most 0.5 at
every step, the step before the first event included, in the arithmetic of the
program: it is one of the 51 values of `reachableSpeeds`, the least of which is
`13 / 2 ^ 26`, about 1.94e-7; and a sequence of upward events only leaves it
at 0.5.  In exact arithmetic it lies between 0.01 and 0.5. -/
theorem scrollEvents_range_at_every_step {C : Type} (cam : C) (events : List (ℚ × ℚ))
    (k : Nat) :
    (0 < (scrollEvents FloatArith.ieee (AppState.startup cam) (events.take k)).cameraSpeed ∧
      13 / 67108864 ≤
        (scrollEvents FloatArith.ieee (AppState.startup cam) (events.take k)).cameraSpeed ∧
      (scrollEvents FloatArith.ieee (AppState.startup cam) (events.take k)).cameraSpeed ≤ 0.5 ∧
      (scrollEvents FloatArith.ieee (AppState.startup cam) (events.take k)).cameraSpeed ∈
        reachableSpeeds) ∧
    ((∀ e ∈ events, 0 < e.2) →
      (scrollEvents FloatArith.ieee (AppState.startup cam) (events.take k)).cameraSpeed = 0.5) ∧
    (0.01 ≤ (scrollEvents FloatArith.exact (AppState.startup cam) (events.take k)).cameraSpeed ∧
      (scrollEvents FloatArith.exact (AppState.startup cam) (events.take k)).cameraSpeed ≤ 0.5)
    := by
  have hm := scrollEvents_mem_reachableSpeeds (AppState.startup cam) (events.take k)
    (startup_mem_reachableSpeeds cam)
  obtain ⟨_, _, hlo, hhi, _⟩ := reachableSpeeds_closed _ hm
  refine ⟨⟨lt_of_lt_of_le (by norm_num) hlo, hlo, ?_, hm⟩, ?_,
    scrollEvents_startup_range cam (events.take k)⟩
  · norm_num
    linarith
  · intro hup
    exact scrollEvents_upward_only (AppState.startup cam) (events.take k) rfl
      (fun e he => hup e (List.mem_of_mem_take he))

/-- Witness for C11: three upward events from the startup state leave the
speed at 0.5 after each of them. -/
theorem scrollEvents_range_at_every_step_witness :
    (∀ e ∈ [((0 : ℚ), (1 : ℚ)), (0, 2), (0, 1)], 0 < e.2) ∧
    (scrollEvents FloatArith.ieee (AppState.startup sampleCamera)
      ([((0 : ℚ), (1 : ℚ)), (0, 2), (0, 1)].take 2)).cameraSpeed = 0.5 :=
  ⟨by decide!,
    (scrollEvents_range_at_every_step sampleCamera [((0 : ℚ), (1 : ℚ)), (0, 2), (0, 1)] 2).2.1
      (by decide!)⟩

/-- Two downward events from startup evaluated in exact arithmetic: 0.5, then
0.49, then 0.48. -/
theorem scrollEvents_example :
    (scrollEvents FloatArith.exact (AppState.startup sampleCamera)
      [(0, -1), (0, -1)]).cameraSpeed = 0.48 := by
  norm_num [scrollEvents, UMouseScrollCallback, AppState.startup, FloatArith.exact]

/-- C12: a scroll event with `yoffset > 0` adds 0.01 to the speed exactly when
the speed is below 0.1, one with `yoffset < 0` subtracts 0.01 exactly when the
speed is above 0.01, every other event leaves the speed as it is; `xoffset`
does not enter the result.  The sums are exact; in every arithmetic the new
speed is the converted sum or difference of the speed and the converted 0.01
under the same two guards against the converted bounds, and in the arithmetic
of the program, from each of the speeds the program can reach, the speed
rises exactly under the first guard and falls exactly under the second. -/
theorem UMouseScrollCallback_step {C : Type} (st : AppState C) (xoffset yoffset : ℚ) :
    (UMouseScrollCallback FloatArith.exact st xoffset yoffset).cameraSpeed =
      (if yoffset > 0 ∧ st.cameraSpeed < 0.1 then st.cameraSpeed + 0.01
       else if yoffset < 0 ∧ st.cameraSpeed > 0.01 then st.cameraSpeed - 0.01
       else st.cameraSpeed) ∧
    (st.cameraSpeed < (UMouseScrollCallback FloatArith.exact st xoffset yoffset).cameraSpeed ↔
      (yoffset > 0 ∧ st.cameraSpeed < 0.1)) ∧
    ((UMouseScrollCallback FloatArith.exact st xoffset yoffset).cameraSpeed < st.cameraSpeed ↔
      (yoffset < 0 ∧ st.cameraSpeed > 0.01)) ∧
    (∀ (ar : FloatArith) (other : ℚ),
      UMouseScrollCallback ar st other yoffset = UMouseScrollCallback ar st xoffset yoffset) ∧
    (∀ ar : FloatArith, (UMouseScrollCallback ar st xoffset yoffset).cameraSpeed =
      if yoffset > 0 ∧ st.cameraSpeed < ar.toFloat 0.1 then
        ar.toFloat (st.cameraSpeed + ar.toFloat 0.01)
      else if yoffset < 0 ∧ st.cameraSpeed > ar.toFloat 0.01 then
        ar.toFloat (st.cameraSpeed - ar.toFloat 0.01)
      else st.cameraSpeed) ∧
    (st.cameraSpeed ∈ reachableSpeeds →
      (st.cameraSpeed < (UMouseScrollCallback FloatArith.ieee st xoffset yoffset).cameraSpeed ↔
        (yoffset > 0 ∧ st.cameraSpeed < FloatArith.ieee.toFloat 0.1)) ∧
      ((UMouseScrollCallback FloatArith.ieee st xoffset yoffset).cameraSpeed < st.cameraSpeed ↔
        (yoffset < 0 ∧ st.cameraSpeed > FloatArith.ieee.toFloat 0.01))) := by
  refine ⟨UMouseScrollCallback_cameraSpeed_exact st xoffset yoffset, ?_, ?_,
    fun _ _ => rfl, fun ar => UMouseScrollCallback_cameraSpeed ar st xoffset yoffset, ?_⟩
  · rw [UMouseScrollCallback_cameraSpeed_exact]
    by_cases h1 : yoffset > 0 ∧ st.cameraSpeed < 0.1
    · simp only [if_pos h1, h1, and_self, iff_true]
      norm_num
    · rw [if_neg h1]
      by_cases h2 : yoffset < 0 ∧ st.cameraSpeed > 0.01
      · simp only [if_pos h2, h1, iff_false, not_lt]
        norm_num
      · simp [if_neg h2, h1]
  · rw [UMouseScrollCallback_cameraSpeed_exact]
    by_cases h1 : yoffset > 0 ∧ st.cameraSpeed < 0.1
    · have h2 : ¬ (yoffset < 0 ∧ st.cameraSpeed > 0.01) := fun h => by linarith [h1.1, h.1]
      simp only [if_pos h1, h2, iff_false, not_lt]
      norm_num
    · rw [if_neg h1]
      by_cases h2 : yoffset < 0 ∧ st.cameraSpeed > 0.01
      · simp only [if_pos h2, h2, and_self, iff_true]
        norm_num
      · simp [if_neg h2, h2]
  · intro hmem
    obtain ⟨_, _, _, _, hup, hdown⟩ := reachableSpeeds_closed st.cameraSpeed hmem
    rw [UMouseScrollCallback_cameraSpeed]
    by_cases h1 : yoffset > 0 ∧ st.cameraSpeed < FloatArith.ieee.toFloat 0.1
    · have h2 : ¬ (yoffset < 0 ∧ st.cameraSpeed > FloatArith.ieee.toFloat 0.01) :=
        fun h => by linarith [h1.1, h.1]
      have h3 := hup h1.2
      rw [if_pos h1]
      exact ⟨⟨fun _ => h1, fun _ => h3⟩, ⟨fun h => absurd h (not_lt.mpr h3.le), fun h => absurd h h2⟩⟩
    · rw [if_neg h1]
      by_cases h2 : yoffset < 0 ∧ st.cameraSpeed > FloatArith.ieee.toFloat 0.01
      · have h3 := hdown h2.2
        rw [if_pos h2]
        exact ⟨⟨fun h => absurd h (not_lt.mpr h3.le), fun h => absurd h h1⟩,
          ⟨fun _ => h2, fun _ => h3⟩⟩
      · rw [if_neg h2]
        exact ⟨⟨fun h => absurd h (lt_irrefl _), fun h => absurd h h1⟩,
          ⟨fun h => absurd h (lt_irrefl _), fun h => absurd h h2⟩⟩

/-- Witness for C12: the startup speed 0.5 is one of the speeds the program can
reach, and a downward event lowers it. -/
theorem UMouseScrollCallback_step_witness :
    (AppState.startup sampleCamera).cameraSpeed ∈ reachableSpeeds ∧
    ((UMouseScrollCallback FloatArith.ieee (AppState.startup sampleCamera) 0 (-1)).cameraSpeed <
        (AppState.startup sampleCamera).cameraSpeed ↔
      ((-1 : ℚ) < 0 ∧
        (AppState.startup sampleCamera).cameraSpeed > FloatArith.ieee.toFloat 0.01)) :=
  ⟨startup_mem_reachableSpeeds sampleCamera,
    ((UMouseScrollCallback_step (AppState.startup sampleCamera) 0 (-1)).2.2.2.2.2
      (startup_mem_reachableSpeeds sampleCamera)).2⟩

set_option maxRecDepth 100000 in
/-- C13, counterexample: at speed 0.05 in exact arithmetic an upward event adds
exactly what a downward event subtracts, so the two amounts do not differ; and
in the arithmetic of the program, at the speed `52429 / 2 ^ 20` (about
0.0500002) that 45 downward events from startup leave, the speed rises by
`1342177 / 2 ^ 27` on an upward event and falls by the same on a downward
one. -/
theorem scroll_step_counterexample :
    ¬ ((UMouseScrollCallback FloatArith.exact
          { AppState.startup sampleCamera with cameraSpeed := 0.05 } 0 1).cameraSpeed - 0.05 ≠
       0.05 - (UMouseScrollCallback FloatArith.exact
          { AppState.startup sampleCamera with cameraSpeed := 0.05 } 0 (-1)).cameraSpeed) ∧
    (scrollEvents FloatArith.ieee (AppState.startup sampleCamera)
        (List.replicate 45 ((0 : ℚ), (-1 : ℚ)))).cameraSpeed = 52429 / 1048576 ∧
    ¬ ((UMouseScrollCallback FloatArith.ieee
          { AppState.startup sampleCamera with cameraSpeed := 52429 / 1048576 } 0 1).cameraSpeed
          - 52429 / 1048576 ≠
       52429 / 1048576 - (UMouseScrollCallback FloatArith.ieee
          { AppState.startup sampleCamera with cameraSpeed := 52429 / 1048576 } 0
          (-1)).cameraSpeed) := by
  decide!

/-- C13, amended: the step is the same 0.01 in both directions; the change of
the speed is +0.01 on an upward event below 0.1, -0.01 on a downward event above
0.01, and 0 otherwise.  The sums are exact; in every arithmetic the two
statements add and subtract the same converted literal. -/
theorem UMouseScrollCallback_symmetric_step {C : Type} (st : AppState C)
    (xoffset yoffset : ℚ) :
    (UMouseScrollCallback FloatArith.exact st xoffset yoffset).cameraSpeed - st.cameraSpeed =
      (if yoffset > 0 ∧ st.cameraSpeed < 0.1 then 0.01 else 0)
        - (if yoffset < 0 ∧ st.cameraSpeed > 0.01 then 0.01 else 0) ∧
    (∀ ar : FloatArith, (UMouseScrollCallback ar st xoffset yoffset).cameraSpeed =
      if yoffset > 0 ∧ st.cameraSpeed < ar.toFloat 0.1 then
        ar.toFloat (st.cameraSpeed + ar.toFloat 0.01)
      else if yoffset < 0 ∧ st.cameraSpeed > ar.toFloat 0.01 then
        ar.toFloat (st.cameraSpeed - ar.toFloat 0.01)
      else st.cameraSpeed) := by
  refine ⟨?_, fun ar => UMouseScrollCallback_cameraSpeed ar st xoffset yoffset⟩
  rw [UMouseScrollCallback_cameraSpeed_exact]
  by_cases h1 : yoffset > 0 ∧ st.cameraSpeed < 0.1
  · have h2 : ¬ (yoffset < 0 ∧ st.cameraSpeed > 0.01) := fun h => by linarith [h1.1, h.1]
    rw [if_pos h1, if_pos h1, if_neg h2]
    ring
  · rw [if_neg h1, if_neg h1]
    by_cases h2 : yoffset < 0 ∧ st.cameraSpeed > 0.01
    · rw [if_pos h2, if_pos h2]
      ring
    · rw [if_neg h2, if_neg h2]
      ring

/-! ## Keyboard movement -/

theorem closeOnKey_gCamera {C : Type} (pressed : Key → Bool) (k : Key) (st : AppState C) :
    (closeOnKey pressed k st).gCamera = st.gCamera := by
  unfold closeOnKey
  split_ifs <;> rfl

theorem closeOnKey_gDeltaTime {C : Type} (pressed : Key → Bool) (k : Key) (st : AppState C) :
    (closeOnKey pressed k st).gDeltaTime = st.gDeltaTime := by
  unfold closeOnKey
  split_ifs <;> rfl

theorem moveOnKey_gCamera {C : Type} (ProcessKeyboard : C → Camera_Movement → ℚ → C)
    (pressed : Key → Bool) (k : Key) (direction : Camera_Movement) (deltaTime : ℚ)
    (st : AppState C) :
    (moveOnKey ProcessKeyboard pressed k direction deltaTime st).gCamera =
      if pressed k then ProcessKeyboard st.gCamera direction deltaTime else st.gCamera := by
  unfold moveOnKey
  split_ifs <;> rfl

theorem moveOnKey_gDeltaTime {C : Type} (ProcessKeyboard : C → Camera_Movement → ℚ → C)
    (pressed : Key → Bool) (k : Key) (direction : Camera_Movement) (deltaTime : ℚ)
    (st : AppState C) :
    (moveOnKey ProcessKeyboard pressed k direction deltaTime st).gDeltaTime = st.gDeltaTime := by
  unfold moveOnKey
  split_ifs <;> rfl

theorem projectOnKey_gCamera {C : Type} (pressed : Key → Bool) (k : Key) (value : Bool)
    (st : AppState C) : (projectOnKey pressed k value st).gCamera = st.gCamera := by
  unfold projectOnKey
  split_ifs <;> rfl

/-- The camera after `UProcessInput`: the six conditional calls, nested in
program order. -/
theorem UProcessInput_gCamera {C : Type} (ProcessKeyboard : C → Camera_Movement → ℚ → C)
    (pressed : Key → Bool) (st : AppState C) :
    (UProcessInput ProcessKeyboard pressed st).gCamera =
      ((movementBindings st.gDeltaTime).filter (fun b => pressed b.1)).foldl
        (fun c b => ProcessKeyboard c b.2.1 b.2.2) st.gCamera := by
  simp only [UProcessInput, projectOnKey_gCamera, moveOnKey_gCamera, moveOnKey_gDeltaTime,
    closeOnKey_gCamera, closeOnKey_gDeltaTime, movementBindings, List.filter]
  cases pressed Key.W <;> cases pressed Key.S <;> cases pressed Key.A <;>
    cases pressed Key.D <;> cases pressed Key.Q <;> cases pressed Key.E <;> rfl

theorem foldl_logProcessKeyboard (calls : List (Key × Camera_Movement × ℚ))
    (log : List CameraCall) :
    calls.foldl (fun c b => logProcessKeyboard c b.2.1 b.2.2) log =
      log ++ calls.map (fun b => CameraCall.ProcessKeyboard b.2.1 b.2.2) := by
  induction calls generalizing log with
  | nil => simp
  | cons b rest ih =>
    rw [List.foldl_cons, ih, List.map_cons]
    simp [logProcessKeyboard]

/-- C14: the camera after `UProcessInput` is the camera before it with
`ProcessKeyboard` applied once per held key of W, S, A, D, Q, E, in that order,
with FORWARD, BACKWARD, LEFT, RIGHT and `gDeltaTime` for the first four and UP,
DOWN and the constant 2.5 for Q and E, and with nothing applied for a key that
is not held; on the recording camera the recorded calls are exactly these. -/
theorem UProcessInput_keyboard_calls {C : Type}
    (ProcessKeyboard : C → Camera_Movement → ℚ → C) (pressed : Key → Bool)
    (st : AppState C) (logged : AppState (List CameraCall)) :
    (UProcessInput ProcessKeyboard pressed st).gCamera =
      ((movementBindings st.gDeltaTime).filter (fun b => pressed b.1)).foldl
        (fun c b => ProcessKeyboard c b.2.1 b.2.2) st.gCamera ∧
    (UProcessInput logProcessKeyboard pressed logged).gCamera =
      logged.gCamera ++
        ((movementBindings logged.gDeltaTime).filter (fun b => pressed b.1)).map
          (fun b => CameraCall.ProcessKeyboard b.2.1 b.2.2) := by
  refine ⟨UProcessInput_gCamera ProcessKeyboard pressed st, ?_⟩
  rw [UProcessInput_gCamera, foldl_logProcessKeyboard]

/-- W, Q and P held with a frame time of 1/60, evaluated on the recording
camera: FORWARD with 1/60, then UP with 2.5. -/
theorem UProcessInput_example :
    (UProcessInput logProcessKeyboard (fun k => decide (k = Key.W ∨ k = Key.Q ∨ k = Key.P))
      { AppState.startup [] with gDeltaTime := 1 / 60 }).gCamera =
      [ CameraCall.ProcessKeyboard Camera_Movement.FORWARD (1 / 60),
        CameraCall.ProcessKeyboard Camera_Movement.UP 2.5 ] := by
  rw [UProcessInput_gCamera, foldl_logProcessKeyboard]
  simp [movementBindings, AppState.startup, List.filter]

/-! ## `UCreateTexture` -/

/-- C15: for a decoded image, the `glTexImage2D` calls of `UCreateTexture` are
one call with `GL_RGB8`/`GL_RGB` when `channels` is 3, one call with
`GL_RGBA8`/`GL_RGBA` when it is 4, and none otherwise; `glGenerateMipmap` is
called once in the first two cases and not at all otherwise.  The pixels
uploaded are the vertically flipped buffer. -/
theorem UCreateTexture_upload_path (stbi_load : String → Option DecodedImage)
    (generated : GLuint) (filename : String) (textureId : GLuint) (image : DecodedImage)
    (hdecoded : stbi_load filename = some image) :
    textureUploads (UCreateTexture stbi_load generated filename textureId).commands =
      (if image.channels = 3 then
        [TextureCmd.texImage2D TexFormat.RGB8 image.width image.height TexFormat.RGB
          (flipImageVertically image.data image.width image.height image.channels)]
      else if image.channels = 4 then
        [TextureCmd.texImage2D TexFormat.RGBA8 image.width image.height TexFormat.RGBA
          (flipImageVertically image.data image.width image.height image.channels)]
      else []) ∧
    mipmapCalls (UCreateTexture stbi_load generated filename textureId).commands =
      (if image.channels = 3 ∨ image.channels = 4 then 1 else 0) := by
  unfold UCreateTexture
  rw [hdecoded]
  by_cases h3 : image.channels = 3
  · simp [h3, textureUploads, mipmapCalls, List.filter]
  · by_cases h4 : image.channels = 4
    · simp [h4, textureUploads, mipmapCalls, List.filter]
    · simp [h3, h4, textureUploads, mipmapCalls, List.filter]

/-- Witness for C15: a decoded 1 x 2 image with three channels. -/
theorem UCreateTexture_upload_path_witness :
    sampleDecoder 3 [] "a.jpg" =
      some { data := List.range (2 * 3), width := 1, height := 2, channels := 3 } ∧
    (textureUploads (UCreateTexture (sampleDecoder 3 []) 7 "a.jpg" 0).commands =
      (if (3 : Nat) = 3 then
        [TextureCmd.texImage2D TexFormat.RGB8 1 2 TexFormat.RGB
          (flipImageVertically (List.range (2 * 3)) 1 2 3)]
      else if (3 : Nat) = 4 then
        [TextureCmd.texImage2D TexFormat.RGBA8 1 2 TexFormat.RGBA
          (flipImageVertically (List.range (2 * 3)) 1 2 3)]
      else []) ∧
    mipmapCalls (UCreateTexture (sampleDecoder 3 []) 7 "a.jpg" 0).commands =
      (if (3 : Nat) = 3 ∨ (3 : Nat) = 4 then 1 else 0)) :=
  ⟨rfl, UCreateTexture_upload_path (sampleDecoder 3 []) 7 "a.jpg" 0
    { data := List.range (2 * 3), width := 1, height := 2, channels := 3 } rfl⟩

/-- A two-channel image evaluated: six setup calls, no upload, no mipmap, one
message, and `false`. -/
theorem UCreateTexture_two_channel_example :
    (UCreateTexture (sampleDecoder 2 []) 7 "a.png" 0).ok = false ∧
    textureUploads (UCreateTexture (sampleDecoder 2 []) 7 "a.png" 0).commands = [] ∧
    mipmapCalls (UCreateTexture (sampleDecoder 2 []) 7 "a.png" 0).commands = 0 ∧
    (UCreateTexture (sampleDecoder 2 []) 7 "a.png" 0).printed =
      [Message.notImplementedChannels 2] := by
  decide

/-- C16: `UCreateTexture` returns true exactly when `stbi_load` returns an
image and that image has 3 or 4 channels. -/
theorem UCreateTexture_ok_iff (stbi_load : String → Option DecodedImage)
    (generated : GLuint) (filename : String) (textureId : GLuint) :
    (UCreateTexture stbi_load generated filename textureId).ok = true ↔
      ∃ image, stbi_load filename = some image ∧ (image.channels = 3 ∨ image.channels = 4) := by
  unfold UCreateTexture
  cases h : stbi_load filename with
  | none => simp
  | some image =>
    by_cases h3 : image.channels = 3
    · simp [h3]
    · by_cases h4 : image.channels = 4
      · simp [h4]
      · simp [h3, h4]

/-! ## Textures bound by `URender` -/

/-- The texture bound at each of the first eight draw calls. -/
theorem URender_textures {C M : Type} (glm : GLM M) (cam : CameraView C M)
    (st : AppState C) (g : GLState M) :
    ((drawCalls g (URender glm cam st)).take 8).map (fun d => d.state.texture) =
      [ st.filingCabinetTextureId, st.deskTextureId, st.pcTextureId, st.keyboardTextureId,
        st.monitorTextureId, st.speakerTextureId, st.deskTextureId, st.monitorTextureId ] := by
  rfl

/-- C17, counterexample: with the six textures named 1 to 6 in load order, the
eight lit draws bind 4, 1, 3, 6, 2, 5, 1, 2: the desktop and the desk leg both
bind 1, the monitor and the monitor stand both bind 2. -/
theorem URender_textures_counterexample :
    ¬ (((drawCalls emptyContext
          (URender symbolicGLM logCameraView (loadedState [] : AppState (List CameraCall)))).take
          8).map (fun d => d.state.texture)).Nodup := by
  rw [URender_textures]
  decide

/-! ## The lamp uniforms -/

/-- C20: the lamp region issues its three `glUniformMatrix4fv` calls on the
location of `model`: the model matrix, then the view matrix, then the
projection matrix.  At the ninth draw the lamp program's `model` uniform
therefore holds the projection matrix, and no command of the frame writes a
uniform named `view` or `projection` while the lamp program is in use. -/
theorem URender_lamp_uniforms {C M : Type} (glm : GLM M) (cam : CameraView C M)
    (st : AppState C) (g : GLState M) :
    (lightRegion glm cam st).filterMap (fun c =>
        match c with
        | GLCmd.uniformMatrix4fv location value => some (location.name, value)
        | _ => none) =
      [ ("model", glm.mul (glm.translate st.gLightPosition) (glm.scale st.gLightScale)),
        ("model", cam.GetViewMatrix st.gCamera),
        ("model", projectionMatrix glm cam st) ] ∧
    ((drawCalls g (URender glm cam st))[8]?).bind (fun d => d.matrix "model") =
      some (projectionMatrix glm cam st) := by
  constructor
  · rfl
  · simp [URender, filingCabinetRegion, objectRegion, lightRegion, drawCalls, GLState.exec,
      DrawCall.matrix, glGetUniformLocation]

/-- The lamp uniforms `view` and `projection` at the ninth draw, evaluated from
a context in which nothing was written, with programs 1 and 2: both unset. -/
theorem URender_lamp_view_unset :
    ((drawCalls emptyContext
        (URender symbolicGLM logCameraView (loadedState [] : AppState (List CameraCall))))[8]?).bind
        (fun d => d.matrix "view") = none ∧
    ((drawCalls emptyContext
        (URender symbolicGLM logCameraView (loadedState [] : AppState (List CameraCall))))[8]?).bind
        (fun d => d.matrix "projection") = none := by
  simp [URender, filingCabinetRegion, objectRegion, lightRegion, drawCalls, GLState.exec,
    DrawCall.matrix, glGetUniformLocation, loadedState, AppState.startup, emptyContext]

/-! ## Startup failures in `main` -/

theorem filterMap_startupStep_print (l : List Message) :
    (l.map MainEvent.print).filterMap MainEvent.startupStep = [] := by
  induction l with
  | nil => rfl
  | cons m rest _ => simp [MainEvent.startupStep]

theorem filter_inLoop_print (l : List Message) :
    (l.map MainEvent.print).filter MainEvent.inLoop = [] := by
  induction l with
  | nil => rfl
  | cons m rest _ => simp [MainEvent.inLoop]

theorem filterMap_loadedSlot_print (l : List Message) :
    (l.map MainEvent.print).filterMap MainEvent.loadedSlot = [] := by
  induction l with
  | nil => rfl
  | cons m rest _ => simp [MainEvent.loadedSlot]

theorem UInitialize_printed_of_ok (env : Environment) (h : (UInitialize env).ok = true) :
    (UInitialize env).printed = [Message.openGLVersion env.glVersion] := by
  unfold UInitialize at h ⊢
  split_ifs at h ⊢
  simp_all

theorem UCreateShaderProgram_printed_of_ok (o : ShaderOutcome)
    (h : (UCreateShaderProgram o).ok = true) : (UCreateShaderProgram o).printed = [] := by
  unfold UCreateShaderProgram at h ⊢
  split_ifs at h ⊢
  simp_all

theorem loadTexture_printed_of_ok (env : Environment) (slot : TextureSlot)
    (h : (loadTexture env slot).ok = true) : (loadTexture env slot).printed = [] := by
  unfold loadTexture UCreateTexture at h ⊢
  split at h
  · split_ifs at h ⊢ <;> simp_all
  · simp_all

theorem loadTexture_printed_failedFile (env : Environment) (slot : TextureSlot) :
    ((loadTexture env slot).printed.map MainEvent.print).filterMap MainEvent.failedFile = [] := by
  unfold loadTexture UCreateTexture
  split
  · split_ifs <;> simp [MainEvent.failedFile]
  · simp

theorem main_of_init_failure (env : Environment) (h : (UInitialize env).ok = false) :
    main env = { exitCode := EXIT_FAILURE,
                 events := MainEvent.UInitialize ::
                   (UInitialize env).printed.map MainEvent.print } := by
  simp [main, h]

theorem main_of_lit_failure (env : Environment) (h0 : (UInitialize env).ok = true)
    (h1 : (UCreateShaderProgram env.litShader).ok = false) :
    main env = { exitCode := EXIT_FAILURE,
                 events := [ MainEvent.UInitialize,
                     MainEvent.print (Message.openGLVersion env.glVersion),
                     MainEvent.UCreateMesh, MainEvent.UCreateShaderProgram false ] ++
                   (UCreateShaderProgram env.litShader).printed.map MainEvent.print } := by
  simp [main, h0, h1, UInitialize_printed_of_ok env h0]

theorem main_of_lamp_failure (env : Environment) (h0 : (UInitialize env).ok = true)
    (h1 : (UCreateShaderProgram env.litShader).ok = true)
    (h2 : (UCreateShaderProgram env.lampShader).ok = false) :
    main env = { exitCode := EXIT_FAILURE,
                 events := startupPrefix env ++
                   (UCreateShaderProgram env.lampShader).printed.map MainEvent.print } := by
  simp [main, h0, h1, h2, startupPrefix, UInitialize_printed_of_ok env h0,
    UCreateShaderProgram_printed_of_ok _ h1]

/-- The run of `main` whose first failing step is the load of the k-th
texture of the load order. -/
theorem main_of_texture_failure (env : Environment) (k : Nat) (slot : TextureSlot)
    (hk : textureOrder[k]? = some slot) (h0 : (UInitialize env).ok = true)
    (h1 : (UCreateShaderProgram env.litShader).ok = true)
    (h2 : (UCreateShaderProgram env.lampShader).ok = true)
    (hprev : ∀ s ∈ textureOrder.take k, (loadTexture env s).ok = true)
    (hfail : (loadTexture env slot).ok = false) :
    main env = { exitCode := EXIT_FAILURE,
                 events := startupPrefix env ++
                   (textureOrder.take k).map MainEvent.UCreateTexture ++
                   textureCall env slot ++ textureFailure slot } := by
  have hlt : k < 6 := by
    by_contra hge
    have : textureOrder[k]? = none := by
      apply List.getElem?_eq_none
      simp only [textureOrder, List.length_cons, List.length_nil]
      omega
    rw [this] at hk
    exact absurd hk (by simp)
  have p0 := UInitialize_printed_of_ok env h0
  have p1 := UCreateShaderProgram_printed_of_ok _ h1
  have p2 := UCreateShaderProgram_printed_of_ok _ h2
  interval_cases k <;> simp only [textureOrder, List.getElem?_cons_zero, List.getElem?_cons_succ,
      Option.some.injEq] at hk <;> subst hk <;>
    simp only [textureOrder, List.take, List.mem_cons, List.mem_singleton, forall_eq_or_imp,
      forall_eq, List.not_mem_nil, false_implies, implies_true, and_true] at hprev
  · simp [main, h0, h1, h2, hfail, p0, p1, p2, startupPrefix, textureCall, textureOrder]
  · have q0 := loadTexture_printed_of_ok env _ hprev
    simp [main, h0, h1, h2, hprev, hfail, p0, p1, p2, q0, startupPrefix, textureCall,
      textureOrder]
  · obtain ⟨a0, a1⟩ := hprev
    have q0 := loadTexture_printed_of_ok env _ a0
    have q1 := loadTexture_printed_of_ok env _ a1
    simp [main, h0, h1, h2, a0, a1, hfail, p0, p1, p2, q0, q1, startupPrefix, textureCall,
      textureOrder]
  · obtain ⟨a0, a1, a2⟩ := hprev
    have q0 := loadTexture_printed_of_ok env _ a0
    have q1 := loadTexture_printed_of_ok env _ a1
    have q2 := loadTexture_printed_of_ok env _ a2
    simp [main, h0, h1, h2, a0, a1, a2, hfail, p0, p1, p2, q0, q1, q2, startupPrefix,
      textureCall, textureOrder]
  · obtain ⟨a0, a1, a2, a3⟩ := hprev
    have q0 := loadTexture_printed_of_ok env _ a0
    have q1 := loadTexture_printed_of_ok env _ a1
    have q2 := loadTexture_printed_of_ok env _ a2
    have q3 := loadTexture_printed_of_ok env _ a3
    simp [main, h0, h1, h2, a0, a1, a2, a3, hfail, p0, p1, p2, q0, q1, q2, q3, startupPrefix,
      textureCall, textureOrder]
  · obtain ⟨a0, a1, a2, a3, a4⟩ := hprev
    have q0 := loadTexture_printed_of_ok env _ a0
    have q1 := loadTexture_printed_of_ok env _ a1
    have q2 := loadTexture_printed_of_ok env _ a2
    have q3 := loadTexture_printed_of_ok env _ a3
    have q4 := loadTexture_printed_of_ok env _ a4
    simp [main, h0, h1, h2, a0, a1, a2, a3, a4, hfail, p0, p1, p2, q0, q1, q2, q3, q4,
      startupPrefix, textureCall, textureOrder]

theorem UInitialize_printed_failedFile (env : Environment) :
    ((UInitialize env).printed.map MainEvent.print).filterMap MainEvent.failedFile = [] := by
  unfold UInitialize
  split_ifs <;> simp [MainEvent.failedFile]

theorem UCreateShaderProgram_printed_failedFile (o : ShaderOutcome) :
    ((UCreateShaderProgram o).printed.map MainEvent.print).filterMap MainEvent.failedFile = [] := by
  unfold UCreateShaderProgram
  split_ifs <;> simp [MainEvent.failedFile]

theorem UCreateShaderProgram_ok_eq (o : ShaderOutcome) :
    (UCreateShaderProgram o).ok = (o.vertexCompiled && o.fragmentCompiled && o.linked) := by
  unfold UCreateShaderProgram
  cases o.vertexCompiled <;> cases o.fragmentCompiled <;> cases o.linked <;> rfl

/-- The first failing startup step, found by testing the steps in order. -/
theorem first_failing_step (env : Environment)
    (hfail : ∃ s ∈ startupOrder, StartupStep.succeeds env s = false) :
    (UInitialize env).ok = false ∨
    ((UInitialize env).ok = true ∧ (UCreateShaderProgram env.litShader).ok = false) ∨
    ((UInitialize env).ok = true ∧ (UCreateShaderProgram env.litShader).ok = true ∧
      (UCreateShaderProgram env.lampShader).ok = false) ∨
    ((UInitialize env).ok = true ∧ (UCreateShaderProgram env.litShader).ok = true ∧
      (UCreateShaderProgram env.lampShader).ok = true ∧
      ∃ k slot, textureOrder[k]? = some slot ∧
        (∀ s ∈ textureOrder.take k, (loadTexture env s).ok = true) ∧
        (loadTexture env slot).ok = false) := by
  by_cases h0 : (UInitialize env).ok = true
  swap
  · exact Or.inl (by simpa using h0)
  by_cases h1 : (UCreateShaderProgram env.litShader).ok = true
  swap
  · exact Or.inr (Or.inl ⟨h0, by simpa using h1⟩)
  by_cases h2 : (UCreateShaderProgram env.lampShader).ok = true
  swap
  · exact Or.inr (Or.inr (Or.inl ⟨h0, h1, by simpa using h2⟩))
  refine Or.inr (Or.inr (Or.inr ⟨h0, h1, h2, ?_⟩))
  by_cases t0 : (loadTexture env TextureSlot.desk).ok = true
  swap
  · exact ⟨0, _, rfl, by simp, by simpa using t0⟩
  by_cases t1 : (loadTexture env TextureSlot.monitor).ok = true
  swap
  · exact ⟨1, _, rfl, by simp [textureOrder, t0], by simpa using t1⟩
  by_cases t2 : (loadTexture env TextureSlot.pc).ok = true
  swap
  · exact ⟨2, _, rfl, by simp [textureOrder, t0, t1], by simpa using t2⟩
  by_cases t3 : (loadTexture env TextureSlot.filingCabinet).ok = true
  swap
  · exact ⟨3, _, rfl, by simp [textureOrder, t0, t1, t2], by simpa using t3⟩
  by_cases t4 : (loadTexture env TextureSlot.speaker).ok = true
  swap
  · exact ⟨4, _, rfl, by simp [textureOrder, t0, t1, t2, t3], by simpa using t4⟩
  by_cases t5 : (loadTexture env TextureSlot.keyboard).ok = true
  swap
  · exact ⟨5, _, rfl, by simp [textureOrder, t0, t1, t2, t3, t4], by simpa using t5⟩
  exfalso
  obtain ⟨s, hs, hf⟩ := hfail
  simp only [startupOrder, List.mem_cons, List.mem_singleton, List.not_mem_nil, or_false] at hs
  rcases hs with rfl | rfl | rfl | rfl | rfl | rfl | rfl | rfl | rfl | rfl <;>
    simp [StartupStep.succeeds, h0, h1, h2, t0, t1, t2, t3, t4, t5] at hf

/-- C18: `UCreateShaderProgram` reports failure exactly when the vertex compile,
the fragment compile or the link status is unsuccessful; and when `UInitialize`,
one of the two `UCreateShaderProgram` calls or one of the six `UCreateTexture`
calls reports failure, `main` returns
`EXIT_FAILURE`, its run holds no `UProcessInput`, `URender` or `glfwPollEvents`,
and its startup calls are the startup order cut after the first failing step:
each earlier step once, the failing step once, no later step. -/
theorem main_startup_failure (env : Environment)
    (hfail : ∃ s ∈ startupOrder, StartupStep.succeeds env s = false) :
    (∀ o : ShaderOutcome, (UCreateShaderProgram o).ok =
      (o.vertexCompiled && o.fragmentCompiled && o.linked)) ∧
    (main env).exitCode = EXIT_FAILURE ∧
    (main env).events.filter MainEvent.inLoop = [] ∧
    ∃ k, k < startupOrder.length ∧
      (main env).events.filterMap MainEvent.startupStep = startupOrder.take (k + 1) ∧
      (startupOrder[k]?).map (StartupStep.succeeds env) = some false ∧
      ∀ s ∈ startupOrder.take k, StartupStep.succeeds env s = true := by
  refine ⟨UCreateShaderProgram_ok_eq, ?_⟩
  rcases first_failing_step env hfail with h | ⟨h0, h1⟩ | ⟨h0, h1, h2⟩ |
    ⟨h0, h1, h2, k, slot, hk, hprev, hf⟩
  · rw [main_of_init_failure env h]
    refine ⟨rfl, ?_, 0, by decide, ?_, ?_, ?_⟩
    · simp [MainEvent.inLoop, filter_inLoop_print]
    · simp [MainEvent.startupStep, filterMap_startupStep_print, startupOrder]
    · simp [startupOrder, StartupStep.succeeds, h]
    · simp
  · rw [main_of_lit_failure env h0 h1]
    refine ⟨rfl, ?_, 2, by decide, ?_, ?_, ?_⟩
    · simp [MainEvent.inLoop, filter_inLoop_print]
    · simp [MainEvent.startupStep, filterMap_startupStep_print, startupOrder]
    · simp [startupOrder, StartupStep.succeeds, h1]
    · simp [startupOrder, StartupStep.succeeds, h0]
  · rw [main_of_lamp_failure env h0 h1 h2]
    refine ⟨rfl, ?_, 3, by decide, ?_, ?_, ?_⟩
    · simp [MainEvent.inLoop, filter_inLoop_print, startupPrefix]
    · simp [MainEvent.startupStep, filterMap_startupStep_print, startupOrder, startupPrefix]
    · simp [startupOrder, StartupStep.succeeds, h2]
    · simp [startupOrder, StartupStep.succeeds, h0, h1]
  · rw [main_of_texture_failure env k slot hk h0 h1 h2 hprev hf]
    have hlt : k < 6 := by
      by_contra hge
      have : textureOrder[k]? = none := by
        apply List.getElem?_eq_none
        simp only [textureOrder, List.length_cons, List.length_nil]
        omega
      rw [this] at hk
      exact absurd hk (by simp)
    refine ⟨rfl, ?_, k + 4, by simp only [startupOrder, List.length_cons, List.length_nil]; omega,
      ?_, ?_, ?_⟩
    · interval_cases k <;>
        simp [MainEvent.inLoop, filter_inLoop_print, startupPrefix, textureCall, textureFailure,
          textureOrder]
    · interval_cases k <;>
        simp only [textureOrder, List.getElem?_cons_zero, List.getElem?_cons_succ,
          Option.some.injEq] at hk <;> subst hk <;>
        simp [MainEvent.startupStep, filterMap_startupStep_print, startupPrefix, textureCall,
          textureFailure, textureOrder, startupOrder]
    · interval_cases k <;>
        simp only [textureOrder, List.getElem?_cons_zero, List.getElem?_cons_succ,
          Option.some.injEq] at hk <;> subst hk <;>
        simp [startupOrder, StartupStep.succeeds, hf]
    · interval_cases k <;>
        simp [textureOrder] at hprev <;>
        simp [startupOrder, StartupStep.succeeds, h0, h1, h2, hprev]

/-- Witness for C18: the desk texture file cannot be decoded. -/
theorem main_startup_failure_witness :
    (∃ s ∈ startupOrder,
      StartupStep.succeeds (sampleEnvironment [TextureSlot.desk.filename]) s = false) ∧
    ((∀ o : ShaderOutcome, (UCreateShaderProgram o).ok =
      (o.vertexCompiled && o.fragmentCompiled && o.linked)) ∧
    (main (sampleEnvironment [TextureSlot.desk.filename])).exitCode = EXIT_FAILURE ∧
    (main (sampleEnvironment [TextureSlot.desk.filename])).events.filter MainEvent.inLoop = [] ∧
    ∃ k, k < startupOrder.length ∧
      (main (sampleEnvironment [TextureSlot.desk.filename])).events.filterMap
        MainEvent.startupStep = startupOrder.take (k + 1) ∧
      (startupOrder[k]?).map
        (StartupStep.succeeds (sampleEnvironment [TextureSlot.desk.filename])) = some false ∧
      ∀ s ∈ startupOrder.take k,
        StartupStep.succeeds (sampleEnvironment [TextureSlot.desk.filename]) s = true) :=
  ⟨⟨StartupStep.texture TextureSlot.desk, by decide, by decide⟩,
   main_startup_failure (sampleEnvironment [TextureSlot.desk.filename])
     ⟨StartupStep.texture TextureSlot.desk, by decide, by decide⟩⟩

/-- The run with the PC texture missing, evaluated: five calls succeed, the
third load fails, one line names the file, exit status 1. -/
theorem main_example :
    main (sampleEnvironment [TextureSlot.pc.filename]) =
      { exitCode := 1,
        events :=
          [ MainEvent.UInitialize, MainEvent.print (Message.openGLVersion "4.4"),
            MainEvent.UCreateMesh, MainEvent.UCreateShaderProgram false,
            MainEvent.UCreateShaderProgram true, MainEvent.UCreateTexture TextureSlot.desk,
            MainEvent.UCreateTexture TextureSlot.monitor, MainEvent.UCreateTexture TextureSlot.pc,
            MainEvent.print (Message.failedToLoadTexture "../../resources/textures/PCTexture.jpg")
          ] } := by
  decide

/-- C19: when `UInitialize` and both shader programs succeed and the k-th file
of the load order is the first whose load fails, `main` returns `EXIT_FAILURE`,
prints exactly one `Failed to load texture` line, naming that file, and calls
`UCreateTexture` for the first k + 1 files of the load order only. -/
theorem main_texture_failure_message (env : Environment) (k : Nat) (slot : TextureSlot)
    (hk : textureOrder[k]? = some slot) (h0 : (UInitialize env).ok = true)
    (h1 : (UCreateShaderProgram env.litShader).ok = true)
    (h2 : (UCreateShaderProgram env.lampShader).ok = true)
    (hprev : ∀ s ∈ textureOrder.take k, (loadTexture env s).ok = true)
    (hfail : (loadTexture env slot).ok = false) :
    (main env).exitCode = EXIT_FAILURE ∧
    (main env).events.filterMap MainEvent.failedFile = [slot.filename] ∧
    (Message.failedToLoadTexture slot.filename).text =
      "Failed to load texture " ++ slot.filename ∧
    (main env).events.filterMap MainEvent.loadedSlot = textureOrder.take (k + 1) ∧
    (main env).events.filter MainEvent.inLoop = [] := by
  rw [main_of_texture_failure env k slot hk h0 h1 h2 hprev hfail]
  have hlt : k < 6 := by
    by_contra hge
    have : textureOrder[k]? = none := by
      apply List.getElem?_eq_none
      simp only [textureOrder, List.length_cons, List.length_nil]
      omega
    rw [this] at hk
    exact absurd hk (by simp)
  refine ⟨rfl, ?_, rfl, ?_, ?_⟩
  · simp only [textureCall, textureFailure, List.filterMap_append, List.filterMap_cons,
      loadTexture_printed_failedFile]
    interval_cases k <;> simp [MainEvent.failedFile, startupPrefix, textureOrder]
  · interval_cases k <;>
      simp only [textureOrder, List.getElem?_cons_zero, List.getElem?_cons_succ,
        Option.some.injEq] at hk <;> subst hk <;>
      simp [MainEvent.loadedSlot, filterMap_loadedSlot_print, startupPrefix, textureCall,
        textureFailure, textureOrder]
  · interval_cases k <;>
      simp [MainEvent.inLoop, filter_inLoop_print, startupPrefix, textureCall, textureFailure,
        textureOrder]

/-- Witness for C19: the PC texture, third in the load order, cannot be decoded. -/
theorem main_texture_failure_message_witness :
    textureOrder[2]? = some TextureSlot.pc ∧
    (UInitialize (sampleEnvironment [TextureSlot.pc.filename])).ok = true ∧
    (main (sampleEnvironment [TextureSlot.pc.filename])).exitCode = EXIT_FAILURE ∧
    (main (sampleEnvironment [TextureSlot.pc.filename])).events.filterMap MainEvent.failedFile =
      [TextureSlot.pc.filename] ∧
    (Message.failedToLoadTexture TextureSlot.pc.filename).text =
      "Failed to load texture " ++ TextureSlot.pc.filename ∧
    (main (sampleEnvironment [TextureSlot.pc.filename])).events.filterMap MainEvent.loadedSlot =
      textureOrder.take (2 + 1) ∧
    (main (sampleEnvironment [TextureSlot.pc.filename])).events.filter MainEvent.inLoop = [] :=
  ⟨rfl, by decide,
    main_texture_failure_message (sampleEnvironment [TextureSlot.pc.filename]) 2 TextureSlot.pc
      rfl (by decide) (by decide) (by decide) (by decide) (by decide)⟩

/-! ## Teardown -/

/-- C21: `UDestroyTexture(id)` issues one `glGenTextures` call and no
`glDeleteTextures` call, so every texture name in use before it is in use
after it, together with one more; after the six calls of `main` all names in
use before are still in use and six more have been handed out. -/
theorem UDestroyTexture_generates {C : Type} (st : AppState C) (generated : Nat → GLuint)
    (names : List GLuint) (fresh textureId : GLuint) :
    UDestroyTexture fresh textureId = [TeardownCmd.genTextures fresh] ∧
    (UDestroyTexture fresh textureId).foldl texturesInUse names = names ++ [fresh] ∧
    (destroyTextures st generated).foldl texturesInUse names =
      names ++ [generated 0, generated 1, generated 2, generated 3, generated 4, generated 5] ∧
    (∀ name, TeardownCmd.deleteTextures name ∉ destroyTextures st generated) := by
  refine ⟨rfl, rfl, ?_, ?_⟩
  · simp [destroyTextures, UDestroyTexture, texturesInUse]
  · intro name
    simp [destroyTextures, UDestroyTexture]

/-- The teardown of the textures 1 to 6 evaluated, the driver handing out 7 to
12: all twelve names are in use afterwards. -/
theorem destroyTextures_example :
    (destroyTextures (loadedState sampleCamera) (fun k => k + 7)).foldl texturesInUse
      [1, 2, 3, 4, 5, 6] = [1, 2, 3, 4, 5, 6, 7, 8, 9, 10, 11, 12] := by
  decide

/-- C29: `UDestroyMesh` passes the element count 10 to both delete calls, while
the `vao` and `vbo` arrays of the mesh that `UCreateMesh` fills hold 9 names:
position 9 is among the positions read. -/
theorem UDestroyMesh_reads_ten (genVertexArray genBuffer : Nat → GLuint) (mesh : GLMesh) :
    UDestroyMesh mesh =
      [TeardownCmd.deleteVertexArrays 10 mesh.vao, TeardownCmd.deleteBuffers 10 mesh.vbo] ∧
    (∀ c ∈ UDestroyMesh mesh, 9 ∈ c.indicesRead) ∧
    (UCreateMesh GLMesh.zeroInit genVertexArray genBuffer).mesh.vao.length = 9 ∧
    (UCreateMesh GLMesh.zeroInit genVertexArray genBuffer).mesh.vbo.length = 9 := by
  refine ⟨rfl, ?_, ?_, ?_⟩
  · intro c hc
    simp only [UDestroyMesh, List.mem_cons, List.mem_singleton, List.not_mem_nil, or_false] at hc
    rcases hc with rfl | rfl <;> simp [TeardownCmd.indicesRead]
  · simp [UCreateMesh, meshRegion, GLMesh.zeroInit]
  · simp [UCreateMesh, meshRegion, GLMesh.zeroInit]

/-! ## Both projection keys -/

/-- C26: when P and O are both held, `viewProjection` is false after
`UProcessInput`, whatever it was before. -/
theorem UProcessInput_both_keys {C : Type} (ProcessKeyboard : C → Camera_Movement → ℚ → C)
    (pressed : Key → Bool) (st : AppState C) :
    pressed Key.P = true → pressed Key.O = true →
      (UProcessInput ProcessKeyboard pressed st).viewProjection = false := by
  intro _ hO
  rw [UProcessInput_viewProjection, hO]
  rfl

/-- Witness for C26: P and O held, from perspective mode and from orthographic
mode. -/
theorem UProcessInput_both_keys_witness :
    pressedBoth Key.P = true ∧ pressedBoth Key.O = true ∧
    (UProcessInput logProcessKeyboard pressedBoth (AppState.startup [])).viewProjection = false ∧
    (UProcessInput logProcessKeyboard pressedBoth
      { AppState.startup [] with viewProjection := false }).viewProjection = false :=
  ⟨rfl, rfl,
    UProcessInput_both_keys logProcessKeyboard pressedBoth (AppState.startup []) rfl rfl,
    UProcessInput_both_keys logProcessKeyboard pressedBoth
      { AppState.startup [] with viewProjection := false } rfl rfl⟩

/-! ## Draws stay inside the uploaded data -/

/-- The uploads of `UCreateMesh`, by data length and vertex array. -/
theorem UCreateMesh_uploads (genVertexArray genBuffer : Nat → GLuint) :
    (UCreateMesh GLMesh.zeroInit genVertexArray genBuffer).uploads.map
        (fun u => (u.vao, u.data.length, u.size)) =
      [ (genVertexArray 0, 336, 1344), (genVertexArray 1, 288, 1152),
        (genVertexArray 2, 288, 1152), (genVertexArray 3, 288, 1152),
        (genVertexArray 4, 288, 1152), (genVertexArray 5, 288, 1152),
        (genVertexArray 6, 287, 1148), (genVertexArray 7, 288, 1152) ] := by
  simp [UCreateMesh, meshRegion, sizeofArray, sizeofFloat, filingCabinetVerts_length,
    desktopVerts_length, pcVerts_length, keyboardVerts_length, monitorVerts_length,
    speakerVerts_length, desklegVerts_length, monitorstandVerts_length]

theorem UCreateMesh_nVertices (genVertexArray genBuffer : Nat → GLuint) :
    (UCreateMesh GLMesh.zeroInit genVertexArray genBuffer).mesh.nVertices =
      [42, 36, 36, 36, 36, 36, 35, 36, 0] := by
  simp [UCreateMesh, meshRegion, GLMesh.zeroInit,
    vertexCount_eq _ _ filingCabinetVerts_length, vertexCount_eq _ _ desktopVerts_length,
    vertexCount_eq _ _ pcVerts_length, vertexCount_eq _ _ keyboardVerts_length,
    vertexCount_eq _ _ monitorVerts_length, vertexCount_eq _ _ speakerVerts_length,
    vertexCount_eq _ _ desklegVerts_length, vertexCount_eq _ _ monitorstandVerts_length,
    List.replicate]

theorem UCreateMesh_vao (genVertexArray genBuffer : Nat → GLuint) :
    (UCreateMesh GLMesh.zeroInit genVertexArray genBuffer).mesh.vao =
      [genVertexArray 0, genVertexArray 1, genVertexArray 2, genVertexArray 3,
       genVertexArray 4, genVertexArray 5, genVertexArray 6, genVertexArray 7, 0] := by
  simp [UCreateMesh, meshRegion, GLMesh.zeroInit, List.replicate]

/-- C27: for each of the eight meshes of `UCreateMesh`, in slot order, the
stored vertex count times 8 floats is at most the number of floats uploaded
to the buffer of that slot's vertex array, and times the 32-byte stride at
most the byte size passed to `glBufferData`; and the first eight draw calls of
`URender` on the created mesh each bind the vertex array of the matching
upload and end, at first vertex plus count, inside its floats. -/
theorem UCreateMesh_counts_within_uploads {C M : Type} (glm : GLM M) (cam : CameraView C M)
    (st : AppState C) (g : GLState M) (genVertexArray genBuffer : Nat → GLuint) :
    List.Forall₂
      (fun (n : GLuint) (u : BufferUpload) =>
        n * (floatsPerVertex + floatsPerNormal + floatsPerUV) ≤ u.data.length ∧
        n * (sizeofFloat * (floatsPerVertex + floatsPerNormal + floatsPerUV)) ≤ u.size)
      ((UCreateMesh GLMesh.zeroInit genVertexArray genBuffer).mesh.nVertices.take 8)
      (UCreateMesh GLMesh.zeroInit genVertexArray genBuffer).uploads ∧
    (UCreateMesh GLMesh.zeroInit genVertexArray genBuffer).uploads.map (fun u => u.vao) =
      (UCreateMesh GLMesh.zeroInit genVertexArray genBuffer).mesh.vao.take 8 ∧
    List.Forall₂
      (fun (d : DrawSummary) (u : BufferUpload) =>
        d.vao = u.vao ∧
        (d.first + d.count) * (floatsPerVertex + floatsPerNormal + floatsPerUV) ≤ u.data.length)
      (((drawCalls g (URender glm cam
        { st with gMesh := (UCreateMesh GLMesh.zeroInit genVertexArray genBuffer).mesh })).map
        DrawCall.summary).take 8)
      (UCreateMesh GLMesh.zeroInit genVertexArray genBuffer).uploads := by
  refine ⟨?_, ?_, ?_⟩
  · rw [UCreateMesh_nVertices]
    simp [UCreateMesh, meshRegion, sizeofArray, sizeofFloat, floatsPerVertex, floatsPerNormal,
      floatsPerUV, filingCabinetVerts_length, desktopVerts_length, pcVerts_length,
      keyboardVerts_length, monitorVerts_length, speakerVerts_length, desklegVerts_length,
      monitorstandVerts_length]
  · rw [UCreateMesh_vao]
    simp [UCreateMesh, meshRegion]
  · rw [URender_summaries]
    simp only [UCreateMesh_nVertices, UCreateMesh_vao]
    simp [UCreateMesh, meshRegion, floatsPerVertex, floatsPerNormal,
      floatsPerUV, filingCabinetVerts_length, desktopVerts_length, pcVerts_length,
      keyboardVerts_length, monitorVerts_length, speakerVerts_length, desklegVerts_length,
      monitorstandVerts_length]

/-! ## The grid of scroll speeds -/

theorem UMouseScrollCallback_low {C : Type} (st : AppState C) (xoffset yoffset : ℚ)
    (h : ∃ n : ℕ, n ≤ 10 ∧ st.cameraSpeed = (n : ℚ) / 100) :
    ∃ n : ℕ, n ≤ 10 ∧
      (UMouseScrollCallback FloatArith.exact st xoffset yoffset).cameraSpeed = (n : ℚ) / 100 := by
  obtain ⟨n, h10, hs⟩ := h
  rw [UMouseScrollCallback_cameraSpeed_exact]
  by_cases hup : yoffset > 0 ∧ st.cameraSpeed < 0.1
  · rw [if_pos hup]
    have hlt : (n : ℚ) < 10 := by
      have := hup.2
      rw [hs] at this
      linarith
    have hn : n < 10 := by exact_mod_cast hlt
    refine ⟨n + 1, by omega, ?_⟩
    rw [hs]
    push_cast
    ring
  · rw [if_neg hup]
    by_cases hdown : yoffset < 0 ∧ st.cameraSpeed > 0.01
    · rw [if_pos hdown]
      have hgt : (1 : ℚ) < n := by
        have := hdown.2
        rw [hs] at this
        linarith
      have hn : 1 < n := by exact_mod_cast hgt
      refine ⟨n - 1, by omega, ?_⟩
      rw [hs]
      have hc : ((n - 1 : ℕ) : ℚ) = (n : ℚ) - 1 := by
        rw [Nat.cast_sub (by omega)]
        simp
      rw [hc]
      ring
    · rw [if_neg hdown]
      exact ⟨n, h10, hs⟩

theorem scrollEvents_low {C : Type} (st : AppState C) (events : List (ℚ × ℚ))
    (h : ∃ n : ℕ, n ≤ 10 ∧ st.cameraSpeed = (n : ℚ) / 100) :
    ∃ n : ℕ, n ≤ 10 ∧
      (scrollEvents FloatArith.exact st events).cameraSpeed = (n : ℚ) / 100 := by
  induction events generalizing st with
  | nil => exact h
  | cons e rest ih =>
    obtain ⟨x, y⟩ := e
    exact ih _ (UMouseScrollCallback_low st x y h)

theorem scrollEvents_append {C : Type} (ar : FloatArith) (st : AppState C)
    (events more : List (ℚ × ℚ)) :
    scrollEvents ar st (events ++ more) = scrollEvents ar (scrollEvents ar st events) more := by
  induction events generalizing st with
  | nil => rfl
  | cons e rest ih =>
    obtain ⟨x, y⟩ := e
    simp only [List.cons_append, scrollEvents]
    exact ih _

/-- C28: after every sequence of scroll events from the startup state the
speed is `0.01 * n` for a whole number `n` from 1 to 50; and when the speed is
at most 0.1, that is `n` at most 10, then after every continuation of the
sequence it is `0.01 * m` for a whole number `m` from 1 to 10 (exact
arithmetic). -/
theorem scrollEvents_reachable {C : Type} (cam : C) (events more : List (ℚ × ℚ)) :
    (∃ n : ℕ, 1 ≤ n ∧ n ≤ 50 ∧
      (scrollEvents FloatArith.exact (AppState.startup cam) events).cameraSpeed =
        0.01 * (n : ℚ)) ∧
    ((scrollEvents FloatArith.exact (AppState.startup cam) events).cameraSpeed ≤ 0.1 →
      ∃ m : ℕ, 1 ≤ m ∧ m ≤ 10 ∧
        (scrollEvents FloatArith.exact (AppState.startup cam) (events ++ more)).cameraSpeed =
          0.01 * (m : ℚ)) := by
  obtain ⟨n, h1, h50, hs⟩ := scrollEvents_grid (AppState.startup cam) events
    ⟨50, by norm_num, le_refl _, startup_cameraSpeed cam⟩
  refine ⟨⟨n, h1, h50, by rw [hs]; ring⟩, ?_⟩
  intro hlow
  have h10 : n ≤ 10 := by
    rw [hs] at hlow
    have h2 : (n : ℚ) ≤ 10 := by linarith
    exact_mod_cast h2
  rw [scrollEvents_append]
  obtain ⟨m, hm10, hm⟩ := scrollEvents_low
    (scrollEvents FloatArith.exact (AppState.startup cam) events) more
    ⟨n, h10, hs⟩
  obtain ⟨m2, hm1, _, hm2⟩ := scrollEvents_grid
    (scrollEvents FloatArith.exact (AppState.startup cam) events)
    more ⟨n, h1, h50, hs⟩
  have e : m = m2 := by
    have h3 : (m : ℚ) / 100 = (m2 : ℚ) / 100 := by rw [← hm, ← hm2]
    have h4 : (m : ℚ) = (m2 : ℚ) := by linarith
    exact_mod_cast h4
  subst e
  exact ⟨m, hm1, hm10, by rw [hm]; ring⟩

set_option maxRecDepth 100000 in
/-- Forty downward events from the startup state bring the speed to 0.1. -/
theorem scrollEvents_forty_down :
    (scrollEvents FloatArith.exact (AppState.startup sampleCamera)
      (List.replicate 40 ((0 : ℚ), (-1 : ℚ)))).cameraSpeed ≤ 0.1 := by
  norm_num [scrollEvents, UMouseScrollCallback, AppState.startup, List.replicate,
    FloatArith.exact]

/-- Witness for C28: forty downward events, then one upward event. -/
theorem scrollEvents_reachable_witness :
    (scrollEvents FloatArith.exact (AppState.startup sampleCamera)
      (List.replicate 40 ((0 : ℚ), (-1 : ℚ)))).cameraSpeed ≤ 0.1 ∧
    ∃ m : ℕ, 1 ≤ m ∧ m ≤ 10 ∧
      (scrollEvents FloatArith.exact (AppState.startup sampleCamera)
        (List.replicate 40 ((0 : ℚ), (-1 : ℚ)) ++ [(0, 1)])).cameraSpeed = 0.01 * (m : ℚ) :=
  ⟨scrollEvents_forty_down,
    (scrollEvents_reachable sampleCamera (List.replicate 40 (0, -1)) [(0, 1)]).2
      scrollEvents_forty_down⟩

/-! ## `flipImageVertically` twice -/

/-- The bytes of a flipped image, by row and offset (rows counted in blocks
of `width * channels`). -/
theorem flipImageVertically_getElem? (image : List Nat) (width height channels : Nat)
    (hlen : image.length = width * channels * height) (j i : Nat) (hj : j < height)
    (hi : i < width * channels) :
    (flipImageVertically image width height channels)[j * (width * channels) + i]? =
      image[(height - 1 - j) * (width * channels) + i]? := by
  have e : flippedRowIndex height 0 (height / 2) j = height - 1 - j := by
    unfold flippedRowIndex
    split_ifs <;> omega
  have h := flipRows_rows width height channels (height / 2) 0 image (by omega) hlen j i hj hi
  rw [e] at h
  exact h

/-- C23: for a buffer of `width * height * channels` bytes, flipping twice
with the same dimensions gives back the buffer. -/
theorem flipImageVertically_involution (image : List Nat) (width height channels : Nat)
    (hlen : image.length = width * height * channels) :
    flipImageVertically (flipImageVertically image width height channels) width height channels
      = image := by
  have hlen2 : image.length = width * channels * height := by
    rw [hlen, Nat.mul_assoc, Nat.mul_comm height channels, Nat.mul_assoc]
  have hl1 : (flipImageVertically image width height channels).length
      = width * channels * height := by
    unfold flipImageVertically
    rw [flipRows_length, hlen2]
  have hl2 : (flipImageVertically (flipImageVertically image width height channels)
      width height channels).length = image.length := by
    unfold flipImageVertically
    rw [flipRows_length, flipRows_length]
  apply List.ext_getElem? 
  intro p
  by_cases hp : p < image.length
  · have hW : 0 < width * channels := by
      rcases Nat.eq_zero_or_pos (width * channels) with h0 | h0
      · rw [hlen2, h0, Nat.zero_mul] at hp
        omega
      · exact h0
    have hj : p / (width * channels) < height := by
      rw [Nat.div_lt_iff_lt_mul hW, Nat.mul_comm]
      rw [hlen2] at hp
      exact hp
    have hi : p % (width * channels) < width * channels := Nat.mod_lt _ hW
    have hp2 : p = p / (width * channels) * (width * channels) + p % (width * channels) := by
      rw [Nat.mul_comm]
      exact (Nat.div_add_mod p (width * channels)).symm
    generalize p / (width * channels) = q at hj hp2
    generalize p % (width * channels) = r at hi hp2
    have hj2 : height - 1 - q < height := by omega
    have e2 : height - 1 - (height - 1 - q) = q := by omega
    rw [hp2, flipImageVertically_getElem? _ width height channels hl1 _ _ hj hi,
      flipImageVertically_getElem? image width height channels hlen2 _ _ hj2 hi, e2]
  · rw [List.getElem?_eq_none (by omega), List.getElem?_eq_none (by omega)]

/-- Witness for C23: the three-row image. -/
theorem flipImageVertically_involution_witness :
    ([1, 2, 3, 4, 5, 6] : List Nat).length = 1 * 3 * 2 ∧
    flipImageVertically (flipImageVertically [1, 2, 3, 4, 5, 6] 1 3 2) 1 3 2
      = [1, 2, 3, 4, 5, 6] :=
  ⟨by decide, flipImageVertically_involution [1, 2, 3, 4, 5, 6] 1 3 2 (by decide)⟩

/-! ## The indices `flipImageVertically` touches -/

theorem flipRow_eq_foldl (n a b : Nat) (image : List Nat) :
    flipRow n a b image =
      (flipRowSwaps n a b).foldl (fun img p => swapBytes img p.1 p.2) image := by
  induction n generalizing a b image with
  | zero => rfl
  | succ n ih => simp only [flipRow, flipRowSwaps, List.foldl_cons, ih]

theorem flipRows_eq_foldl (width height channels n j : Nat) (image : List Nat) :
    flipRows width height channels n j image =
      (flipRowsSwaps width height channels n j).foldl (fun img p => swapBytes img p.1 p.2)
        image := by
  induction n generalizing j image with
  | zero => rfl
  | succ n ih => simp only [flipRows, flipRowsSwaps, List.foldl_append, ih, flipRow_eq_foldl]

theorem flipRowSwaps_mem (n a b : Nat) (p : Nat × Nat) (hp : p ∈ flipRowSwaps n a b) :
    a ≤ p.1 ∧ p.1 < a + n ∧ b ≤ p.2 ∧ p.2 < b + n := by
  induction n generalizing a b with
  | zero => simp [flipRowSwaps] at hp
  | succ n ih =>
    simp only [flipRowSwaps, List.mem_cons] at hp
    rcases hp with rfl | hp
    · simp
    · have := ih (a + 1) (b + 1) hp
      omega

theorem flipRowSwaps_length (n a b : Nat) : (flipRowSwaps n a b).length = n := by
  induction n generalizing a b with
  | zero => rfl
  | succ n ih => simp [flipRowSwaps, ih]

theorem flipRowsSwaps_length (width height channels n j : Nat) :
    (flipRowsSwaps width height channels n j).length = n * (width * channels) := by
  induction n generalizing j with
  | zero => simp [flipRowsSwaps]
  | succ n ih =>
    simp only [flipRowsSwaps, List.length_append, flipRowSwaps_length, ih]
    ring

theorem flipRowsSwaps_mem (width height channels n j : Nat) (hn : j + n ≤ height / 2)
    (p : Nat × Nat) (hp : p ∈ flipRowsSwaps width height channels n j) :
    p.1 < width * channels * height ∧ p.2 < width * channels * height := by
  induction n generalizing j with
  | zero => simp [flipRowsSwaps] at hp
  | succ n ih =>
    simp only [flipRowsSwaps, List.mem_append] at hp
    rcases hp with hp | hp
    · have h := flipRowSwaps_mem _ _ _ p hp
      rw [Nat.mul_assoc, Nat.mul_assoc] at h
      have h1 := row_block_le j height (width * channels) (by omega)
      have h2 := row_block_le (height - 1 - j) height (width * channels) (by omega)
      rw [Nat.mul_comm (width * channels) height]
      omega
    · exact ih (j + 1) (by omega) hp

/-- C24: `flipImageVertically` is the exchange of the index pairs of
`flipSwaps`, one after the other; for a buffer of `width * height * channels`
bytes both indices of every pair lie below the buffer length; the number of
exchanges is `(height / 2) * (width * channels)`, after which the function
returns; and with `height` at most 1 or `width * channels` zero there is no
exchange. -/
theorem flipImageVertically_in_bounds (image : List Nat) (width height channels : Nat)
    (hlen : image.length = width * height * channels) :
    flipImageVertically image width height channels =
      (flipSwaps width height channels).foldl (fun img p => swapBytes img p.1 p.2) image ∧
    (∀ p ∈ flipSwaps width height channels, p.1 < image.length ∧ p.2 < image.length) ∧
    (flipSwaps width height channels).length = (height / 2) * (width * channels) ∧
    (height ≤ 1 ∨ width * channels = 0 → flipSwaps width height channels = []) := by
  have hlen2 : image.length = width * channels * height := by
    rw [hlen, Nat.mul_assoc, Nat.mul_comm height channels, Nat.mul_assoc]
  refine ⟨flipRows_eq_foldl _ _ _ _ _ _, ?_, flipRowsSwaps_length _ _ _ _ _, ?_⟩
  · intro p hp
    rw [hlen2]
    exact flipRowsSwaps_mem width height channels (height / 2) 0 (by omega) p hp
  · intro h
    apply List.eq_nil_of_length_eq_zero
    unfold flipSwaps
    rw [flipRowsSwaps_length]
    rcases h with h | h
    · have : height / 2 = 0 := by omega
      rw [this, Nat.zero_mul]
    · rw [h, Nat.mul_zero]

/-- Witness for C24: the three-row image has two exchanges, (0, 4) and (1, 5);
a one-row image has none. -/
theorem flipImageVertically_in_bounds_witness :
    ([1, 2, 3, 4, 5, 6] : List Nat).length = 1 * 3 * 2 ∧
    flipSwaps 1 3 2 = [(0, 4), (1, 5)] ∧
    (∀ p ∈ flipSwaps 1 3 2,
      p.1 < ([1, 2, 3, 4, 5, 6] : List Nat).length ∧
      p.2 < ([1, 2, 3, 4, 5, 6] : List Nat).length) ∧
    ([7, 8] : List Nat).length = 2 * 1 * 1 ∧ ((1 : Nat) ≤ 1 ∨ 2 * 1 = 0) ∧
    flipSwaps 2 1 1 = [] :=
  ⟨by decide, by decide,
    (flipImageVertically_in_bounds [1, 2, 3, 4, 5, 6] 1 3 2 (by decide)).2.1,
    by decide, Or.inl (le_refl 1),
    (flipImageVertically_in_bounds [7, 8] 2 1 1 (by decide)).2.2.2 (Or.inl (le_refl 1))⟩

/-! ## The mouse offsets add up -/

theorem xOffsets_append (l1 l2 : List CameraCall) :
    xOffsets (l1 ++ l2) = xOffsets l1 ++ xOffsets l2 := by
  simp [xOffsets, List.filterMap_append]

theorem yOffsets_append (l1 l2 : List CameraCall) :
    yOffsets (l1 ++ l2) = yOffsets l1 ++ yOffsets l2 := by
  simp [yOffsets, List.filterMap_append]

/-- One event after the first, on the recording camera, in exact arithmetic. -/
theorem UMousePositionCallback_log (st : AppState (List CameraCall)) (xpos ypos : ℚ)
    (hfirst : st.gFirstMouse = false) :
    (UMousePositionCallback FloatArith.exact logProcessMouseMovement st xpos ypos).gCamera =
      st.gCamera ++ [CameraCall.ProcessMouseMovement (xpos - st.gLastX) (st.gLastY - ypos)] ∧
    (UMousePositionCallback FloatArith.exact logProcessMouseMovement st xpos ypos).gLastX = xpos ∧
    (UMousePositionCallback FloatArith.exact logProcessMouseMovement st xpos ypos).gLastY = ypos ∧
    (UMousePositionCallback FloatArith.exact logProcessMouseMovement st xpos ypos).gFirstMouse =
      false := by
  simp [UMousePositionCallback, hfirst, logProcessMouseMovement, FloatArith.exact]

/-- The offsets of the events after the first telescope, in exact arithmetic. -/
theorem mouseEvents_offsets (st : AppState (List CameraCall)) (events : List (ℚ × ℚ))
    (hfirst : st.gFirstMouse = false) :
    (xOffsets (mouseEvents FloatArith.exact logProcessMouseMovement st events).gCamera).sum =
      (xOffsets st.gCamera).sum + ((events.getLastD (st.gLastX, st.gLastY)).1 - st.gLastX) ∧
    (yOffsets (mouseEvents FloatArith.exact logProcessMouseMovement st events).gCamera).sum =
      (yOffsets st.gCamera).sum + (st.gLastY - (events.getLastD (st.gLastX, st.gLastY)).2) ∧
    (mouseEvents FloatArith.exact logProcessMouseMovement st events).gCamera.length =
      st.gCamera.length + events.length := by
  induction events generalizing st with
  | nil => simp [mouseEvents]
  | cons e rest ih =>
    obtain ⟨x, y⟩ := e
    obtain ⟨hc, hx, hy, hf⟩ := UMousePositionCallback_log st x y hfirst
    have h := ih (UMousePositionCallback FloatArith.exact logProcessMouseMovement st x y) hf
    rw [hc, hx, hy] at h
    obtain ⟨h1, h2, h3⟩ := h
    simp only [mouseEvents, List.getLastD_cons]
    refine ⟨?_, ?_, ?_⟩
    · rw [h1, xOffsets_append]
      simp [xOffsets]
      ring
    · rw [h2, yOffsets_append]
      simp [yOffsets]
      ring
    · rw [h3]
      simp
      ring

/-- The first event from the startup state, on the recording camera. -/
theorem UMousePositionCallback_first_step (xpos ypos : ℚ) :
    (UMousePositionCallback FloatArith.exact logProcessMouseMovement
        (AppState.startup ([] : List CameraCall)) xpos ypos).gCamera =
      [CameraCall.ProcessMouseMovement 0 0] ∧
    (UMousePositionCallback FloatArith.exact logProcessMouseMovement
        (AppState.startup ([] : List CameraCall)) xpos ypos).gLastX = xpos ∧
    (UMousePositionCallback FloatArith.exact logProcessMouseMovement
        (AppState.startup ([] : List CameraCall)) xpos ypos).gLastY = ypos ∧
    (UMousePositionCallback FloatArith.exact logProcessMouseMovement
        (AppState.startup ([] : List CameraCall)) xpos ypos).gFirstMouse = false := by
  simp [UMousePositionCallback, AppState.startup, logProcessMouseMovement, FloatArith.exact]

/-- C25: for the cursor positions `first :: rest` delivered from the startup
state to the recording camera, in exact arithmetic, one `ProcessMouseMovement`
call is recorded per position, the recorded x offsets sum to the last x minus
the first x and the recorded y offsets sum to the first y minus the last y; the
startup values of `gLastX` and `gLastY` and the positions in between do not
occur in the sums. -/
theorem mouseEvents_offsets_sum (first : ℚ × ℚ) (rest : List (ℚ × ℚ)) :
    (xOffsets (mouseEvents FloatArith.exact logProcessMouseMovement (AppState.startup [])
        (first :: rest)).gCamera).sum = (rest.getLastD first).1 - first.1 ∧
    (yOffsets (mouseEvents FloatArith.exact logProcessMouseMovement (AppState.startup [])
        (first :: rest)).gCamera).sum = first.2 - (rest.getLastD first).2 ∧
    (mouseEvents FloatArith.exact logProcessMouseMovement (AppState.startup [])
        (first :: rest)).gCamera.length = (first :: rest).length := by
  obtain ⟨x, y⟩ := first
  have hc : (UMousePositionCallback FloatArith.exact logProcessMouseMovement
      (AppState.startup ([] : List CameraCall)) x y).gCamera =
      [CameraCall.ProcessMouseMovement 0 0] := by
    simp [UMousePositionCallback, AppState.startup, logProcessMouseMovement, FloatArith.exact]
  obtain ⟨_, hx, hy, hf⟩ := UMousePositionCallback_first_step x y
  have h := mouseEvents_offsets
    (UMousePositionCallback FloatArith.exact logProcessMouseMovement (AppState.startup []) x y) rest hf
  rw [hc, hx, hy] at h
  obtain ⟨h1, h2, h3⟩ := h
  simp only [mouseEvents]
  refine ⟨?_, ?_, ?_⟩
  · rw [h1]
    simp [xOffsets]
  · rw [h2]
    simp [yOffsets]
  · rw [h3]
    simp
    ring

/-- Three positions evaluated: offsets (0, 0), (7, -20), (-2, 15). -/
theorem mouseEvents_offsets_example :
    (mouseEvents FloatArith.exact logProcessMouseMovement (AppState.startup [])
      [(3, 50), (10, 70), (8, 55)]).gCamera =
      [ CameraCall.ProcessMouseMovement 0 0, CameraCall.ProcessMouseMovement 7 (-20),
        CameraCall.ProcessMouseMovement (-2) 15 ] := by
  norm_num [mouseEvents, UMousePositionCallback, AppState.startup, logProcessMouseMovement,
    FloatArith.exact]

/-! ## Scroll events do not reach the camera or the frame -/

theorem withSpeed_self {C : Type} (st : AppState C) : st.withSpeed st.cameraSpeed = st := rfl

theorem withSpeed_withSpeed {C : Type} (st : AppState C) (s t : ℚ) :
    (st.withSpeed s).withSpeed t = st.withSpeed t := rfl

theorem withSpeed_gDeltaTime {C : Type} (st : AppState C) (s : ℚ) :
    (st.withSpeed s).gDeltaTime = st.gDeltaTime := rfl

theorem withSpeed_gCamera {C : Type} (st : AppState C) (s : ℚ) :
    (st.withSpeed s).gCamera = st.gCamera := rfl

theorem closeOnKey_withSpeed {C : Type} (pressed : Key → Bool) (k : Key) (st : AppState C)
    (s : ℚ) :
    closeOnKey pressed k (st.withSpeed s) = (closeOnKey pressed k st).withSpeed s := by
  unfold closeOnKey
  split_ifs <;> rfl

theorem moveOnKey_withSpeed {C : Type} (ProcessKeyboard : C → Camera_Movement → ℚ → C)
    (pressed : Key → Bool) (k : Key) (direction : Camera_Movement) (deltaTime : ℚ)
    (st : AppState C) (s : ℚ) :
    moveOnKey ProcessKeyboard pressed k direction deltaTime (st.withSpeed s) =
      (moveOnKey ProcessKeyboard pressed k direction deltaTime st).withSpeed s := by
  unfold moveOnKey
  split_ifs <;> rfl

theorem projectOnKey_withSpeed {C : Type} (pressed : Key → Bool) (k : Key) (value : Bool)
    (st : AppState C) (s : ℚ) :
    projectOnKey pressed k value (st.withSpeed s) = (projectOnKey pressed k value st).withSpeed s := by
  unfold projectOnKey
  split_ifs <;> rfl

/-- `UProcessInput` neither reads nor writes the global `cameraSpeed`. -/
theorem UProcessInput_withSpeed {C : Type} (ProcessKeyboard : C → Camera_Movement → ℚ → C)
    (pressed : Key → Bool) (st : AppState C) (s : ℚ) :
    UProcessInput ProcessKeyboard pressed (st.withSpeed s) =
      (UProcessInput ProcessKeyboard pressed st).withSpeed s := by
  simp only [UProcessInput, closeOnKey_withSpeed, moveOnKey_withSpeed, projectOnKey_withSpeed,
    withSpeed_gDeltaTime]

/-- `UMousePositionCallback` neither reads nor writes the global `cameraSpeed`. -/
theorem UMousePositionCallback_withSpeed {C : Type} (ar : FloatArith)
    (ProcessMouseMovement : C → ℚ → ℚ → C) (st : AppState C) (xpos ypos s : ℚ) :
    UMousePositionCallback ar ProcessMouseMovement (st.withSpeed s) xpos ypos =
      (UMousePositionCallback ar ProcessMouseMovement st xpos ypos).withSpeed s := by
  unfold UMousePositionCallback AppState.withSpeed
  by_cases h : st.gFirstMouse = true <;> simp [h]

/-- `URender` does not read the global `cameraSpeed`. -/
theorem URender_withSpeed {C M : Type} (glm : GLM M) (cam : CameraView C M)
    (st : AppState C) (s : ℚ) :
    URender glm cam (st.withSpeed s) = URender glm cam st := rfl

/-- `UMouseScrollCallback` writes the global `cameraSpeed` and nothing else. -/
theorem UMouseScrollCallback_withSpeed {C : Type} (ar : FloatArith) (st : AppState C)
    (xoffset yoffset : ℚ) :
    UMouseScrollCallback ar st xoffset yoffset =
      st.withSpeed (UMouseScrollCallback ar st xoffset yoffset).cameraSpeed := by
  unfold UMouseScrollCallback AppState.withSpeed
  by_cases h1 : yoffset > 0 ∧ st.cameraSpeed < ar.toFloat 0.1
  · have h2 : ¬ yoffset < 0 := by linarith [h1.1]
    simp [h1, h2]
  · by_cases h2 : yoffset < 0 ∧ st.cameraSpeed > ar.toFloat 0.01 <;> simp [h1, h2]

theorem stepEvent_frame_withSpeed {C M : Type} (ar : FloatArith) (glm : GLM M)
    (cam : CameraView C M) (ProcessKeyboard : C → Camera_Movement → ℚ → C)
    (ProcessMouseMovement : C → ℚ → ℚ → C) (st : AppState C) (s currentFrame : ℚ)
    (pressed : Key → Bool) :
    stepEvent ar glm cam ProcessKeyboard ProcessMouseMovement (st.withSpeed s)
        (InputEvent.frame currentFrame pressed) =
      ((stepEvent ar glm cam ProcessKeyboard ProcessMouseMovement st
          (InputEvent.frame currentFrame pressed)).1.withSpeed s,
       (stepEvent ar glm cam ProcessKeyboard ProcessMouseMovement st
          (InputEvent.frame currentFrame pressed)).2) := by
  have e1 : ({ st.withSpeed s with
        gDeltaTime := ar.toFloat (ar.toFloat currentFrame - (st.withSpeed s).gLastFrame),
        gLastFrame := ar.toFloat currentFrame } : AppState C) =
      ({ st with gDeltaTime := ar.toFloat (ar.toFloat currentFrame - st.gLastFrame),
                 gLastFrame := ar.toFloat currentFrame } : AppState C).withSpeed s := rfl
  simp only [stepEvent]
  rw [e1, UProcessInput_withSpeed]
  rfl

theorem stepEvent_cursor_withSpeed {C M : Type} (ar : FloatArith) (glm : GLM M)
    (cam : CameraView C M) (ProcessKeyboard : C → Camera_Movement → ℚ → C)
    (ProcessMouseMovement : C → ℚ → ℚ → C) (st : AppState C) (s xpos ypos : ℚ) :
    stepEvent ar glm cam ProcessKeyboard ProcessMouseMovement (st.withSpeed s)
        (InputEvent.cursor xpos ypos) =
      ((stepEvent ar glm cam ProcessKeyboard ProcessMouseMovement st
          (InputEvent.cursor xpos ypos)).1.withSpeed s,
       (stepEvent ar glm cam ProcessKeyboard ProcessMouseMovement st
          (InputEvent.cursor xpos ypos)).2) := by
  simp only [stepEvent, UMousePositionCallback_withSpeed]

theorem stepEvent_scroll_withSpeed {C M : Type} (ar : FloatArith) (glm : GLM M)
    (cam : CameraView C M) (ProcessKeyboard : C → Camera_Movement → ℚ → C)
    (ProcessMouseMovement : C → ℚ → ℚ → C) (st : AppState C) (s xoffset yoffset : ℚ) :
    stepEvent ar glm cam ProcessKeyboard ProcessMouseMovement (st.withSpeed s)
        (InputEvent.scroll xoffset yoffset) =
      (st.withSpeed (UMouseScrollCallback ar (st.withSpeed s) xoffset yoffset).cameraSpeed,
        []) := by
  simp only [stepEvent]
  rw [UMouseScrollCallback_withSpeed, withSpeed_withSpeed]
  rfl

/-- A run from a state with any value in `cameraSpeed` shows what the run
without its scroll events shows from the state itself, and ends in the same
state up to `cameraSpeed`. -/
theorem runEvents_withSpeed {C M : Type} (ar : FloatArith) (glm : GLM M)
    (cam : CameraView C M) (ProcessKeyboard : C → Camera_Movement → ℚ → C)
    (ProcessMouseMovement : C → ℚ → ℚ → C) (events : List InputEvent) (st : AppState C)
    (s : ℚ) :
    (runEvents ar glm cam ProcessKeyboard ProcessMouseMovement (st.withSpeed s) events).2 =
      (runEvents ar glm cam ProcessKeyboard ProcessMouseMovement st
        (events.filter (fun e => !e.isScroll))).2 ∧
    ∃ s2 : ℚ,
      (runEvents ar glm cam ProcessKeyboard ProcessMouseMovement (st.withSpeed s) events).1 =
        (runEvents ar glm cam ProcessKeyboard ProcessMouseMovement st
          (events.filter (fun e => !e.isScroll))).1.withSpeed s2 := by
  induction events generalizing st s with
  | nil => exact ⟨rfl, s, rfl⟩
  | cons e rest ih =>
    cases e with
    | frame currentFrame pressed =>
      obtain ⟨h1, s2, h2⟩ := ih (stepEvent ar glm cam ProcessKeyboard ProcessMouseMovement st
        (InputEvent.frame currentFrame pressed)).1 s
      have hf : (InputEvent.frame currentFrame pressed :: rest).filter (fun e => !e.isScroll) =
          InputEvent.frame currentFrame pressed :: rest.filter (fun e => !e.isScroll) := rfl
      rw [hf]
      simp only [runEvents, stepEvent_frame_withSpeed]
      exact ⟨by rw [h1], s2, h2⟩
    | cursor xpos ypos =>
      obtain ⟨h1, s2, h2⟩ := ih (stepEvent ar glm cam ProcessKeyboard ProcessMouseMovement st
        (InputEvent.cursor xpos ypos)).1 s
      have hf : (InputEvent.cursor xpos ypos :: rest).filter (fun e => !e.isScroll) =
          InputEvent.cursor xpos ypos :: rest.filter (fun e => !e.isScroll) := rfl
      rw [hf]
      simp only [runEvents, stepEvent_cursor_withSpeed]
      exact ⟨by rw [h1], s2, h2⟩
    | scroll xoffset yoffset =>
      obtain ⟨h1, s2, h2⟩ := ih st
        (UMouseScrollCallback ar (st.withSpeed s) xoffset yoffset).cameraSpeed
      have hf : (InputEvent.scroll xoffset yoffset :: rest).filter (fun e => !e.isScroll) =
          rest.filter (fun e => !e.isScroll) := rfl
      rw [hf]
      simp only [runEvents, stepEvent_scroll_withSpeed, List.nil_append]
      exact ⟨h1, s2, h2⟩

/-- C22: two runs from the same state whose events agree once the scroll
events are taken out show the same loop rounds, camera after `UProcessInput`
and commands of `URender` alike, for every camera implementation and in every
arithmetic, and end with the same camera. -/
theorem runEvents_ignores_scroll {C M : Type} (ar : FloatArith) (glm : GLM M)
    (cam : CameraView C M) (ProcessKeyboard : C → Camera_Movement → ℚ → C)
    (ProcessMouseMovement : C → ℚ → ℚ → C) (st : AppState C)
    (events1 events2 : List InputEvent)
    (hsame : events1.filter (fun e => !e.isScroll) = events2.filter (fun e => !e.isScroll)) :
    (runEvents ar glm cam ProcessKeyboard ProcessMouseMovement st events1).2 =
      (runEvents ar glm cam ProcessKeyboard ProcessMouseMovement st events2).2 ∧
    (runEvents ar glm cam ProcessKeyboard ProcessMouseMovement st events1).1.gCamera =
      (runEvents ar glm cam ProcessKeyboard ProcessMouseMovement st events2).1.gCamera := by
  obtain ⟨a1, s1, b1⟩ := runEvents_withSpeed ar glm cam ProcessKeyboard ProcessMouseMovement
    events1 st st.cameraSpeed
  obtain ⟨a2, s2, b2⟩ := runEvents_withSpeed ar glm cam ProcessKeyboard ProcessMouseMovement
    events2 st st.cameraSpeed
  rw [withSpeed_self] at a1 a2 b1 b2
  rw [a1, a2, b1, b2, hsame]
  exact ⟨rfl, rfl⟩

/-- Witness for C22: a loop round with W held, once with scroll events around
it and once without. -/
theorem runEvents_ignores_scroll_witness :
    [InputEvent.scroll 0 (-1), InputEvent.frame 1 (pressedOnly Key.W), InputEvent.scroll 0 (-1)
      ].filter (fun e => !e.isScroll) =
      [InputEvent.frame 1 (pressedOnly Key.W)].filter (fun e => !e.isScroll) ∧
    (runEvents FloatArith.ieee symbolicGLM logCameraView logProcessKeyboard logProcessMouseMovement
        (AppState.startup [])
        [InputEvent.scroll 0 (-1), InputEvent.frame 1 (pressedOnly Key.W),
          InputEvent.scroll 0 (-1)]).2 =
      (runEvents FloatArith.ieee symbolicGLM logCameraView logProcessKeyboard logProcessMouseMovement
        (AppState.startup []) [InputEvent.frame 1 (pressedOnly Key.W)]).2 ∧
    (runEvents FloatArith.ieee symbolicGLM logCameraView logProcessKeyboard logProcessMouseMovement
        (AppState.startup [])
        [InputEvent.scroll 0 (-1), InputEvent.frame 1 (pressedOnly Key.W),
          InputEvent.scroll 0 (-1)]).1.gCamera =
      (runEvents FloatArith.ieee symbolicGLM logCameraView logProcessKeyboard logProcessMouseMovement
        (AppState.startup []) [InputEvent.frame 1 (pressedOnly Key.W)]).1.gCamera :=
  ⟨rfl, runEvents_ignores_scroll FloatArith.ieee symbolicGLM logCameraView logProcessKeyboard
    logProcessMouseMovement (AppState.startup [])
    [InputEvent.scroll 0 (-1), InputEvent.frame 1 (pressedOnly Key.W), InputEvent.scroll 0 (-1)]
    [InputEvent.frame 1 (pressedOnly Key.W)] rfl⟩

/-! ## The texture handles of a run -/

/-- The returned `bool` of `UCreateTexture` does not depend on the value its
reference parameter held before the call. -/
theorem UCreateTexture_ok_loadTexture (env : Environment) (slot : TextureSlot) (id : GLuint) :
    (UCreateTexture env.stbi_load (env.genTexture slot) slot.filename id).ok =
      (loadTexture env slot).ok := by
  unfold loadTexture UCreateTexture
  split
  · split_ifs <;> rfl
  · rfl

/-- A call that returns true leaves in `textureId` the name its one
`glGenTextures` call was handed. -/
theorem UCreateTexture_textureId_of_ok (env : Environment) (slot : TextureSlot) (id : GLuint)
    (h : (loadTexture env slot).ok = true) :
    (UCreateTexture env.stbi_load (env.genTexture slot) slot.filename id).textureId =
      env.genTexture slot ∧
    generatedNames (loadTexture env slot).commands = [env.genTexture slot] := by
  unfold loadTexture UCreateTexture at h ⊢
  split at h
  · split_ifs at h ⊢ <;> simp_all [generatedNames]
  · simp at h

/-- The texture globals when every startup step succeeds: each holds the name
generated in the call for its own slot. -/
theorem mainTextures_of_success {C : Type} (env : Environment) (st : AppState C)
    (h0 : (UInitialize env).ok = true) (h1 : (UCreateShaderProgram env.litShader).ok = true)
    (h2 : (UCreateShaderProgram env.lampShader).ok = true)
    (hload : ∀ s ∈ textureOrder, (loadTexture env s).ok = true) :
    mainTextures env st = some
      { st with
        deskTextureId := env.genTexture TextureSlot.desk
        monitorTextureId := env.genTexture TextureSlot.monitor
        pcTextureId := env.genTexture TextureSlot.pc
        filingCabinetTextureId := env.genTexture TextureSlot.filingCabinet
        speakerTextureId := env.genTexture TextureSlot.speaker
        keyboardTextureId := env.genTexture TextureSlot.keyboard } := by
  simp only [textureOrder, List.mem_cons, List.mem_singleton, forall_eq_or_imp, forall_eq,
    List.not_mem_nil, false_implies, implies_true, and_true] at hload
  obtain ⟨a0, a1, a2, a3, a4, a5⟩ := hload
  simp only [mainTextures, UCreateTexture_ok_loadTexture, h0, h1, h2, a0, a1, a2, a3, a4, a5,
    (UCreateTexture_textureId_of_ok env _ _ a0).1, (UCreateTexture_textureId_of_ok env _ _ a1).1,
    (UCreateTexture_textureId_of_ok env _ _ a2).1, (UCreateTexture_textureId_of_ok env _ _ a3).1,
    (UCreateTexture_textureId_of_ok env _ _ a4).1, (UCreateTexture_textureId_of_ok env _ _ a5).1,
    Bool.true_eq_false, if_false]

/-- The run of `main` in which every startup step succeeds. -/
theorem main_of_success (env : Environment) (h0 : (UInitialize env).ok = true)
    (h1 : (UCreateShaderProgram env.litShader).ok = true)
    (h2 : (UCreateShaderProgram env.lampShader).ok = true)
    (hload : ∀ s ∈ textureOrder, (loadTexture env s).ok = true) :
    main env = { exitCode := EXIT_SUCCESS,
                 events := startupPrefix env ++ textureOrder.map MainEvent.UCreateTexture ++
                   [MainEvent.samplerSetup] ++ renderLoop env.frames ++ teardown } := by
  simp only [textureOrder, List.mem_cons, List.mem_singleton, forall_eq_or_imp, forall_eq,
    List.not_mem_nil, false_implies, implies_true, and_true] at hload
  obtain ⟨a0, a1, a2, a3, a4, a5⟩ := hload
  have p0 := UInitialize_printed_of_ok env h0
  have p1 := UCreateShaderProgram_printed_of_ok _ h1
  have p2 := UCreateShaderProgram_printed_of_ok _ h2
  have q0 := loadTexture_printed_of_ok env _ a0
  have q1 := loadTexture_printed_of_ok env _ a1
  have q2 := loadTexture_printed_of_ok env _ a2
  have q3 := loadTexture_printed_of_ok env _ a3
  have q4 := loadTexture_printed_of_ok env _ a4
  have q5 := loadTexture_printed_of_ok env _ a5
  simp [main, h0, h1, h2, a0, a1, a2, a3, a4, a5, p0, p1, p2, q0, q1, q2, q3, q4, q5,
    startupPrefix, textureCall, textureOrder]

/-- The render loop holds no `UCreateTexture` call. -/
theorem filterMap_loadedSlot_renderLoop (n : Nat) :
    (renderLoop n).filterMap MainEvent.loadedSlot = [] := by
  induction n with
  | zero => rfl
  | succ n ih => simp [renderLoop, MainEvent.loadedSlot, ih]

/-- C17, amended: the eight lit draws bind, in draw order, the handles of the
filing cabinet, desk, PC, keyboard, monitor, speaker, desk and monitor
textures, from every state: the desk leg is drawn with the desk handle and the
monitor stand with the monitor handle.  In a run of `main` whose startup
succeeds there are six `UCreateTexture` calls, one per texture global in load
order; each generates one name and leaves it in its own global; the eight draws
then bind the names generated for `drawSlots`; and when the six names differ,
two draws bind the same name exactly when they are drawn from the same
global. -/
theorem URender_texture_bindings {C M : Type} (glm : GLM M) (cam : CameraView C M)
    (st : AppState C) (g : GLState M) (env : Environment)
    (h0 : (UInitialize env).ok = true) (h1 : (UCreateShaderProgram env.litShader).ok = true)
    (h2 : (UCreateShaderProgram env.lampShader).ok = true)
    (hload : ∀ s ∈ textureOrder, (loadTexture env s).ok = true) :
    (((drawCalls g (URender glm cam st)).take 8).map (fun d => d.state.texture) =
        [ st.filingCabinetTextureId, st.deskTextureId, st.pcTextureId, st.keyboardTextureId,
          st.monitorTextureId, st.speakerTextureId, st.deskTextureId, st.monitorTextureId ] ∧
      ((drawCalls g (URender glm cam st))[6]?).map (fun d => d.state.texture) =
        ((drawCalls g (URender glm cam st))[1]?).map (fun d => d.state.texture) ∧
      ((drawCalls g (URender glm cam st))[7]?).map (fun d => d.state.texture) =
        ((drawCalls g (URender glm cam st))[4]?).map (fun d => d.state.texture)) ∧
    (main env).events.filterMap MainEvent.loadedSlot = textureOrder ∧
    (∀ slot ∈ textureOrder,
      generatedNames (loadTexture env slot).commands = [env.genTexture slot]) ∧
    ∃ loaded : AppState C, mainTextures env st = some loaded ∧
      (∀ slot : TextureSlot, slot.global loaded = env.genTexture slot) ∧
      ((drawCalls g (URender glm cam loaded)).take 8).map (fun d => d.state.texture) =
        drawSlots.map env.genTexture ∧
      (Function.Injective env.genTexture → ∀ i j : Nat, i < 8 → j < 8 →
        ((((drawCalls g (URender glm cam loaded)).take 8).map (fun d => d.state.texture))[i]? =
            (((drawCalls g (URender glm cam loaded)).take 8).map
              (fun d => d.state.texture))[j]? ↔
          drawSlots[i]? = drawSlots[j]?)) := by
  refine ⟨⟨URender_textures glm cam st g, ?_, ?_⟩, ?_, ?_, ?_⟩
  · simp [URender, filingCabinetRegion, objectRegion, lightRegion, drawCalls, GLState.exec]
  · simp [URender, filingCabinetRegion, objectRegion, lightRegion, drawCalls, GLState.exec]
  · rw [main_of_success env h0 h1 h2 hload]
    simp [startupPrefix, textureOrder, teardown, MainEvent.loadedSlot, List.filterMap_append,
      filterMap_loadedSlot_renderLoop]
  · intro slot hslot
    exact (UCreateTexture_textureId_of_ok env slot 0 (hload slot hslot)).2
  · refine ⟨_, mainTextures_of_success env st h0 h1 h2 hload, ?_, ?_, ?_⟩
    · intro slot
      cases slot <;> rfl
    · rw [URender_textures]
      rfl
    · intro hinj i j hi hj
      rw [URender_textures]
      have hmap : ∀ k : Nat,
          ([ env.genTexture TextureSlot.filingCabinet, env.genTexture TextureSlot.desk,
             env.genTexture TextureSlot.pc, env.genTexture TextureSlot.keyboard,
             env.genTexture TextureSlot.monitor, env.genTexture TextureSlot.speaker,
             env.genTexture TextureSlot.desk, env.genTexture TextureSlot.monitor ] : List GLuint)[k]?
            = (drawSlots[k]?).map env.genTexture := by
        intro k
        rw [← List.getElem?_map]
        rfl
      show ([ env.genTexture TextureSlot.filingCabinet, env.genTexture TextureSlot.desk,
             env.genTexture TextureSlot.pc, env.genTexture TextureSlot.keyboard,
             env.genTexture TextureSlot.monitor, env.genTexture TextureSlot.speaker,
             env.genTexture TextureSlot.desk, env.genTexture TextureSlot.monitor ] : List GLuint)[i]?
          = ([ env.genTexture TextureSlot.filingCabinet, env.genTexture TextureSlot.desk,
             env.genTexture TextureSlot.pc, env.genTexture TextureSlot.keyboard,
             env.genTexture TextureSlot.monitor, env.genTexture TextureSlot.speaker,
             env.genTexture TextureSlot.desk, env.genTexture TextureSlot.monitor ] : List GLuint)[j]?
          ↔ _
      rw [hmap i, hmap j]
      exact (Option.map_injective hinj).eq_iff

/-- Witness for C17: the environment in which every file decodes and the
driver names the textures 1 to 6 in load order; the eight draws bind 4, 1, 3,
6, 2, 5, 1, 2. -/
theorem URender_texture_bindings_witness :
    (UInitialize (sampleEnvironment [])).ok = true ∧
    (∀ s ∈ textureOrder, (loadTexture (sampleEnvironment []) s).ok = true) ∧
    (main (sampleEnvironment [])).events.filterMap MainEvent.loadedSlot = textureOrder ∧
    ∃ loaded : AppState (List CameraCall),
      mainTextures (sampleEnvironment []) (AppState.startup []) = some loaded ∧
      ((drawCalls emptyContext (URender symbolicGLM logCameraView loaded)).take 8).map
        (fun d => d.state.texture) = [4, 1, 3, 6, 2, 5, 1, 2] :=
  have h := URender_texture_bindings symbolicGLM logCameraView
    (AppState.startup ([] : List CameraCall)) emptyContext (sampleEnvironment []) rfl rfl rfl
    (by decide)
  ⟨rfl, by decide, h.2.1,
    h.2.2.2.elim fun loaded hl => ⟨loaded, hl.1, hl.2.2.1⟩⟩

end FinalProject
